import Mathlib

/-! # prom-azerothcore-exporter: collection contract

A shallow embedding of `pkg/constants/constants.go`, of the metric registry of
`metrics/definitions.go` and of the collection groups of
`internal/exporter/collectors.go` and `internal/exporter/collector.go`, of
`pkg/database/connection.go` and `config/config.go`, and of the lookup data of
the legacy `main.go`.

Modelling conventions.

* Go `int` codes and counts are integers (`Int`).
* A gauge value is a `float64` in the source; here it is an `Int`, the value
  of the float64.  Every value the groups publish is either `float64(n)` for an
  integer `n` or an SQL aggregate that is passed through unchanged.  `Set`
  stores the integer it is given, which is its own float64 for magnitudes up to
  `2^53`.  `Add` adds as float64 arithmetic does: the conversion of its argument
  and the sum are rounded to the nearest float64, ties to even (`roundF64`).
* A Go `map[int]string` is an association list; indexing a missing key yields
  the empty string, as in Go.
* The database is not modelled: every query of a group is given its outcome
  (an error, or the rows it returns, each of which scans or fails to scan).
* A gauge vector is the list of its series, a label tuple with its value.
-/

namespace AzerothExporter

/-! ## Errors and query outcomes -/

/-- Go `error` values that the collectors can observe: the sentinel
`sql.ErrNoRows` and any other error, carried by its message. -/
inductive Err where
  | ErrNoRows : Err
  | other (msg : String) : Err
  deriving DecidableEq, Repr

/-- The text of `err.Error()`, the rendering of `%v` for an error. -/
def Err.Error : Err → String
  | .ErrNoRows => "sql: no rows in result set"
  | .other msg => msg

/-- Result of `fmt.Errorf(msg + ": %v", err)`. -/
def Errorf (msg : String) (err : Err) : Err :=
  .other (msg ++ ": " ++ err.Error)

/-- Outcome of `QueryRow(...).Scan(...)`: the scanned value or the error. -/
abbrev RowResult (α : Type) := Except Err α

/-- Outcome of `Query(...)`: an error, or the rows that `rows.Next()` yields,
each with the outcome of its `rows.Scan(...)`. -/
abbrev QueryResult (α : Type) := Except Err (List (Except Err α))

/-- The value of a `sql.NullInt64` / `sql.NullFloat64`: `none` when `Valid` is
false. -/
abbrev Null (α : Type) := Option α

/-! ## fmt.Sprintf("%d", n) -/

/-- Decimal rendering of `%d`: the digits of the absolute value, preceded by a
minus sign for a negative number. -/
def fmtD : Int → String
  | .ofNat n => Nat.repr n
  | .negSucc n => "-" ++ Nat.repr (n + 1)

/-! ## Go maps -/

/-- A `map[int]string` literal. -/
abbrev GoMap := List (Int × String)

/-- The two-valued lookup `name, exists := m[k]`. -/
def GoMap.find (m : GoMap) (k : Int) : Option String :=
  match m with
  | [] => none
  | (k', v) :: rest => if k' = k then some v else GoMap.find rest k

/-- The one-valued lookup `m[k]`: the zero value `""` for a missing key. -/
def GoMap.index (m : GoMap) (k : Int) : String :=
  (m.find k).getD ""

/-! ## pkg/constants/constants.go -/

def RaceToFaction : GoMap :=
  [ (1, "Alliance"), (2, "Horde"), (3, "Alliance"), (4, "Alliance"),
    (5, "Horde"), (6, "Horde"), (7, "Alliance"), (8, "Horde"), (9, "Horde"),
    (10, "Horde"), (11, "Alliance"), (22, "Horde"), (24, "Alliance"),
    (25, "Alliance"), (26, "Horde") ]

def RaceNames : GoMap :=
  [ (1, "Human"), (2, "Orc"), (3, "Dwarf"), (4, "Night Elf"), (5, "Undead"),
    (6, "Tauren"), (7, "Gnome"), (8, "Troll"), (9, "Goblin"),
    (10, "Blood Elf"), (11, "Draenei"), (22, "Worgen"),
    (24, "Pandaren (Neutral)"), (25, "Pandaren (Alliance)"),
    (26, "Pandaren (Horde)") ]

def ClassNames : GoMap :=
  [ (1, "Warrior"), (2, "Paladin"), (3, "Hunter"), (4, "Rogue"), (5, "Priest"),
    (6, "Death Knight"), (7, "Shaman"), (8, "Mage"), (9, "Warlock"),
    (10, "Monk"), (11, "Druid"), (12, "Demon Hunter") ]

def difficultyNames : GoMap :=
  [ (0, "Normal"), (1, "Heroic"), (2, "10_Player"), (3, "25_Player"),
    (4, "10_Player_Heroic"), (5, "25_Player_Heroic") ]

def GetDifficultyName (difficulty : Int) : String :=
  match difficultyNames.find difficulty with
  | some name => name
  | none => "Unknown_" ++ fmtD difficulty

def stateNames : GoMap :=
  [ (0, "None"), (1, "RoleCheck"), (2, "Queued"), (3, "Proposal"), (4, "Boot"),
    (5, "Dungeon"), (6, "FinishedDungeon") ]

def GetLFGStateName (state : Int) : String :=
  match stateNames.find state with
  | some name => name
  | none => "Unknown_" ++ fmtD state

def typeNames : GoMap :=
  [ (0, "Login"), (1, "Failed_Login"), (2, "Logout"), (3, "Character_Create"),
    (4, "Character_Delete"), (5, "Character_Login"), (6, "Character_Logout"),
    (7, "Password_Change"), (8, "Account_Create"), (9, "Account_Delete") ]

def GetIPActionTypeName (actionType : Int) : String :=
  match typeNames.find actionType with
  | some name => name
  | none => "Unknown_" ++ fmtD actionType

def lagTypeNames : GoMap :=
  [ (0, "World"), (1, "Instance"), (2, "Battleground"), (3, "Arena"),
    (4, "Raid") ]

def GetLagTypeName (lagType : Int) : String :=
  match lagTypeNames.find lagType with
  | some name => name
  | none => "Unknown_" ++ fmtD lagType

def bgTypeNames : GoMap :=
  [ (1, "Alterac Valley"), (2, "Warsong Gulch"), (3, "Arathi Basin"),
    (4, "Eye of the Storm"), (5, "Strand of the Ancients"),
    (6, "Isle of Conquest"), (7, "Twin Peaks"), (8, "Battle for Gilneas"),
    (9, "Temple of Kotmogu"), (10, "Silvershard Mines"),
    (11, "Deepwind Gorge") ]

def GetBattlegroundTypeName (bgType : Int) : String :=
  match bgTypeNames.find bgType with
  | some name => name
  | none => "Unknown_" ++ fmtD bgType

def desertionTypeNames : GoMap :=
  [ (0, "Leave"), (1, "Offline"), (2, "Desert"), (3, "Finish") ]

def GetDesertionTypeName (desertionType : Int) : String :=
  match desertionTypeNames.find desertionType with
  | some name => name
  | none => "Unknown_" ++ fmtD desertionType

/-! ## float64 values -/

/-- The number of low bits that a float64 drops from the natural number `n`: the
least `e` with `n / 2 ^ e < 2 ^ 53`.  The first argument bounds the search; it
is taken to be `n`. -/
def droppedBits : Nat → Nat → Nat
  | 0, _ => 0
  | fuel + 1, n => if n < 2 ^ 53 then 0 else droppedBits fuel (n / 2) + 1

/-- Rounding of a natural number to the nearest number with a significand of 53
bits, ties to the even significand (IEEE 754 round-to-nearest-even). -/
def roundNat (n : Nat) : Nat :=
  let e := droppedBits n n
  let q := n / 2 ^ e
  let rest := n % 2 ^ e
  if 2 * rest < 2 ^ e ∨ (2 * rest = 2 ^ e ∧ q % 2 = 0) then q * 2 ^ e
  else (q + 1) * 2 ^ e

/-- The float64 nearest to the integer `x`: the result of the conversion
`float64(x)` and of rounding an exact sum of float64 values.  An integer of
magnitude up to `2 ^ 53` is a float64 itself.  Overflow to infinity (magnitudes
from `2 ^ 1024` on) is not modelled. -/
def roundF64 (x : Int) : Int :=
  if x.natAbs ≤ 2 ^ 53 then x else x.sign * roundNat x.natAbs

/-- The float64 sum `y + float64(x)` of a gauge value `y` and the conversion of
the Go integer `x`. -/
def f64Add (y x : Int) : Int := roundF64 (y + roundF64 x)

/-! ## Gauges and gauge vectors -/

/-- A scalar gauge: its current value. -/
abbrev Gauge := Int

/-- A labelled gauge vector: its series, each a label tuple with a value. -/
abbrev GaugeVec := List (List String × Int)

/-- `v.Reset()`: drops every series. -/
def GaugeVec.Reset (_v : GaugeVec) : GaugeVec := []

/-- The value of the series with label tuple `ls`, if the vector has one. -/
def GaugeVec.value (v : GaugeVec) (ls : List String) : Option Int :=
  match v with
  | [] => none
  | (ls', x) :: rest => if ls' = ls then some x else GaugeVec.value rest ls

/-- `v.WithLabelValues(ls...).Set(x)`: replaces the value of the series, which
is created when absent. -/
def GaugeVec.Set (v : GaugeVec) (ls : List String) (x : Int) : GaugeVec :=
  match v with
  | [] => [(ls, x)]
  | (ls', y) :: rest =>
    if ls' = ls then (ls, x) :: rest else (ls', y) :: GaugeVec.Set rest ls x

/-- `v.WithLabelValues(ls...).Add(float64(x))`: adds to the value of the series
in float64 arithmetic; the series is created with value 0 when absent. -/
def GaugeVec.Add (v : GaugeVec) (ls : List String) (x : Int) : GaugeVec :=
  match v with
  | [] => [(ls, f64Add 0 x)]
  | (ls', y) :: rest =>
    if ls' = ls then (ls, f64Add y x) :: rest
    else (ls', y) :: GaugeVec.Add rest ls x

/-- The label tuples of the series of a vector. -/
def GaugeVec.labels (v : GaugeVec) : List (List String) := v.map Prod.fst

/-- The sum of the values of all series of a vector. -/
def GaugeVec.total (v : GaugeVec) : Int := (v.map Prod.snd).sum

/-! ## metrics/definitions.go: the registry -/

/-- The scalar gauges (`prometheus.NewGauge`) of `metrics/definitions.go`. -/
inductive GaugeName where
  | MailTotal | MailWithItems | AccountsTotal | AccountsOnline | AccountsBanned
  | ServerUptime | ServerMaxPlayers | GuildCount | UnreadMailCount
  | GMAccountCount | LastServerRestart | BannedCharCount | ChannelCount
  | ChannelBans | GuildEventCount | MoneyLogCount | EncounterLogCount
  | ArenaLogCount | IPActionLogCount | ActiveInstanceCount
  | CharactersInInstances | LagReportsCount | InstanceSavesCount
  | IPBannedCount | AverageLatency | HighLatencyPlayers
  | BattlegroundDeserters | RandomBattlegroundQueue
  deriving DecidableEq, Repr

/-- The gauge vectors (`prometheus.NewGaugeVec`) of `metrics/definitions.go`.
`OnlinePlayersByLevel` is written by `collectPlayerMetrics` with two label
values (character name, account name); its declaration is not part of
`metrics/definitions.go`. -/
inductive VecName where
  | PlayersOnline | PlayersTotal | PlayersByLevel | PlayersByClass
  | OnlinePlayersByLevel | MailByFaction | AuctionCount | MaxLevelCharCount
  | LogCountByType | InstancesByDifficulty | CompletedEncounters
  | InstanceResets | LFGDataCount | PlayerLatencyStats | IPActionLogsByType
  | LagReportsByType | NetworkActivityByIP | BattlegroundDesertersByType
  | BattlegroundStats | BattlegroundsByType | BattlegroundsByBracket
  | BattlegroundWinsByFaction | BattlegroundPlayerStats
  | BattlegroundTemplates | BattlegroundTemplateDetails | RecentBattlegrounds
  deriving DecidableEq, Repr

/-- The state of the package-level metrics: the value of every scalar gauge
and the series of every gauge vector. -/
structure Registry where
  gauge : GaugeName → Gauge
  vec : VecName → GaugeVec

/-- The registry at process start: every scalar gauge is 0 and no vector has
a series. -/
def Registry.initial : Registry :=
  { gauge := fun _ => 0, vec := fun _ => [] }

/-- `metrics.<g>.Set(x)` on a scalar gauge. -/
def Registry.Set (r : Registry) (g : GaugeName) (x : Int) : Registry :=
  { gauge := Function.update r.gauge g x, vec := r.vec }

/-- `metrics.<g>.Add(float64(x))` on a scalar gauge. -/
def Registry.Add (r : Registry) (g : GaugeName) (x : Int) : Registry :=
  { gauge := Function.update r.gauge g (f64Add (r.gauge g) x), vec := r.vec }

/-- Applies an operation to the gauge vector `m`, leaving every other metric
as it is. -/
def Registry.onVec (r : Registry) (m : VecName) (f : GaugeVec → GaugeVec) :
    Registry :=
  { gauge := r.gauge, vec := Function.update r.vec m (f (r.vec m)) }

/-- `metrics.<m>.Reset()`. -/
def Registry.Reset (r : Registry) (m : VecName) : Registry :=
  r.onVec m GaugeVec.Reset

/-- `metrics.<m>.WithLabelValues(ls...).Set(x)`. -/
def Registry.SetV (r : Registry) (m : VecName) (ls : List String) (x : Int) :
    Registry :=
  r.onVec m (fun v => v.Set ls x)

/-- `metrics.<m>.WithLabelValues(ls...).Add(x)`. -/
def Registry.AddV (r : Registry) (m : VecName) (ls : List String) (x : Int) :
    Registry :=
  r.onVec m (fun v => v.Add ls x)

/-! ## Row loops -/

/-- The loop `for rows.Next() { if err := rows.Scan(..); err != nil { return err }; body }`
run on the state `s` that the body updates: it stops at the first row that
fails to scan and hands that error back, with the state reached so far. -/
def scanRows {α σ : Type} (body : α → σ → σ) :
    List (Except Err α) → σ → σ × Option Err
  | [], s => (s, none)
  | .error e :: _, s => (s, some e)
  | .ok row :: rest, s => scanRows body rest (body row s)

/-- The loop `for rows.Next() { if err := rows.Scan(..); err != nil { continue }; body }`:
a row that fails to scan is skipped. -/
def scanRowsContinue {α σ : Type} (body : α → σ → σ) :
    List (Except Err α) → σ → σ
  | [], s => s
  | .error _ :: rest, s => scanRowsContinue body rest s
  | .ok row :: rest, s => scanRowsContinue body rest (body row s)

/-- The statement `rows, err := Query(..); if err != nil { return err };
for rows.Next() { .. Scan .. return err .. body }` followed by the rest `k` of
the function. -/
def queryLoop {α : Type} (q : QueryResult α) (body : α → Registry → Registry)
    (r : Registry) (k : Registry → Registry × Option Err) :
    Registry × Option Err :=
  match q with
  | .error err => (r, some err)
  | .ok rows =>
    let res := scanRows body rows r
    match res.2 with
    | some err => (res.1, some err)
    | none => k res.1

/-- The statement `err := QueryRow(..).Scan(&x); if err != nil { return err }`
followed by the rest `k` of the function, which may use `x`. -/
def queryRow {α : Type} (q : RowResult α) (r : Registry)
    (k : α → Registry × Option Err) : Registry × Option Err :=
  match q with
  | .error err => (r, some err)
  | .ok x => k x

/-! ## internal/exporter/collectors.go -/

/-- Outcomes of the queries of `collectPlayerMetrics`, in the order they are
issued; `username id` is the outcome of the auth lookup for account `id`.
Row shapes: (race, count), (race, count), (level, race, count),
(class, race, count), (name, level, account). -/
structure PlayerQueries where
  online : QueryResult (Int × Int)
  total : QueryResult (Int × Int)
  byLevel : QueryResult (Int × Int × Int)
  byClass : QueryResult (Int × Int × Int)
  onlineChars : QueryResult (String × Int × Int)
  username : Int → RowResult String

/-- Body of the loops that accumulate a (race, count) row into the faction of
its race, in the vector `m`. -/
def addByFaction (m : VecName) (row : Int × Int) (r : Registry) : Registry :=
  let faction := RaceToFaction.index row.1
  if faction ≠ "" then r.AddV m [faction] row.2 else r

/-- Body of the players-by-level loop on a (level, race, count) row. -/
def addByLevel (row : Int × Int × Int) (r : Registry) : Registry :=
  let faction := RaceToFaction.index row.2.1
  if faction ≠ "" then r.AddV .PlayersByLevel [fmtD row.1, faction] row.2.2
  else r

/-- Body of the players-by-class loop on a (class, race, count) row. -/
def addByClass (row : Int × Int × Int) (r : Registry) : Registry :=
  let faction := RaceToFaction.index row.2.1
  let className := ClassNames.index row.1
  if faction ≠ "" ∧ className ≠ "" then
    r.AddV .PlayersByClass [className, faction] row.2.2
  else r

/-- State of the online-characters loop: the registry, the per-cycle memo table
`accountMap` and the account ids for which the auth database was queried. -/
structure OnlineCharsState where
  reg : Registry
  accountMap : GoMap
  lookups : List Int

/-- Body of the online-characters loop on a (name, level, account) row. -/
def setOnlineChar (username : Int → RowResult String) (row : String × Int × Int)
    (s : OnlineCharsState) : OnlineCharsState :=
  let characterName := row.1
  let level := row.2.1
  let accountID := row.2.2
  match s.accountMap.find accountID with
  | some accountName =>
    { reg := s.reg.SetV .OnlinePlayersByLevel [characterName, accountName] level,
      accountMap := s.accountMap, lookups := s.lookups }
  | none =>
    let name :=
      match username accountID with
      | .ok u => u
      | .error _ => "account_" ++ fmtD accountID
    { reg := s.reg.SetV .OnlinePlayersByLevel [characterName, name] level,
      accountMap := (accountID, name) :: s.accountMap,
      lookups := s.lookups ++ [accountID] }

/-- The last query of `collectPlayerMetrics` with its loop, which starts from
an empty `accountMap`. -/
def collectOnlineChars (q : PlayerQueries) (r : Registry) : Registry × Option Err :=
  match q.onlineChars with
  | .error err => (r, some err)
  | .ok rows =>
    let res := scanRows (setOnlineChar q.username) rows
      { reg := r, accountMap := [], lookups := [] }
    (res.1.reg, res.2)

def collectPlayerMetrics (q : PlayerQueries) (r : Registry) : Registry × Option Err :=
  let r := r.Reset .PlayersOnline
  let r := r.Reset .PlayersTotal
  let r := r.Reset .PlayersByLevel
  let r := r.Reset .PlayersByClass
  let r := r.Reset .OnlinePlayersByLevel
  queryLoop q.online (addByFaction .PlayersOnline) r fun r =>
  queryLoop q.total (addByFaction .PlayersTotal) r fun r =>
  queryLoop q.byLevel addByLevel r fun r =>
  queryLoop q.byClass addByClass r fun r =>
  collectOnlineChars q r

/-- Outcomes of the queries of `collectMailMetrics`; rows are (race, count). -/
structure MailQueries where
  totalMail : RowResult Int
  mailWithItemsCount : RowResult Int
  byFaction : QueryResult (Int × Int)

def collectMailMetrics (q : MailQueries) (r : Registry) : Registry × Option Err :=
  let r := r.Set .MailTotal 0
  let r := r.Reset .MailByFaction
  let r := r.Set .MailWithItems 0
  queryRow q.totalMail r fun totalMail =>
  let r := r.Add .MailTotal totalMail
  queryRow q.mailWithItemsCount r fun mailWithItemsCount =>
  let r := r.Add .MailWithItems mailWithItemsCount
  queryLoop q.byFaction (addByFaction .MailByFaction) r fun r =>
  (r, none)

/-- Outcomes of the queries of `collectAccountMetrics`. -/
structure AccountQueries where
  totalAccounts : RowResult Int
  onlineAccounts : RowResult Int
  bannedAccounts : RowResult Int

def collectAccountMetrics (q : AccountQueries) (r : Registry) : Registry × Option Err :=
  let r := r.Set .AccountsTotal 0
  let r := r.Set .AccountsOnline 0
  let r := r.Set .AccountsBanned 0
  queryRow q.totalAccounts r fun totalAccounts =>
  let r := r.Add .AccountsTotal totalAccounts
  queryRow q.onlineAccounts r fun onlineAccounts =>
  let r := r.Add .AccountsOnline onlineAccounts
  queryRow q.bannedAccounts r fun bannedAccounts =>
  let r := r.Add .AccountsBanned bannedAccounts
  (r, none)

/-- Outcome of the query of `collectServerMetrics`: (uptime, maxplayers). -/
structure ServerQueries where
  uptime : RowResult (Int × Int)

def collectServerMetrics (q : ServerQueries) (r : Registry) : Registry × Option Err :=
  let r := r.Set .ServerUptime 0
  let r := r.Set .ServerMaxPlayers 0
  match q.uptime with
  | .error .ErrNoRows => (r, none)
  | .error err => (r, some err)
  | .ok (uptime, maxPlayers) =>
    let r := r.Add .ServerUptime uptime
    let r := r.Add .ServerMaxPlayers maxPlayers
    (r, none)

/-- Outcome of the query of `collectAuctionMetrics`: rows (houseid, count). -/
structure AuctionQueries where
  houses : QueryResult (Int × Int)

def houseMap : GoMap := [(1, "Alliance"), (2, "Horde"), (7, "Neutral")]

/-- The label of an auction row: `houseMap[houseid]`, replaced by
`fmt.Sprintf("%d", houseid)` when it is empty. -/
def houseLabel (houseid : Int) : String :=
  let house := houseMap.index houseid
  if house = "" then fmtD houseid else house

/-- Body of the auction loop on a (houseid, count) row. -/
def setAuctionHouse (row : Int × Int) (r : Registry) : Registry :=
  r.SetV .AuctionCount [houseLabel row.1] row.2

def collectAuctionMetrics (q : AuctionQueries) (r : Registry) : Registry × Option Err :=
  let r := r.Reset .AuctionCount
  queryLoop q.houses setAuctionHouse r fun r =>
  (r, none)

/-- Outcome of a group that issues a single `SELECT COUNT(..)`. -/
structure CountQuery where
  count : RowResult Int

def collectGuildMetrics (q : CountQuery) (r : Registry) : Registry × Option Err :=
  let r := r.Set .GuildCount 0
  queryRow q.count r fun count =>
  (r.Set .GuildCount count, none)

/-- Outcome of the query of `collectMaxLevelCharMetrics`: rows (race, count). -/
structure MaxLevelQueries where
  byRace : QueryResult (Int × Int)

/-- Body of the max-level loop on a (race, count) row. -/
def setMaxLevel (row : Int × Int) (r : Registry) : Registry :=
  let faction := RaceToFaction.index row.1
  if faction ≠ "" then r.SetV .MaxLevelCharCount [faction] row.2 else r

def collectMaxLevelCharMetrics (q : MaxLevelQueries) (r : Registry) : Registry × Option Err :=
  let r := r.Reset .MaxLevelCharCount
  queryLoop q.byRace setMaxLevel r fun r =>
  (r, none)

def collectUnreadMailMetrics (q : CountQuery) (r : Registry) : Registry × Option Err :=
  let r := r.Set .UnreadMailCount 0
  queryRow q.count r fun count =>
  (r.Set .UnreadMailCount count, none)

def collectGMAccountMetrics (q : CountQuery) (r : Registry) : Registry × Option Err :=
  let r := r.Set .GMAccountCount 0
  queryRow q.count r fun count =>
  (r.Set .GMAccountCount count, none)

/-- Outcome of the query of `collectLastServerRestartMetrics`. -/
structure RestartQueries where
  starttime : RowResult Int

def collectLastServerRestartMetrics (q : RestartQueries) (r : Registry) :
    Registry × Option Err :=
  let r := r.Set .LastServerRestart 0
  match q.starttime with
  | .error .ErrNoRows => (r, none)
  | .error err => (r, some err)
  | .ok starttime => (r.Set .LastServerRestart starttime, none)

def collectBannedCharMetrics (q : CountQuery) (r : Registry) : Registry × Option Err :=
  let r := r.Set .BannedCharCount 0
  queryRow q.count r fun count =>
  (r.Set .BannedCharCount count, none)

/-- Outcomes of the queries of `collectChatMetrics`, in the order they are
issued; the rows of `logs` are (type, count). -/
structure ChatQueries where
  channels : RowResult Int
  channelBans : RowResult Int
  logs : QueryResult (String × Int)
  guildEvents : RowResult Int
  moneyLogs : RowResult Int
  encounterLogs : RowResult Int
  arenaLogs : RowResult Int
  ipActionLogs : RowResult Int

/-- Body of the log-count loop on a (type, count) row. -/
def setLogCount (row : String × Int) (r : Registry) : Registry :=
  r.SetV .LogCountByType [row.1] row.2

def collectChatMetrics (q : ChatQueries) (r : Registry) : Registry × Option Err :=
  let r := r.Set .ChannelCount 0
  queryRow q.channels r fun count =>
  let r := r.Set .ChannelCount count
  let r := r.Set .ChannelBans 0
  queryRow q.channelBans r fun count =>
  let r := r.Set .ChannelBans count
  let r := r.Reset .LogCountByType
  queryLoop q.logs setLogCount r fun r =>
  let r := r.Set .GuildEventCount 0
  queryRow q.guildEvents r fun count =>
  let r := r.Set .GuildEventCount count
  let r := r.Set .MoneyLogCount 0
  queryRow q.moneyLogs r fun count =>
  let r := r.Set .MoneyLogCount count
  let r := r.Set .EncounterLogCount 0
  queryRow q.encounterLogs r fun count =>
  let r := r.Set .EncounterLogCount count
  let r := r.Set .ArenaLogCount 0
  queryRow q.arenaLogs r fun count =>
  let r := r.Set .ArenaLogCount count
  let r := r.Set .IPActionLogCount 0
  queryRow q.ipActionLogs r fun count =>
  let r := r.Set .IPActionLogCount count
  (r, none)

/-- Outcomes of the queries of `collectInstanceMetrics`, in the order they are
issued.  Row shapes: (difficulty, count), (id, completedEncounters),
(mapid, difficulty, resettime), (state, count). -/
structure InstanceQueries where
  activeInstances : RowResult Int
  byDifficulty : QueryResult (Int × Int)
  completedEncounters : QueryResult (Int × Int)
  resets : QueryResult (Int × Int × Int)
  charactersInInstances : RowResult Int
  lfgData : QueryResult (Int × Int)
  lagReports : RowResult Int
  instanceSaves : RowResult Int

def setInstancesByDifficulty (row : Int × Int) (r : Registry) : Registry :=
  let difficultyName := GetDifficultyName row.1
  r.SetV .InstancesByDifficulty [difficultyName] row.2

def setCompletedEncounters (row : Int × Int) (r : Registry) : Registry :=
  r.SetV .CompletedEncounters [fmtD row.1] row.2

def setInstanceResets (row : Int × Int × Int) (r : Registry) : Registry :=
  let difficultyName := GetDifficultyName row.2.1
  r.SetV .InstanceResets [fmtD row.1, difficultyName] row.2.2

def setLFGData (row : Int × Int) (r : Registry) : Registry :=
  let stateName := GetLFGStateName row.1
  r.SetV .LFGDataCount [stateName] row.2

def collectInstanceMetrics (q : InstanceQueries) (r : Registry) : Registry × Option Err :=
  let r := r.Set .ActiveInstanceCount 0
  queryRow q.activeInstances r fun count =>
  let r := r.Set .ActiveInstanceCount count
  let r := r.Reset .InstancesByDifficulty
  queryLoop q.byDifficulty setInstancesByDifficulty r fun r =>
  let r := r.Reset .CompletedEncounters
  queryLoop q.completedEncounters setCompletedEncounters r fun r =>
  let r := r.Reset .InstanceResets
  queryLoop q.resets setInstanceResets r fun r =>
  let r := r.Set .CharactersInInstances 0
  queryRow q.charactersInInstances r fun count =>
  let r := r.Set .CharactersInInstances count
  let r := r.Reset .LFGDataCount
  queryLoop q.lfgData setLFGData r fun r =>
  let r := r.Set .LagReportsCount 0
  queryRow q.lagReports r fun count =>
  let r := r.Set .LagReportsCount count
  let r := r.Set .InstanceSavesCount 0
  queryRow q.instanceSaves r fun count =>
  let r := r.Set .InstanceSavesCount count
  (r, none)

/-- Outcomes of the queries of `collectNetworkMetrics`, in the order they are
issued: AVG(latency), the high-latency count, (MIN(latency), MAX(latency)),
the banned-IP count, rows (type, count), rows (lagType, count) and rows
(ip, activity).  An aggregate is `none` when SQL returns NULL. -/
structure NetworkQueries where
  avgLatency : RowResult (Null Int)
  highLatencyCount : RowResult Int
  minMaxLatency : RowResult (Null Int × Null Int)
  bannedCount : RowResult Int
  ipActionsByType : QueryResult (Int × Int)
  lagByType : QueryResult (Int × Int)
  activityByIP : QueryResult (String × Int)

/-- The statements after the AVG query: `if err != sql.ErrNoRows && avgLatency.Valid`. -/
def publishAvgLatency (q : RowResult (Null Int)) (r : Registry) : Registry :=
  match q with
  | .ok (some avg) =>
    let r := r.SetV .PlayerLatencyStats ["average"] avg
    r.Set .AverageLatency avg
  | _ => r

/-- The statements after the MIN/MAX query: `if err != sql.ErrNoRows { .. }`. -/
def publishMinMaxLatency (q : RowResult (Null Int × Null Int)) (r : Registry) :
    Registry :=
  match q with
  | .ok (minLatency, maxLatency) =>
    let r := match minLatency with
      | some x => r.SetV .PlayerLatencyStats ["min"] x
      | none => r
    match maxLatency with
    | some x => r.SetV .PlayerLatencyStats ["max"] x
    | none => r
  | _ => r

/-- The check `if err != nil && err != sql.ErrNoRows { return err }`: the
error to return, if any. -/
def fatalUnlessNoRows {α : Type} (q : RowResult α) : Option Err :=
  match q with
  | .error .ErrNoRows => none
  | .error err => some err
  | .ok _ => none

def setIPActionLogsByType (row : Int × Int) (r : Registry) : Registry :=
  let typeName := GetIPActionTypeName row.1
  r.SetV .IPActionLogsByType [typeName] row.2

def setLagReportsByType (row : Int × Int) (r : Registry) : Registry :=
  let lagTypeName := GetLagTypeName row.1
  r.SetV .LagReportsByType [lagTypeName] row.2

def setNetworkActivityByIP (row : String × Int) (r : Registry) : Registry :=
  r.SetV .NetworkActivityByIP [row.1] row.2

def collectNetworkMetrics (q : NetworkQueries) (r : Registry) : Registry × Option Err :=
  let r := r.Reset .PlayerLatencyStats
  match fatalUnlessNoRows q.avgLatency with
  | some err => (r, some err)
  | none =>
  let r := publishAvgLatency q.avgLatency r
  queryRow q.highLatencyCount r fun highLatencyCount =>
  let r := r.Set .HighLatencyPlayers highLatencyCount
  let r := r.SetV .PlayerLatencyStats ["high_latency"] highLatencyCount
  match fatalUnlessNoRows q.minMaxLatency with
  | some err => (r, some err)
  | none =>
  let r := publishMinMaxLatency q.minMaxLatency r
  let r := r.Set .IPBannedCount 0
  queryRow q.bannedCount r fun bannedCount =>
  let r := r.Set .IPBannedCount bannedCount
  let r := r.Reset .IPActionLogsByType
  queryLoop q.ipActionsByType setIPActionLogsByType r fun r =>
  let r := r.Reset .LagReportsByType
  queryLoop q.lagByType setLagReportsByType r fun r =>
  let r := r.Reset .NetworkActivityByIP
  queryLoop q.activityByIP setNetworkActivityByIP r fun r =>
  (r, none)

/-- The statement `rows, err := Query(..); if err != nil { return fmt.Errorf(msg, err) };
for rows.Next() { .. Scan .. continue .. body }` followed by the rest `k` of
the function. -/
def queryLoopContinue {α : Type} (q : QueryResult α) (msg : String)
    (body : α → Registry → Registry) (r : Registry)
    (k : Registry → Registry × Option Err) : Registry × Option Err :=
  match q with
  | .error err => (r, some (Errorf msg err))
  | .ok rows => k (scanRowsContinue body rows r)

/-- The statement `rows, err := Query(..); if err != nil { return fmt.Errorf(msg, err) };
if rows.Next() { if err := rows.Scan(..); err == nil { body } }` followed by
the rest `k` of the function: only the first row is looked at. -/
def queryFirstRow {α : Type} (q : QueryResult α) (msg : String)
    (body : α → Registry → Registry) (r : Registry)
    (k : Registry → Registry × Option Err) : Registry × Option Err :=
  match q with
  | .error err => (r, some (Errorf msg err))
  | .ok (.ok row :: _) => k (body row r)
  | .ok _ => k r

/-- The statement `err := QueryRow(..).Scan(&x); if err != nil { return fmt.Errorf(msg, err) }`
followed by the rest `k` of the function. -/
def queryRowErrorf {α : Type} (q : RowResult α) (msg : String) (r : Registry)
    (k : α → Registry × Option Err) : Registry × Option Err :=
  match q with
  | .error err => (r, some (Errorf msg err))
  | .ok x => k x

/-- A row of the battleground player statistics query. -/
structure PlayerStatsRow where
  totalParticipants : Int
  totalWinners : Int
  avgKillingBlows : Null Int
  avgDeaths : Null Int
  avgHonorableKills : Null Int
  avgBonusHonor : Null Int
  avgDamageDone : Null Int
  avgHealingDone : Null Int

/-- A row of the `battleground_template` query. -/
structure TemplateRow where
  id : Int
  scriptName : String
  comment : String
  minPlayers : Int
  maxPlayers : Int
  minLvl : Int
  maxLvl : Int
  weight : Int

/-- Outcomes of the queries of `collectBattlegroundMetrics`, in the order they
are issued.  Row shapes: (type, count), (total_battlegrounds, total_players),
(type, count), (bracket_id, count), (winner_faction, count),
(last_24h, last_7d, last_30d). -/
structure BattlegroundQueries where
  deserterCount : RowResult Int
  desertersByType : QueryResult (Int × Int)
  queueCount : RowResult Int
  stats : RowResult (Int × Int)
  byType : QueryResult (Int × Int)
  byBracket : QueryResult (Int × Int)
  winsByFaction : QueryResult (Int × Int)
  playerStats : QueryResult PlayerStatsRow
  templates : QueryResult TemplateRow
  recent : QueryResult (Null Int × Null Int × Null Int)

/-- The statement `if x.Valid { metrics.<m>.WithLabelValues(label).Set(x) }`. -/
def setIfValid (m : VecName) (label : String) (x : Null Int) (r : Registry) :
    Registry :=
  match x with
  | some v => r.SetV m [label] v
  | none => r

def setDesertersByType (row : Int × Int) (r : Registry) : Registry :=
  r.SetV .BattlegroundDesertersByType [GetDesertionTypeName row.1] row.2

def setBattlegroundsByType (row : Int × Int) (r : Registry) : Registry :=
  r.SetV .BattlegroundsByType [GetBattlegroundTypeName row.1] row.2

def setBattlegroundsByBracket (row : Int × Int) (r : Registry) : Registry :=
  r.SetV .BattlegroundsByBracket ["bracket_" ++ fmtD row.1] row.2

def setWinsByFaction (row : Int × Int) (r : Registry) : Registry :=
  let factionName := if row.1 = 0 then "Alliance" else "Horde"
  r.SetV .BattlegroundWinsByFaction [factionName] row.2

def setPlayerStats (row : PlayerStatsRow) (r : Registry) : Registry :=
  let r := r.SetV .BattlegroundPlayerStats ["total_participants"] row.totalParticipants
  let r := r.SetV .BattlegroundPlayerStats ["total_winners"] row.totalWinners
  let r := setIfValid .BattlegroundPlayerStats "avg_killing_blows" row.avgKillingBlows r
  let r := setIfValid .BattlegroundPlayerStats "avg_deaths" row.avgDeaths r
  let r := setIfValid .BattlegroundPlayerStats "avg_honorable_kills" row.avgHonorableKills r
  let r := setIfValid .BattlegroundPlayerStats "avg_bonus_honor" row.avgBonusHonor r
  let r := setIfValid .BattlegroundPlayerStats "avg_damage_done" row.avgDamageDone r
  setIfValid .BattlegroundPlayerStats "avg_healing_done" row.avgHealingDone r

/-- The label of a battleground template: the script name, else the comment,
else `BG_<id>`. -/
def templateLabel (row : TemplateRow) : String :=
  let label := row.scriptName
  let label := if label = "" then row.comment else label
  if label = "" then "BG_" ++ fmtD row.id else label

def setTemplate (row : TemplateRow) (r : Registry) : Registry :=
  let label := templateLabel row
  let r := r.SetV .BattlegroundTemplates [fmtD row.id, label] row.weight
  r.SetV .BattlegroundTemplateDetails
    [fmtD row.id, label, fmtD row.minLvl, fmtD row.maxLvl, fmtD row.minPlayers,
     fmtD row.maxPlayers] row.weight

def setRecent (row : Null Int × Null Int × Null Int) (r : Registry) : Registry :=
  let r := setIfValid .RecentBattlegrounds "last_24h" row.1 r
  let r := setIfValid .RecentBattlegrounds "last_7d" row.2.1 r
  setIfValid .RecentBattlegrounds "last_30d" row.2.2 r

def collectBattlegroundMetrics (q : BattlegroundQueries) (r : Registry) :
    Registry × Option Err :=
  let r := r.Reset .BattlegroundDesertersByType
  let r := r.Reset .BattlegroundStats
  let r := r.Reset .BattlegroundsByType
  let r := r.Reset .BattlegroundsByBracket
  let r := r.Reset .BattlegroundWinsByFaction
  let r := r.Reset .BattlegroundPlayerStats
  let r := r.Reset .BattlegroundTemplates
  let r := r.Reset .BattlegroundTemplateDetails
  let r := r.Reset .RecentBattlegrounds
  queryRowErrorf q.deserterCount "error querying battleground deserters" r
    fun deserterCount =>
  let r := r.Set .BattlegroundDeserters deserterCount
  queryLoopContinue q.desertersByType
    "error querying battleground deserters by type" setDesertersByType r fun r =>
  queryRowErrorf q.queueCount "error querying random battleground queue" r
    fun queueCount =>
  let r := r.Set .RandomBattlegroundQueue queueCount
  queryRowErrorf q.stats "error querying battleground stats" r fun stats =>
  let r := r.SetV .BattlegroundStats ["total_battlegrounds"] stats.1
  let r := r.SetV .BattlegroundStats ["total_players"] stats.2
  queryLoopContinue q.byType "error querying battlegrounds by type"
    setBattlegroundsByType r fun r =>
  queryLoopContinue q.byBracket "error querying battlegrounds by bracket"
    setBattlegroundsByBracket r fun r =>
  queryLoopContinue q.winsByFaction
    "error querying battleground wins by faction" setWinsByFaction r fun r =>
  queryFirstRow q.playerStats "error querying battleground player stats"
    setPlayerStats r fun r =>
  queryLoopContinue q.templates "error querying battleground templates"
    setTemplate r fun r =>
  queryFirstRow q.recent "error querying recent battleground activity"
    setRecent r fun r =>
  (r, none)

/-! ## internal/exporter/collector.go -/

/-- The fifteen collection groups, in the order of their declaration. -/
inductive Group where
  | player | mail | account | server | auction | guild | maxLevelChar
  | unreadMail | gmAccount | lastServerRestart | bannedChar | chat | instances
  | network | battleground
  deriving DecidableEq, Repr

/-- The outcomes of all queries of one collection cycle, per group. -/
structure CycleQueries where
  player : PlayerQueries
  mail : MailQueries
  account : AccountQueries
  server : ServerQueries
  auction : AuctionQueries
  guild : CountQuery
  maxLevelChar : MaxLevelQueries
  unreadMail : CountQuery
  gmAccount : CountQuery
  lastServerRestart : RestartQueries
  bannedChar : CountQuery
  chat : ChatQueries
  instances : InstanceQueries
  network : NetworkQueries
  battleground : BattlegroundQueries

/-- The method of the exporter that implements a group. -/
def Group.run (g : Group) (q : CycleQueries) (r : Registry) : Registry × Option Err :=
  match g with
  | .player => collectPlayerMetrics q.player r
  | .mail => collectMailMetrics q.mail r
  | .account => collectAccountMetrics q.account r
  | .server => collectServerMetrics q.server r
  | .auction => collectAuctionMetrics q.auction r
  | .guild => collectGuildMetrics q.guild r
  | .maxLevelChar => collectMaxLevelCharMetrics q.maxLevelChar r
  | .unreadMail => collectUnreadMailMetrics q.unreadMail r
  | .gmAccount => collectGMAccountMetrics q.gmAccount r
  | .lastServerRestart => collectLastServerRestartMetrics q.lastServerRestart r
  | .bannedChar => collectBannedCharMetrics q.bannedChar r
  | .chat => collectChatMetrics q.chat r
  | .instances => collectInstanceMetrics q.instances r
  | .network => collectNetworkMetrics q.network r
  | .battleground => collectBattlegroundMetrics q.battleground r

/-- What one run of `Collect` leaves behind: the registry, the lines written by
`log.Printf` and the groups that were invoked, both in order. -/
structure CollectState where
  reg : Registry
  log : List String
  calls : List Group

/-- The statement `if err := e.collectX(); err != nil { log.Printf(msg + "%v", err) }`. -/
def collectGroup (g : Group) (msg : String) (q : CycleQueries) (s : CollectState) :
    CollectState :=
  let res := g.run q s.reg
  match res.2 with
  | some err =>
    { reg := res.1, log := s.log ++ [msg ++ err.Error], calls := s.calls ++ [g] }
  | none => { reg := res.1, log := s.log, calls := s.calls ++ [g] }

/-- The collection part of `Exporter.Collect` (the statements before
`// Send all metrics`). -/
def Collect (q : CycleQueries) (r : Registry) : CollectState :=
  let s : CollectState := { reg := r, log := [], calls := [] }
  let s := collectGroup .player "Error collecting player metrics: " q s
  let s := collectGroup .mail "Error collecting mail metrics: " q s
  let s := collectGroup .account "Error collecting account metrics: " q s
  let s := collectGroup .server "Error collecting server metrics: " q s
  let s := collectGroup .auction "Error collecting auction metrics: " q s
  let s := collectGroup .guild "Error collecting guild metrics: " q s
  let s := collectGroup .maxLevelChar "Error collecting max level char metrics: " q s
  let s := collectGroup .unreadMail "Error collecting unread mail metrics: " q s
  let s := collectGroup .gmAccount "Error collecting GM account metrics: " q s
  let s := collectGroup .lastServerRestart
    "Error collecting last server restart metrics: " q s
  let s := collectGroup .bannedChar "Error collecting banned char metrics: " q s
  let s := collectGroup .chat "Error collecting chat metrics: " q s
  let s := collectGroup .instances "Error collecting instance metrics: " q s
  let s := collectGroup .network "Error collecting network metrics: " q s
  collectGroup .battleground "Error collecting battleground metrics: " q s

/-! ## Quantities the statements are about -/

/-- The sum of the counts of all (race, count) rows. -/
def countSum (rows : List (Int × Int)) : Int := (rows.map Prod.snd).sum

/-- The sum of the counts of the rows whose race `RaceToFaction` maps to the
faction `f`. -/
def factionSum (f : String) (rows : List (Int × Int)) : Int :=
  countSum (rows.filter fun row => RaceToFaction.find row.1 = some f)

/-- The sum of the counts of the rows whose race is not a key of
`RaceToFaction`. -/
def unmappedSum (rows : List (Int × Int)) : Int :=
  countSum (rows.filter fun row => RaceToFaction.find row.1 = none)

/-- The sum of the magnitudes of the counts of all (race, count) rows. -/
def countAbsSum (rows : List (Int × Int)) : Nat :=
  (rows.map fun row => row.2.natAbs).sum

/-- The sum of the magnitudes of the counts of all (level or class, race, count)
rows. -/
def countAbsSum3 (rows : List (Int × Int × Int)) : Nat :=
  (rows.map fun row => row.2.2.natAbs).sum

/-- What `addByFaction` does to the vector it is applied to. -/
def GaugeVec.addByFaction (row : Int × Int) (v : GaugeVec) : GaugeVec :=
  if RaceToFaction.index row.1 ≠ "" then v.Add [RaceToFaction.index row.1] row.2
  else v

/-! ## Concrete inputs -/

/-- The error of a query on a database that cannot be reached. -/
def downErr : Err := .other "connection refused"

/-- A player group whose first query returns two online characters of race 1
and one of race 99, and whose other queries fail. -/
def playerQueriesExample : PlayerQueries :=
  { online := .ok [.ok (1, 2), .ok (99, 1)],
    total := .error downErr, byLevel := .error downErr,
    byClass := .error downErr, onlineChars := .error downErr,
    username := fun _ => .error downErr }

/-- A registry in which an earlier cycle has left series in `wow_players_online`. -/
def registryWithPlayers : Registry :=
  (Registry.initial.SetV .PlayersOnline ["Alliance"] 40).SetV .PlayersOnline ["Horde"] 9

/-- A max-level query that returns two Alliance races: 5 humans (race 1) and
7 dwarves (race 3). -/
def maxLevelQueriesExample : MaxLevelQueries :=
  { byRace := .ok [.ok (1, 5), .ok (3, 7)] }

/-- A cycle in which no database can be reached: every query fails. -/
def cycleDown : CycleQueries :=
  { player :=
      { online := .error downErr, total := .error downErr,
        byLevel := .error downErr, byClass := .error downErr,
        onlineChars := .error downErr, username := fun _ => .error downErr },
    mail :=
      { totalMail := .error downErr, mailWithItemsCount := .error downErr,
        byFaction := .error downErr },
    account :=
      { totalAccounts := .error downErr, onlineAccounts := .error downErr,
        bannedAccounts := .error downErr },
    server := { uptime := .error downErr },
    auction := { houses := .error downErr },
    guild := { count := .error downErr },
    maxLevelChar := { byRace := .error downErr },
    unreadMail := { count := .error downErr },
    gmAccount := { count := .error downErr },
    lastServerRestart := { starttime := .error downErr },
    bannedChar := { count := .error downErr },
    chat :=
      { channels := .error downErr, channelBans := .error downErr,
        logs := .error downErr, guildEvents := .error downErr,
        moneyLogs := .error downErr, encounterLogs := .error downErr,
        arenaLogs := .error downErr, ipActionLogs := .error downErr },
    instances :=
      { activeInstances := .error downErr, byDifficulty := .error downErr,
        completedEncounters := .error downErr, resets := .error downErr,
        charactersInInstances := .error downErr, lfgData := .error downErr,
        lagReports := .error downErr, instanceSaves := .error downErr },
    network :=
      { avgLatency := .error downErr, highLatencyCount := .error downErr,
        minMaxLatency := .error downErr, bannedCount := .error downErr,
        ipActionsByType := .error downErr, lagByType := .error downErr,
        activityByIP := .error downErr },
    battleground :=
      { deserterCount := .error downErr, desertersByType := .error downErr,
        queueCount := .error downErr, stats := .error downErr,
        byType := .error downErr, byBracket := .error downErr,
        winsByFaction := .error downErr, playerStats := .error downErr,
        templates := .error downErr, recent := .error downErr } }

/-- A registry in which an earlier cycle has published `wow_log_count{type="login"} 5`. -/
def registryWithLogs : Registry :=
  Registry.initial.SetV .LogCountByType ["login"] 5

/-- A network group with nobody online: AVG, MIN and MAX are NULL, the
high-latency count is 0 and the later queries fail. -/
def networkQueriesNobodyOnline : NetworkQueries :=
  { avgLatency := .ok none, highLatencyCount := .ok 0,
    minMaxLatency := .ok (none, none), bannedCount := .error downErr,
    ipActionsByType := .error downErr, lagByType := .error downErr,
    activityByIP := .error downErr }

/-- A registry in which an earlier cycle has published latency statistics. -/
def registryWithLatency : Registry :=
  ((Registry.initial.SetV .PlayerLatencyStats ["average"] 80).SetV
    .PlayerLatencyStats ["min"] 20).SetV .PlayerLatencyStats ["max"] 300

/-- A player group whose queries all succeed; the players-by-class query
returns one row, 4 characters of class 13 and race 1. -/
def playerQueriesUnknownClass : PlayerQueries :=
  { online := .ok [], total := .ok [], byLevel := .ok [],
    byClass := .ok [.ok (13, 1, 4)], onlineChars := .ok [],
    username := fun _ => .error downErr }

/-- An auction query that returns one row, 4 auctions in house 3. -/
def auctionQueriesUnknownHouse : AuctionQueries :=
  { houses := .ok [.ok (3, 4)] }

/-! ## Which query feeds which scalar gauge -/

/-- The first scan error among the rows of a query, if any: the error with
which a loop that returns on a scan error leaves its function. -/
def scanError {α : Type} : List (Except Err α) → Option Err
  | [] => none
  | .error e :: _ => some e
  | .ok _ :: rest => scanError rest

/-- The call returned an error. -/
def failed {α : Type} (x : Except Err α) : Bool :=
  match x with
  | .error _ => true
  | .ok _ => false

/-- The call returned without error. -/
def succeeded {α : Type} (x : Except Err α) : Bool :=
  match x with
  | .error _ => false
  | .ok _ => true

/-- The query returned and none of its rows failed to scan: the loop over its
rows runs to the end. -/
def readThrough {α : Type} (x : QueryResult α) : Bool :=
  match x with
  | .error _ => false
  | .ok rows => (scanError rows).isNone

/-- The check `err != nil && err != sql.ErrNoRows` lets the function go on. -/
def tolerated {α : Type} (x : RowResult α) : Bool :=
  match x with
  | .error .ErrNoRows => true
  | .error _ => false
  | .ok _ => true

/-- The group that writes a scalar gauge. -/
def gaugeOwner : GaugeName → Group
  | .MailTotal | .MailWithItems => .mail
  | .AccountsTotal | .AccountsOnline | .AccountsBanned => .account
  | .ServerUptime | .ServerMaxPlayers => .server
  | .GuildCount => .guild
  | .UnreadMailCount => .unreadMail
  | .GMAccountCount => .gmAccount
  | .LastServerRestart => .lastServerRestart
  | .BannedCharCount => .bannedChar
  | .ChannelCount | .ChannelBans | .GuildEventCount | .MoneyLogCount
  | .EncounterLogCount | .ArenaLogCount | .IPActionLogCount => .chat
  | .ActiveInstanceCount | .CharactersInInstances | .LagReportsCount
  | .InstanceSavesCount => .instances
  | .IPBannedCount | .AverageLatency | .HighLatencyPlayers => .network
  | .BattlegroundDeserters | .RandomBattlegroundQueue => .battleground

/-- Whether the group of a scalar gauge writes `Set(0)` to it before it issues
the query that feeds it.  The four gauges for which it does not are only ever
written after their query has succeeded. -/
def resetBeforeQuery : GaugeName → Bool
  | .AverageLatency | .HighLatencyPlayers | .BattlegroundDeserters
  | .RandomBattlegroundQueue => false
  | _ => true

/-- The query that feeds the scalar gauge `g` is issued in the cycle (every
statement before it in its group lets the group go on) and it returns an
error. -/
def feedFails (g : GaugeName) (q : CycleQueries) : Bool :=
  match g with
  | .MailTotal => failed q.mail.totalMail
  | .MailWithItems =>
    succeeded q.mail.totalMail && failed q.mail.mailWithItemsCount
  | .AccountsTotal => failed q.account.totalAccounts
  | .AccountsOnline =>
    succeeded q.account.totalAccounts && failed q.account.onlineAccounts
  | .AccountsBanned =>
    succeeded q.account.totalAccounts && succeeded q.account.onlineAccounts
      && failed q.account.bannedAccounts
  | .ServerUptime => failed q.server.uptime
  | .ServerMaxPlayers => failed q.server.uptime
  | .GuildCount => failed q.guild.count
  | .UnreadMailCount => failed q.unreadMail.count
  | .GMAccountCount => failed q.gmAccount.count
  | .LastServerRestart => failed q.lastServerRestart.starttime
  | .BannedCharCount => failed q.bannedChar.count
  | .ChannelCount => failed q.chat.channels
  | .ChannelBans => succeeded q.chat.channels && failed q.chat.channelBans
  | .GuildEventCount =>
    succeeded q.chat.channels && succeeded q.chat.channelBans
      && readThrough q.chat.logs && failed q.chat.guildEvents
  | .MoneyLogCount =>
    succeeded q.chat.channels && succeeded q.chat.channelBans
      && readThrough q.chat.logs && succeeded q.chat.guildEvents
      && failed q.chat.moneyLogs
  | .EncounterLogCount =>
    succeeded q.chat.channels && succeeded q.chat.channelBans
      && readThrough q.chat.logs && succeeded q.chat.guildEvents
      && succeeded q.chat.moneyLogs && failed q.chat.encounterLogs
  | .ArenaLogCount =>
    succeeded q.chat.channels && succeeded q.chat.channelBans
      && readThrough q.chat.logs && succeeded q.chat.guildEvents
      && succeeded q.chat.moneyLogs && succeeded q.chat.encounterLogs
      && failed q.chat.arenaLogs
  | .IPActionLogCount =>
    succeeded q.chat.channels && succeeded q.chat.channelBans
      && readThrough q.chat.logs && succeeded q.chat.guildEvents
      && succeeded q.chat.moneyLogs && succeeded q.chat.encounterLogs
      && succeeded q.chat.arenaLogs && failed q.chat.ipActionLogs
  | .ActiveInstanceCount => failed q.instances.activeInstances
  | .CharactersInInstances =>
    succeeded q.instances.activeInstances && readThrough q.instances.byDifficulty
      && readThrough q.instances.completedEncounters
      && readThrough q.instances.resets
      && failed q.instances.charactersInInstances
  | .LagReportsCount =>
    succeeded q.instances.activeInstances && readThrough q.instances.byDifficulty
      && readThrough q.instances.completedEncounters
      && readThrough q.instances.resets
      && succeeded q.instances.charactersInInstances
      && readThrough q.instances.lfgData && failed q.instances.lagReports
  | .InstanceSavesCount =>
    succeeded q.instances.activeInstances && readThrough q.instances.byDifficulty
      && readThrough q.instances.completedEncounters
      && readThrough q.instances.resets
      && succeeded q.instances.charactersInInstances
      && readThrough q.instances.lfgData && succeeded q.instances.lagReports
      && failed q.instances.instanceSaves
  | .AverageLatency => failed q.network.avgLatency
  | .HighLatencyPlayers =>
    tolerated q.network.avgLatency && failed q.network.highLatencyCount
  | .IPBannedCount =>
    tolerated q.network.avgLatency && succeeded q.network.highLatencyCount
      && tolerated q.network.minMaxLatency && failed q.network.bannedCount
  | .BattlegroundDeserters => failed q.battleground.deserterCount
  | .RandomBattlegroundQueue =>
    succeeded q.battleground.deserterCount
      && succeeded q.battleground.desertersByType
      && failed q.battleground.queueCount

/-- The groups that `Exporter.Collect` invokes, in order. -/
def allGroups : List Group :=
  [.player, .mail, .account, .server, .auction, .guild, .maxLevelChar,
   .unreadMail, .gmAccount, .lastServerRestart, .bannedChar, .chat, .instances,
   .network, .battleground]

/-- The registry after the groups `gs` have run one after the other. -/
def runGroups (q : CycleQueries) : List Group → Registry → Registry
  | [], r => r
  | g :: gs, r => runGroups q gs (g.run q r).1

/-- A registry in which an earlier cycle has left the guild count at 7. -/
def registryWithGuilds : Registry := Registry.initial.Set .GuildCount 7

/-- A mail group whose first query counts 10 mails and whose second query
fails. -/
def mailQueriesItemsFail : MailQueries :=
  { totalMail := .ok 10, mailWithItemsCount := .error downErr, byFaction := .ok [] }

/-- A registry in which an earlier cycle has left the mail total at 3. -/
def registryWithMail : Registry := Registry.initial.Set .MailTotal 3

/-- A server group whose uptime query finds no row. -/
def serverQueriesNoRows : ServerQueries := { uptime := .error .ErrNoRows }

/-- A registry in which an earlier cycle has left an uptime of 3600 seconds and
a player maximum of 50. -/
def registryWithUptime : Registry :=
  (Registry.initial.Set .ServerUptime 3600).Set .ServerMaxPlayers 50

/-! ## Rows that fail to scan -/

/-- No row of the query failed to scan (vacuously so when the query itself
returned an error). -/
def rowsScanned {α : Type} (x : QueryResult α) : Bool :=
  match x with
  | .error _ => true
  | .ok rows => (scanError rows).isNone

/-- Every read of the group went through: each single-row read
`QueryRow(..).Scan(..)` returned its row (or, where the code checks for it,
reported `sql.ErrNoRows`: `tolerated`), and no row of a multi-row query failed
to scan.  The username lookup that `collectPlayerMetrics` makes per online
character is not among these reads. -/
def Group.scansSucceeded (g : Group) (q : CycleQueries) : Bool :=
  match g with
  | .player =>
    rowsScanned q.player.online && rowsScanned q.player.total
      && rowsScanned q.player.byLevel && rowsScanned q.player.byClass
      && rowsScanned q.player.onlineChars
  | .mail =>
    succeeded q.mail.totalMail && succeeded q.mail.mailWithItemsCount
      && rowsScanned q.mail.byFaction
  | .account =>
    succeeded q.account.totalAccounts && succeeded q.account.onlineAccounts
      && succeeded q.account.bannedAccounts
  | .server => tolerated q.server.uptime
  | .auction => rowsScanned q.auction.houses
  | .guild => succeeded q.guild.count
  | .maxLevelChar => rowsScanned q.maxLevelChar.byRace
  | .unreadMail => succeeded q.unreadMail.count
  | .gmAccount => succeeded q.gmAccount.count
  | .lastServerRestart => tolerated q.lastServerRestart.starttime
  | .bannedChar => succeeded q.bannedChar.count
  | .chat =>
    succeeded q.chat.channels && succeeded q.chat.channelBans
      && rowsScanned q.chat.logs && succeeded q.chat.guildEvents
      && succeeded q.chat.moneyLogs && succeeded q.chat.encounterLogs
      && succeeded q.chat.arenaLogs && succeeded q.chat.ipActionLogs
  | .instances =>
    succeeded q.instances.activeInstances && rowsScanned q.instances.byDifficulty
      && rowsScanned q.instances.completedEncounters
      && rowsScanned q.instances.resets
      && succeeded q.instances.charactersInInstances
      && rowsScanned q.instances.lfgData && succeeded q.instances.lagReports
      && succeeded q.instances.instanceSaves
  | .network =>
    tolerated q.network.avgLatency && succeeded q.network.highLatencyCount
      && tolerated q.network.minMaxLatency && succeeded q.network.bannedCount
      && rowsScanned q.network.ipActionsByType && rowsScanned q.network.lagByType
      && rowsScanned q.network.activityByIP
  | .battleground =>
    succeeded q.battleground.deserterCount
      && rowsScanned q.battleground.desertersByType
      && succeeded q.battleground.queueCount && succeeded q.battleground.stats
      && rowsScanned q.battleground.byType && rowsScanned q.battleground.byBracket
      && rowsScanned q.battleground.winsByFaction
      && rowsScanned q.battleground.playerStats
      && rowsScanned q.battleground.templates && rowsScanned q.battleground.recent

/-- A battleground group whose queries all return; the only row of the
deserters-by-type query fails to scan. -/
def battlegroundQueriesScanFails : BattlegroundQueries :=
  { deserterCount := .ok 1, desertersByType := .ok [.error (.other "scan")],
    queueCount := .ok 0, stats := .ok (0, 0), byType := .ok [],
    byBracket := .ok [], winsByFaction := .ok [], playerStats := .ok [],
    templates := .ok [], recent := .ok [] }

/-- A cycle in which only the battleground databases answer, with a row that
fails to scan. -/
def cycleBattlegroundScanFails : CycleQueries :=
  { cycleDown with battleground := battlegroundQueriesScanFails }

/-- The group result `res` carries no error only if `C` holds. -/
structure NoErrorImplies (res : Registry × Option Err) (C : Prop) : Prop where
  out : res.2 = none → C

/-- A cycle in which only the auction query answers. -/
def cycleAuctionOnly : CycleQueries :=
  { cycleDown with auction := auctionQueriesUnknownHouse }

/-! ## The online-characters loop -/

/-- The account label of an account id in one run: the username the auth
database returns, or the placeholder `account_<id>` when the lookup fails. -/
def resolveAccount (username : Int → RowResult String) (accountID : Int) : String :=
  match username accountID with
  | .ok u => u
  | .error _ => "account_" ++ fmtD accountID

/-- The state in which `collectOnlineChars` enters its loop: the registry it is
given and an empty `accountMap`. -/
def onlineCharsStart (r : Registry) : OnlineCharsState :=
  { reg := r, accountMap := [], lookups := [] }

/-- A player group whose first four queries return no row and whose last query
returns three online characters, two of them of account 5; the auth database
only knows account 9. -/
def playerQueriesLookupFails : PlayerQueries :=
  { online := .ok [], total := .ok [], byLevel := .ok [], byClass := .ok [],
    onlineChars := .ok [.ok ("Thrall", 80, 5), .ok ("Jaina", 70, 5),
      .ok ("Anduin", 20, 9)],
    username := fun id => if id = 9 then .ok "wrynn" else .error downErr }

/-- What the loop keeps true: every account id is looked up at most once, the
ids looked up are those in the memo table, and the memo table holds the account
label of each of them. -/
structure OnlineCharsInv (username : Int → RowResult String)
    (s : OnlineCharsState) : Prop where
  nodup : s.lookups.Nodup
  memo : ∀ id, id ∈ s.lookups ↔ (s.accountMap.find id).isSome
  label : ∀ id name, s.accountMap.find id = some name →
    name = resolveAccount username id

/-! ## metrics/definitions.go: names and labels -/

/-- The `Name` of a scalar gauge in `metrics/definitions.go`. -/
def GaugeName.name : GaugeName → String
  | .MailTotal => "wow_mail_total"
  | .MailWithItems => "wow_mail_with_items"
  | .AccountsTotal => "wow_accounts_total"
  | .AccountsOnline => "wow_accounts_online"
  | .AccountsBanned => "wow_accounts_banned"
  | .ServerUptime => "wow_server_uptime_seconds"
  | .ServerMaxPlayers => "wow_server_max_players"
  | .GuildCount => "wow_guild_count"
  | .UnreadMailCount => "wow_unread_mail_count"
  | .GMAccountCount => "wow_gm_account_count"
  | .LastServerRestart => "wow_server_last_restart_timestamp"
  | .BannedCharCount => "wow_banned_characters"
  | .ChannelCount => "wow_channel_count"
  | .ChannelBans => "wow_channel_bans"
  | .GuildEventCount => "wow_guild_events"
  | .MoneyLogCount => "wow_money_logs"
  | .EncounterLogCount => "wow_encounter_logs"
  | .ArenaLogCount => "wow_arena_logs"
  | .IPActionLogCount => "wow_ip_action_logs"
  | .ActiveInstanceCount => "wow_active_instances"
  | .CharactersInInstances => "wow_characters_in_instances"
  | .LagReportsCount => "wow_lag_reports"
  | .InstanceSavesCount => "wow_instance_saves"
  | .IPBannedCount => "wow_ip_banned_count"
  | .AverageLatency => "wow_average_latency_ms"
  | .HighLatencyPlayers => "wow_high_latency_players"
  | .BattlegroundDeserters => "wow_battleground_deserters"
  | .RandomBattlegroundQueue => "wow_random_battleground_queue"

/-- The `Name` of a gauge vector in `metrics/definitions.go`; none for
`OnlinePlayersByLevel`, which has no declaration there. -/
def VecName.declaredName : VecName → Option String
  | .PlayersOnline => some "wow_players_online"
  | .PlayersTotal => some "wow_players_total"
  | .PlayersByLevel => some "wow_players_by_level"
  | .PlayersByClass => some "wow_players_by_class"
  | .OnlinePlayersByLevel => none
  | .MailByFaction => some "wow_mail_by_faction"
  | .AuctionCount => some "wow_auction_count"
  | .MaxLevelCharCount => some "wow_max_level_characters"
  | .LogCountByType => some "wow_log_count"
  | .InstancesByDifficulty => some "wow_instances_by_difficulty"
  | .CompletedEncounters => some "wow_completed_encounters"
  | .InstanceResets => some "wow_instance_resets"
  | .LFGDataCount => some "wow_lfg_data"
  | .PlayerLatencyStats => some "wow_player_latency"
  | .IPActionLogsByType => some "wow_ip_action_logs_by_type"
  | .LagReportsByType => some "wow_lag_reports_by_type"
  | .NetworkActivityByIP => some "wow_network_activity_by_ip"
  | .BattlegroundDesertersByType => some "wow_battleground_deserters_by_type"
  | .BattlegroundStats => some "wow_battleground_stats"
  | .BattlegroundsByType => some "wow_battlegrounds_by_type"
  | .BattlegroundsByBracket => some "wow_battlegrounds_by_bracket"
  | .BattlegroundWinsByFaction => some "wow_battleground_wins_by_faction"
  | .BattlegroundPlayerStats => some "wow_battleground_player_stats"
  | .BattlegroundTemplates => some "wow_battleground_templates"
  | .BattlegroundTemplateDetails => some "wow_battleground_template_details"
  | .RecentBattlegrounds => some "wow_recent_battlegrounds"

/-- The label names of a gauge vector in `metrics/definitions.go`; none for
`OnlinePlayersByLevel`, which has no declaration there. -/
def VecName.labelNames : VecName → Option (List String)
  | .PlayersOnline => some ["faction"]
  | .PlayersTotal => some ["faction"]
  | .PlayersByLevel => some ["level", "faction"]
  | .PlayersByClass => some ["class", "faction"]
  | .OnlinePlayersByLevel => none
  | .MailByFaction => some ["faction"]
  | .AuctionCount => some ["house"]
  | .MaxLevelCharCount => some ["faction"]
  | .LogCountByType => some ["type"]
  | .InstancesByDifficulty => some ["difficulty"]
  | .CompletedEncounters => some ["instance_id"]
  | .InstanceResets => some ["map_id", "difficulty"]
  | .LFGDataCount => some ["state"]
  | .PlayerLatencyStats => some ["stat"]
  | .IPActionLogsByType => some ["type"]
  | .LagReportsByType => some ["lag_type"]
  | .NetworkActivityByIP => some ["ip"]
  | .BattlegroundDesertersByType => some ["desertion_type"]
  | .BattlegroundStats => some ["stat"]
  | .BattlegroundsByType => some ["battleground_type"]
  | .BattlegroundsByBracket => some ["bracket"]
  | .BattlegroundWinsByFaction => some ["faction"]
  | .BattlegroundPlayerStats => some ["stat"]
  | .BattlegroundTemplates => some ["template_id", "script_name"]
  | .BattlegroundTemplateDetails => some ["template_id", "name", "min_level", "max_level", "min_players", "max_players"]
  | .RecentBattlegrounds => some ["time_period"]

/-- A metric that `Exporter.Collect` and `Exporter.Describe` name: a scalar
gauge or a gauge vector of the registry, or one of the three identifiers
`ActiveBattlegrounds`, `ActiveBattlegroundPlayers` and `ActiveBattlegroundTotal`,
which `collector.go` names but which `metrics/definitions.go` does not declare
and `collectors.go` never mentions. -/
inductive Metric where
  | gauge (g : GaugeName) : Metric
  | vec (m : VecName) : Metric
  | ActiveBattlegrounds : Metric
  | ActiveBattlegroundPlayers : Metric
  | ActiveBattlegroundTotal : Metric
  deriving DecidableEq, Repr

/-- The metrics whose values `Exporter.Collect` sends, in order
(`collector.go`, the statements after `// Send all metrics`). -/
def collectSends : List Metric :=
  [.vec .PlayersOnline, .vec .PlayersTotal, .vec .PlayersByLevel,
   .vec .PlayersByClass, .vec .OnlinePlayersByLevel, .gauge .MailTotal,
   .vec .MailByFaction, .gauge .MailWithItems, .gauge .AccountsTotal,
   .gauge .AccountsOnline, .gauge .AccountsBanned, .gauge .ServerUptime,
   .gauge .ServerMaxPlayers, .vec .AuctionCount, .gauge .GuildCount,
   .vec .MaxLevelCharCount, .gauge .UnreadMailCount, .gauge .GMAccountCount,
   .gauge .LastServerRestart, .gauge .BannedCharCount, .gauge .ChannelCount,
   .gauge .ChannelBans, .vec .LogCountByType, .gauge .GuildEventCount,
   .gauge .MoneyLogCount, .gauge .EncounterLogCount, .gauge .ArenaLogCount,
   .gauge .IPActionLogCount, .gauge .ActiveInstanceCount,
   .vec .InstancesByDifficulty, .vec .CompletedEncounters,
   .vec .InstanceResets, .gauge .CharactersInInstances, .vec .LFGDataCount,
   .gauge .LagReportsCount, .gauge .InstanceSavesCount,
   .vec .PlayerLatencyStats, .gauge .IPBannedCount, .vec .IPActionLogsByType,
   .vec .LagReportsByType, .gauge .AverageLatency,
   .gauge .HighLatencyPlayers, .vec .NetworkActivityByIP,
   .gauge .BattlegroundDeserters, .vec .BattlegroundDesertersByType,
   .gauge .RandomBattlegroundQueue, .vec .BattlegroundStats,
   .vec .BattlegroundsByType, .vec .BattlegroundsByBracket,
   .vec .BattlegroundWinsByFaction, .vec .BattlegroundPlayerStats,
   .vec .BattlegroundTemplates, .vec .BattlegroundTemplateDetails,
   .vec .RecentBattlegrounds, .ActiveBattlegrounds,
   .ActiveBattlegroundPlayers, .ActiveBattlegroundTotal]

/-- The metrics whose descriptors `Exporter.Describe` sends, in order. -/
def describeSends : List Metric :=
  [.vec .PlayersOnline, .vec .PlayersTotal, .vec .PlayersByLevel,
   .vec .PlayersByClass, .vec .OnlinePlayersByLevel, .gauge .MailTotal,
   .vec .MailByFaction, .gauge .MailWithItems, .gauge .AccountsTotal,
   .gauge .AccountsOnline, .gauge .AccountsBanned, .gauge .ServerUptime,
   .gauge .ServerMaxPlayers, .vec .AuctionCount, .gauge .GuildCount,
   .vec .MaxLevelCharCount, .gauge .UnreadMailCount, .gauge .GMAccountCount,
   .gauge .LastServerRestart, .gauge .BannedCharCount, .gauge .ChannelCount,
   .gauge .ChannelBans, .vec .LogCountByType, .gauge .GuildEventCount,
   .gauge .MoneyLogCount, .gauge .EncounterLogCount, .gauge .ArenaLogCount,
   .gauge .IPActionLogCount, .gauge .ActiveInstanceCount,
   .vec .InstancesByDifficulty, .vec .CompletedEncounters,
   .vec .InstanceResets, .gauge .CharactersInInstances, .vec .LFGDataCount,
   .gauge .LagReportsCount, .gauge .InstanceSavesCount,
   .vec .PlayerLatencyStats, .gauge .IPBannedCount, .vec .IPActionLogsByType,
   .vec .LagReportsByType, .gauge .AverageLatency,
   .gauge .HighLatencyPlayers, .vec .NetworkActivityByIP,
   .gauge .BattlegroundDeserters, .vec .BattlegroundDesertersByType,
   .gauge .RandomBattlegroundQueue, .vec .BattlegroundStats,
   .vec .BattlegroundsByType, .vec .BattlegroundsByBracket,
   .vec .BattlegroundWinsByFaction, .vec .BattlegroundPlayerStats,
   .vec .BattlegroundTemplates, .vec .BattlegroundTemplateDetails,
   .vec .RecentBattlegrounds, .ActiveBattlegrounds,
   .ActiveBattlegroundPlayers, .ActiveBattlegroundTotal]

/-- The metrics declared in `metrics/definitions.go`, in order. -/
def definedMetrics : List Metric :=
  [.vec .PlayersOnline, .vec .PlayersTotal, .vec .PlayersByLevel,
   .vec .PlayersByClass, .gauge .MailTotal, .vec .MailByFaction,
   .gauge .MailWithItems, .gauge .AccountsTotal, .gauge .AccountsOnline,
   .gauge .AccountsBanned, .gauge .ServerUptime, .gauge .ServerMaxPlayers,
   .vec .AuctionCount, .gauge .GuildCount, .vec .MaxLevelCharCount,
   .gauge .UnreadMailCount, .gauge .GMAccountCount,
   .gauge .LastServerRestart, .gauge .BannedCharCount, .gauge .ChannelCount,
   .gauge .ChannelBans, .vec .LogCountByType, .gauge .GuildEventCount,
   .gauge .MoneyLogCount, .gauge .EncounterLogCount, .gauge .ArenaLogCount,
   .gauge .IPActionLogCount, .gauge .ActiveInstanceCount,
   .vec .InstancesByDifficulty, .vec .CompletedEncounters,
   .vec .InstanceResets, .gauge .CharactersInInstances, .vec .LFGDataCount,
   .gauge .LagReportsCount, .gauge .InstanceSavesCount,
   .vec .PlayerLatencyStats, .gauge .IPBannedCount, .vec .IPActionLogsByType,
   .vec .LagReportsByType, .gauge .AverageLatency,
   .gauge .HighLatencyPlayers, .vec .NetworkActivityByIP,
   .gauge .BattlegroundDeserters, .vec .BattlegroundDesertersByType,
   .gauge .RandomBattlegroundQueue, .vec .BattlegroundStats,
   .vec .BattlegroundsByType, .vec .BattlegroundsByBracket,
   .vec .BattlegroundWinsByFaction, .vec .BattlegroundPlayerStats,
   .vec .BattlegroundTemplates, .vec .BattlegroundTemplateDetails,
   .vec .RecentBattlegrounds]

/-- The `Name` under which a metric is declared in `metrics/definitions.go`,
if it is declared there. -/
def Metric.declaredName : Metric → Option String
  | .gauge g => some g.name
  | .vec m => m.declaredName
  | _ => none

/-- The metrics on which the code of a group calls `Reset`, `Set`, `Add` or
`WithLabelValues`, in the order of their first mention. -/
def Group.writes : Group → List Metric
  | .player =>
    [.vec .PlayersOnline, .vec .PlayersTotal, .vec .PlayersByLevel,
     .vec .PlayersByClass, .vec .OnlinePlayersByLevel]
  | .mail =>
    [.gauge .MailTotal, .vec .MailByFaction, .gauge .MailWithItems]
  | .account =>
    [.gauge .AccountsTotal, .gauge .AccountsOnline, .gauge .AccountsBanned]
  | .server =>
    [.gauge .ServerUptime, .gauge .ServerMaxPlayers]
  | .auction =>
    [.vec .AuctionCount]
  | .guild =>
    [.gauge .GuildCount]
  | .maxLevelChar =>
    [.vec .MaxLevelCharCount]
  | .unreadMail =>
    [.gauge .UnreadMailCount]
  | .gmAccount =>
    [.gauge .GMAccountCount]
  | .lastServerRestart =>
    [.gauge .LastServerRestart]
  | .bannedChar =>
    [.gauge .BannedCharCount]
  | .chat =>
    [.gauge .ChannelCount, .gauge .ChannelBans, .vec .LogCountByType,
     .gauge .GuildEventCount, .gauge .MoneyLogCount,
     .gauge .EncounterLogCount, .gauge .ArenaLogCount,
     .gauge .IPActionLogCount]
  | .instances =>
    [.gauge .ActiveInstanceCount, .vec .InstancesByDifficulty,
     .vec .CompletedEncounters, .vec .InstanceResets,
     .gauge .CharactersInInstances, .vec .LFGDataCount,
     .gauge .LagReportsCount, .gauge .InstanceSavesCount]
  | .network =>
    [.vec .PlayerLatencyStats, .gauge .AverageLatency,
     .gauge .HighLatencyPlayers, .gauge .IPBannedCount,
     .vec .IPActionLogsByType, .vec .LagReportsByType,
     .vec .NetworkActivityByIP]
  | .battleground =>
    [.vec .BattlegroundDesertersByType, .vec .BattlegroundStats,
     .vec .BattlegroundsByType, .vec .BattlegroundsByBracket,
     .vec .BattlegroundWinsByFaction, .vec .BattlegroundPlayerStats,
     .vec .BattlegroundTemplates, .vec .BattlegroundTemplateDetails,
     .vec .RecentBattlegrounds, .gauge .BattlegroundDeserters,
     .gauge .RandomBattlegroundQueue]

/-- The label values `ls` are as many as the label names in the definition of
the vector `m` (no constraint for a vector without a declaration). -/
def arityMatches (m : VecName) (ls : List String) : Bool :=
  match m.labelNames with
  | none => true
  | some names => ls.length == names.length

/-- Every series of every vector declared in `metrics/definitions.go` has as
many label values as the vector has label names. -/
structure Registry.ArityOk (r : Registry) : Prop where
  arity : ∀ m p, p ∈ r.vec m → arityMatches m p.1 = true

/-! ## pkg/database/connection.go -/

/-- `strings.Replace(s, old, new, 1)` on the characters of the strings: the
leftmost occurrence of `old` in `s` is replaced by `new`; `s` is returned as it
is when `old` does not occur. -/
def replaceFirstChars (old new : List Char) : List Char → List Char
  | [] => if old = [] then new else []
  | c :: cs =>
    if old.isPrefixOf (c :: cs) then new ++ (c :: cs).drop old.length
    else c :: replaceFirstChars old new cs

/-- `strings.Replace(s, old, new, 1)`. -/
def stringsReplaceFirst (s old new : String) : String :=
  ⟨replaceFirstChars old.data new.data s.data⟩

/-- A database handle `*sql.DB`, identified by the DSN it was opened with. -/
structure DB where
  dsn : String
  deriving DecidableEq, Repr

/-- The `Connections` struct. -/
structure Connections where
  Characters : DB
  Auth : DB
  World : DB
  deriving DecidableEq, Repr

/-- The errors returned by the six driver calls of `NewConnections` (`none` for a
call that succeeds), in the order of the calls. -/
structure ConnectOutcomes where
  openCharacters : Option Err
  pingCharacters : Option Err
  openAuth : Option Err
  pingAuth : Option Err
  openWorld : Option Err
  pingWorld : Option Err

/-- What `NewConnections` returns, with the database names it has passed to
`closeWithLog`, in order. -/
structure NewConnectionsResult where
  result : Except Err Connections
  closed : List String

def NewConnections (o : ConnectOutcomes) (dsn : String) : NewConnectionsResult :=
  let charactersDB : DB := { dsn := dsn }
  match o.openCharacters with
  | some err => { result := .error err, closed := [] }
  | none =>
  match o.pingCharacters with
  | some err => { result := .error err, closed := [] }
  | none =>
  let authDSN := stringsReplaceFirst dsn "/acore_characters?" "/acore_auth?"
  let authDB : DB := { dsn := authDSN }
  match o.openAuth with
  | some err => { result := .error err, closed := ["characters"] }
  | none =>
  match o.pingAuth with
  | some err => { result := .error err, closed := ["characters", "auth"] }
  | none =>
  let worldDSN := stringsReplaceFirst dsn "/acore_characters?" "/acore_world?"
  let worldDB : DB := { dsn := worldDSN }
  match o.openWorld with
  | some err => { result := .error err, closed := ["characters", "auth"] }
  | none =>
  match o.pingWorld with
  | some err => { result := .error err, closed := ["characters", "auth", "world"] }
  | none =>
    { result := .ok { Characters := charactersDB, Auth := authDB, World := worldDB },
      closed := [] }

/-- The six driver calls all succeed. -/
def ConnectOutcomes.allOk (o : ConnectOutcomes) : Bool :=
  o.openCharacters.isNone && o.pingCharacters.isNone && o.openAuth.isNone
    && o.pingAuth.isNone && o.openWorld.isNone && o.pingWorld.isNone

/-- Every database answers. -/
def connectAllOk : ConnectOutcomes :=
  { openCharacters := none, pingCharacters := none, openAuth := none,
    pingAuth := none, openWorld := none, pingWorld := none }

/-! ## The WHERE clauses of collectors.go -/

/-- A query of `collectors.go`: the metric it feeds and the conjuncts of its
`WHERE` clause, in order, written without the table alias (`c.`) and without
the trailing SQL comment. -/
structure Query where
  feeds : String
  conditions : List String
  deriving DecidableEq, Repr

/-- The exclusion predicate that the comments of `collectors.go` introduce as
"Exclude likely test characters: very recent creations and test names": no
deleted characters, none created in the last 24 hours, no name containing
test, admin, gm or dev. -/
def exclusionPredicate : List String :=
  [ "(deleteDate IS NULL OR deleteDate = 0)",
    "(creation_date IS NULL OR creation_date < DATE_SUB(NOW(), INTERVAL 24 HOUR))",
    "name NOT LIKE '%test%'", "name NOT LIKE '%admin%'", "name NOT LIKE '%gm%'",
    "name NOT LIKE '%dev%'" ]

/-- The conjuncts that select what a query measures rather than exclude test
data. -/
def selectionConditions : List String :=
  [ "online = 1", "level = 80", "latency > 0", "latency > 200" ]

/-- The exclusion conjuncts of a query: its conditions other than the selection
conditions. -/
def Query.exclusions (q : Query) : List String :=
  q.conditions.filter fun c => decide (c ∉ selectionConditions)

def onlineByFactionQuery : Query :=
  { feeds := "wow_players_online", conditions := [ "online = 1" ] }

def totalByFactionQuery : Query :=
  { feeds := "wow_players_total", conditions := exclusionPredicate }

def byLevelQuery : Query :=
  { feeds := "wow_players_by_level",
    conditions :=
      [ "(deleteDate IS NULL OR deleteDate = 0)",
        "(creation_date IS NULL OR creation_date < DATE_SUB(NOW(), INTERVAL 24 HOUR))",
        "logout_time > 0", "name NOT LIKE '%test%'", "name NOT LIKE '%admin%'",
        "name NOT LIKE '%gm%'", "name NOT LIKE '%dev%'", "name NOT LIKE '%temp%'",
        "name NOT LIKE '%demo%'", "name NOT LIKE '%example%'" ] }

def byClassQuery : Query :=
  { feeds := "wow_players_by_class", conditions := exclusionPredicate }

def maxLevelQuery : Query :=
  { feeds := "wow_max_level_characters",
    conditions := "level = 80" :: exclusionPredicate }

def mailByFactionQuery : Query :=
  { feeds := "wow_mail_by_faction", conditions := exclusionPredicate }

def avgLatencyQuery : Query :=
  { feeds := "wow_average_latency_ms",
    conditions := "online = 1" :: "latency > 0" :: exclusionPredicate }

def highLatencyQuery : Query :=
  { feeds := "wow_high_latency_players",
    conditions := "online = 1" :: "latency > 200" :: exclusionPredicate }

def minMaxLatencyQuery : Query :=
  { feeds := "wow_player_latency",
    conditions := "online = 1" :: "latency > 0" :: exclusionPredicate }

def gmAccountQuery : Query :=
  { feeds := "wow_gm_account_count",
    conditions := [ "gmlevel > 0", "RealmID IN (-1, 1)" ] }

def bannedAccountsQuery : Query :=
  { feeds := "wow_accounts_banned", conditions := [ "active = 1" ] }

def bannedCharactersQuery : Query :=
  { feeds := "wow_banned_characters", conditions := [ "active = 1" ] }

def bannedIPsQuery : Query :=
  { feeds := "wow_ip_banned_count", conditions := [] }

/-- The queries that the claim counts as measuring real player population. -/
def populationQueries : List Query :=
  [ onlineByFactionQuery, totalByFactionQuery, byLevelQuery, byClassQuery,
    maxLevelQuery, mailByFactionQuery, avgLatencyQuery, highLatencyQuery,
    minMaxLatencyQuery ]

/-- The queries behind the administrative counts. -/
def administrativeQueries : List Query :=
  [ gmAccountQuery, bannedAccountsQuery, bannedCharactersQuery, bannedIPsQuery ]

/-! ## Two runs of one cycle, metric by metric -/

/-- The name of a metric of the registry: a scalar gauge or a gauge vector. -/
abbrev MetricName := GaugeName ⊕ VecName

/-- The state of one metric: the value of a scalar gauge or the series of a
gauge vector. -/
def Registry.metric (r : Registry) : MetricName → Int ⊕ GaugeVec
  | .inl g => .inl (r.gauge g)
  | .inr v => .inr (r.vec v)

/-- Two runs of the same statements, started from the registries `a` and `b`,
have reached `ra` and `rb`; `w` tells whether the metric `m` has been
overwritten on the way.  If it has, the two runs agree on it; if not, each run
still has the state it started with. -/
structure Lockstep (m : MetricName) (w : Bool) (a b ra rb : Registry) : Prop where
  same : w = true → ra.metric m = rb.metric m
  kept : w = false → ra.metric m = a.metric m ∧ rb.metric m = b.metric m

/-- The metric `t` counts as overwritten whenever it is the metric `m` under
consideration. -/
structure Overwritten (m t : MetricName) (w : Bool) : Prop where
  out : m = t → w = true

/-- Two runs from `a` and `b` that end in `ra` and `rb` either agree on the
metric `m` or have both left it as it was. -/
structure SameOrKept (m : MetricName) (a b ra rb : Registry) : Prop where
  out : ra.metric m = rb.metric m
    ∨ (ra.metric m = a.metric m ∧ rb.metric m = b.metric m)

/-! ## config/config.go -/

/-- The process environment: the value of each variable that is set. -/
abbrev Env := String → Option String

/-- `os.Getenv(key)`: the value of the variable, `""` when it is not set. -/
def Getenv (env : Env) (key : String) : String :=
  (env key).getD ""

structure DatabaseConfig where
  User : String
  Password : String
  Host : String
  Port : String
  DSN : String
  deriving DecidableEq, Repr

structure ServerConfig where
  Port : String
  deriving DecidableEq, Repr

structure Config where
  Database : DatabaseConfig
  Server : ServerConfig
  deriving DecidableEq, Repr

def getEnvOrDefault (env : Env) (key defaultValue : String) : String :=
  let value := Getenv env key
  if value ≠ "" then value else defaultValue

/-- `fmt.Sprintf("%s:%s@tcp(%s:%s)/acore_characters?parseTime=true", ...)`. -/
def DatabaseConfig.buildDSN (c : DatabaseConfig) : String :=
  c.User ++ ":" ++ c.Password ++ "@tcp(" ++ c.Host ++ ":" ++ c.Port
    ++ ")/acore_characters?parseTime=true"

def Load (env : Env) : Config :=
  let cfg : Config :=
    { Database :=
        { User := Getenv env "WOW_DB_USER",
          Password := Getenv env "WOW_DB_PASS",
          Host := Getenv env "WOW_DB_HOST",
          Port := getEnvOrDefault env "WOW_DB_PORT" "3306",
          DSN := "" },
      Server := { Port := getEnvOrDefault env "PORT" "7000" } }
  let dsn := Getenv env "WOW_DB_DSN"
  if dsn ≠ "" then
    { Database := { cfg.Database with DSN := dsn }, Server := cfg.Server }
  else
    { Database := { cfg.Database with DSN := cfg.Database.buildDSN },
      Server := cfg.Server }

/-- An environment that sets the four connection variables and no DSN. -/
def envWithCredentials : Env := fun key =>
  if key = "WOW_DB_USER" then some "acore"
  else if key = "WOW_DB_PASS" then some "secret"
  else if key = "WOW_DB_HOST" then some "db"
  else if key = "WOW_DB_PORT" then some "3307"
  else none

/-! ## The handles of NewConnections -/

/-- The names of the handles that `sql.Open` has handed to `NewConnections` by
the time it returns, in the order they were opened. -/
def ConnectOutcomes.opened (o : ConnectOutcomes) : List String :=
  match o.openCharacters with
  | some _ => []
  | none =>
  match o.pingCharacters with
  | some _ => ["characters"]
  | none =>
  match o.openAuth with
  | some _ => ["characters"]
  | none =>
  match o.pingAuth with
  | some _ => ["characters", "auth"]
  | none =>
  match o.openWorld with
  | some _ => ["characters", "auth"]
  | none => ["characters", "auth", "world"]

/-- The characters database opens and then fails to answer the ping. -/
def connectCharactersPingFails : ConnectOutcomes :=
  { openCharacters := none, pingCharacters := some (.other "connection refused"),
    openAuth := none, pingAuth := none, openWorld := none, pingWorld := none }

/-- The world database opens and then fails to answer the ping. -/
def connectWorldPingFails : ConnectOutcomes :=
  { openCharacters := none, pingCharacters := none, openAuth := none,
    pingAuth := none, openWorld := none,
    pingWorld := some (.other "connection refused") }

/-- The DSNs that `NewConnections` passes to `sql.Open` for the characters, the
auth and the world database. -/
def openedDSNs (dsn : String) : String × String × String :=
  (dsn, stringsReplaceFirst dsn "/acore_characters?" "/acore_auth?",
    stringsReplaceFirst dsn "/acore_characters?" "/acore_world?")

/-- Credentials whose password contains the text that `NewConnections` looks
for. -/
def configWithSlashPassword : DatabaseConfig :=
  { User := "acore", Password := "/acore_characters?", Host := "db", Port := "3306",
    DSN := "" }

/-! ## The legacy main.go -/

/-- `raceToFaction` of the legacy `main.go`. -/
def legacyRaceToFaction : GoMap :=
  [ (1, "Alliance"), (2, "Horde"), (3, "Alliance"), (4, "Alliance"),
    (5, "Horde"), (6, "Horde"), (7, "Alliance"), (8, "Horde"), (9, "Horde"),
    (10, "Horde"), (11, "Alliance"), (22, "Horde"), (24, "Alliance"),
    (25, "Alliance"), (26, "Horde") ]

/-- `classNames` of the legacy `main.go`. -/
def legacyClassNames : GoMap :=
  [ (1, "Warrior"), (2, "Paladin"), (3, "Hunter"), (4, "Rogue"), (5, "Priest"),
    (6, "Death Knight"), (7, "Shaman"), (8, "Mage"), (9, "Warlock"),
    (10, "Monk"), (11, "Druid"), (12, "Demon Hunter") ]

/-- `getDifficultyName` of the legacy `main.go`. -/
def legacyGetDifficultyName (difficulty : Int) : String :=
  let difficultyNames : GoMap :=
    [ (0, "Normal"), (1, "Heroic"), (2, "10_Player"), (3, "25_Player"),
      (4, "10_Player_Heroic"), (5, "25_Player_Heroic") ]
  match difficultyNames.find difficulty with
  | some name => name
  | none => "Unknown_" ++ fmtD difficulty

/-- `getLFGStateName` of the legacy `main.go`. -/
def legacyGetLFGStateName (state : Int) : String :=
  let stateNames : GoMap :=
    [ (0, "None"), (1, "RoleCheck"), (2, "Queued"), (3, "Proposal"), (4, "Boot"),
      (5, "Dungeon"), (6, "FinishedDungeon") ]
  match stateNames.find state with
  | some name => name
  | none => "Unknown_" ++ fmtD state

/-- `getIPActionTypeName` of the legacy `main.go`. -/
def legacyGetIPActionTypeName (actionType : Int) : String :=
  let typeNames : GoMap :=
    [ (0, "Login"), (1, "Failed_Login"), (2, "Logout"), (3, "Character_Create"),
      (4, "Character_Delete"), (5, "Character_Login"), (6, "Character_Logout"),
      (7, "Password_Change"), (8, "Account_Create"), (9, "Account_Delete") ]
  match typeNames.find actionType with
  | some name => name
  | none => "Unknown_" ++ fmtD actionType

/-- `getLagTypeName` of the legacy `main.go`. -/
def legacyGetLagTypeName (lagType : Int) : String :=
  let lagTypeNames : GoMap :=
    [ (0, "World"), (1, "Instance"), (2, "Battleground"), (3, "Arena"),
      (4, "Raid") ]
  match lagTypeNames.find lagType with
  | some name => name
  | none => "Unknown_" ++ fmtD lagType

/-- `getBattlegroundTypeName` of the legacy `main.go`. -/
def legacyGetBattlegroundTypeName (bgType : Int) : String :=
  let bgTypeNames : GoMap :=
    [ (1, "Alterac Valley"), (2, "Warsong Gulch"), (3, "Arathi Basin"),
      (4, "Eye of the Storm"), (5, "Strand of the Ancients"),
      (6, "Isle of Conquest"), (7, "Twin Peaks"), (8, "Battle for Gilneas"),
      (9, "Temple of Kotmogu"), (10, "Silvershard Mines"),
      (11, "Deepwind Gorge") ]
  match bgTypeNames.find bgType with
  | some name => name
  | none => "Unknown_" ++ fmtD bgType

/-- `getDesertionTypeName` of the legacy `main.go`. -/
def legacyGetDesertionTypeName (desertionType : Int) : String :=
  let desertionTypeNames : GoMap :=
    [ (0, "Leave"), (1, "Offline"), (2, "Desert"), (3, "Finish") ]
  match desertionTypeNames.find desertionType with
  | some name => name
  | none => "Unknown_" ++ fmtD desertionType

/-- The part of the DSN of `buildDSN` before the database name:
`<user>:<password>@tcp(<host>:<port>)`. -/
def DatabaseConfig.credentialsAndAddress (c : DatabaseConfig) : String :=
  c.User ++ ":" ++ c.Password ++ "@tcp(" ++ c.Host ++ ":" ++ c.Port ++ ")"

/-- Ordinary credentials. -/
def configPlain : DatabaseConfig :=
  { User := "acore", Password := "secret", Host := "db", Port := "3306", DSN := "" }

/-! ## Reading a decimal rendering back -/

/-- The value of a decimal digit character. -/
def digitValue (c : Char) : Nat := c.toNat - 48

/-- The number that a list of decimal digits denotes, most significant digit
first, continuing from `acc`. -/
def readDigits (acc : Nat) (cs : List Char) : Nat :=
  cs.foldl (fun acc c => 10 * acc + digitValue c) acc

/-! ## Accumulation loops -/

/-- What an accumulation loop does to its vector on one row: it adds the count
of the row to the series that the row selects, if it selects one. -/
def GaugeVec.addKeyed {α : Type} (key : α → Option (List String)) (cnt : α → Int)
    (row : α) (v : GaugeVec) : GaugeVec :=
  match key row with
  | some ls => v.Add ls (cnt row)
  | none => v

/-- The series to which `addByFaction` adds a (race, count) row. -/
def factionKey (row : Int × Int) : Option (List String) :=
  if RaceToFaction.index row.1 ≠ "" then some [RaceToFaction.index row.1] else none

/-- The series to which `addByLevel` adds a (level, race, count) row. -/
def levelKey (row : Int × Int × Int) : Option (List String) :=
  if RaceToFaction.index row.2.1 ≠ "" then
    some [fmtD row.1, RaceToFaction.index row.2.1]
  else none

/-- The series to which `addByClass` adds a (class, race, count) row. -/
def classKey (row : Int × Int × Int) : Option (List String) :=
  if RaceToFaction.index row.2.1 ≠ "" ∧ ClassNames.index row.1 ≠ "" then
    some [ClassNames.index row.1, RaceToFaction.index row.2.1]
  else none

/-- Outcomes of the queries of `collectPlayerMetrics` in which the four
accumulation queries return the given rows, all of which scan. -/
def playerQueriesOfRows (online total : List (Int × Int))
    (byLevel byClass : List (Int × Int × Int))
    (onlineChars : QueryResult (String × Int × Int))
    (username : Int → RowResult String) : PlayerQueries :=
  { online := .ok (online.map Except.ok), total := .ok (total.map Except.ok),
    byLevel := .ok (byLevel.map Except.ok), byClass := .ok (byClass.map Except.ok),
    onlineChars := onlineChars, username := username }

/-! # Proofs -/

/-! ## Registry lemmas -/

@[simp] theorem Registry.vec_Set (r : Registry) (g : GaugeName) (x : Int) :
    (r.Set g x).vec = r.vec := rfl

@[simp] theorem Registry.vec_Add (r : Registry) (g : GaugeName) (x : Int) :
    (r.Add g x).vec = r.vec := rfl

@[simp] theorem Registry.gauge_onVec (r : Registry) (m : VecName)
    (f : GaugeVec → GaugeVec) : (r.onVec m f).gauge = r.gauge := rfl

@[simp] theorem Registry.gauge_Reset (r : Registry) (m : VecName) :
    (r.Reset m).gauge = r.gauge := rfl

@[simp] theorem Registry.gauge_SetV (r : Registry) (m : VecName)
    (ls : List String) (x : Int) : (r.SetV m ls x).gauge = r.gauge := rfl

@[simp] theorem Registry.gauge_AddV (r : Registry) (m : VecName)
    (ls : List String) (x : Int) : (r.AddV m ls x).gauge = r.gauge := rfl

theorem Registry.gauge_Set (r : Registry) (g g' : GaugeName) (x : Int) :
    (r.Set g x).gauge g' = if g' = g then x else r.gauge g' := by
  simp [Registry.Set, Function.update_apply]

theorem Registry.gauge_Add (r : Registry) (g g' : GaugeName) (x : Int) :
    (r.Add g x).gauge g' = if g' = g then f64Add (r.gauge g) x else r.gauge g' := by
  simp [Registry.Add, Function.update_apply]

theorem Registry.vec_onVec (r : Registry) (m m' : VecName)
    (f : GaugeVec → GaugeVec) :
    (r.onVec m f).vec m' = if m' = m then f (r.vec m) else r.vec m' := by
  simp [Registry.onVec, Function.update_apply]

theorem Registry.vec_Reset (r : Registry) (m m' : VecName) :
    (r.Reset m).vec m' = if m' = m then [] else r.vec m' := by
  simp [Registry.Reset, Registry.vec_onVec, GaugeVec.Reset]

theorem Registry.vec_SetV (r : Registry) (m m' : VecName) (ls : List String)
    (x : Int) :
    (r.SetV m ls x).vec m' = if m' = m then (r.vec m).Set ls x else r.vec m' := by
  simp [Registry.SetV, Registry.vec_onVec]

theorem Registry.vec_AddV (r : Registry) (m m' : VecName) (ls : List String)
    (x : Int) :
    (r.AddV m ls x).vec m' = if m' = m then (r.vec m).Add ls x else r.vec m' := by
  simp [Registry.AddV, Registry.vec_onVec]

/-! ## Loop lemmas -/

theorem scanRows_map_ok {α σ : Type} (body : α → σ → σ) (rows : List α) (s : σ) :
    scanRows body (rows.map Except.ok) s
      = (rows.foldl (fun s row => body row s) s, none) := by
  induction rows generalizing s with
  | nil => rfl
  | cons row rest ih => simp [scanRows, ih]

/-- A property kept by the body of a loop holds when the loop is left. -/
theorem scanRows_invariant {α σ : Type} (P : σ → Prop) (body : α → σ → σ)
    (hbody : ∀ row s, P s → P (body row s)) (rows : List (Except Err α)) (s : σ)
    (hs : P s) : P (scanRows body rows s).1 := by
  induction rows generalizing s with
  | nil => exact hs
  | cons row rest ih =>
    cases row with
    | error e => exact hs
    | ok row => exact ih _ (hbody row s hs)

/-- A loop whose body acts on a component `p s` of its state as `g` does, acts
on that component as the loop of `g`. -/
theorem scanRows_component {α σ τ : Type} (p : σ → τ) (body : α → σ → σ)
    (g : α → τ → τ) (h : ∀ row s, p (body row s) = g row (p s))
    (rows : List (Except Err α)) (s : σ) :
    p (scanRows body rows s).1 = (scanRows g rows (p s)).1
      ∧ (scanRows body rows s).2 = (scanRows g rows (p s)).2 := by
  induction rows generalizing s with
  | nil => exact ⟨rfl, rfl⟩
  | cons row rest ih =>
    cases row with
    | error e => exact ⟨rfl, rfl⟩
    | ok row =>
      have := ih (body row s)
      simpa [scanRows, h] using this

theorem scanRowsContinue_invariant {α σ : Type} (P : σ → Prop) (body : α → σ → σ)
    (hbody : ∀ row s, P s → P (body row s)) (rows : List (Except Err α)) (s : σ)
    (hs : P s) : P (scanRowsContinue body rows s) := by
  induction rows generalizing s with
  | nil => exact hs
  | cons row rest ih =>
    cases row with
    | error e => exact ih _ hs
    | ok row => exact ih _ (hbody row s hs)

/-- Reasoning rule for `queryLoop`: a postcondition `Q` holds of the result
when it holds on each way out, `R` being an invariant of the loop. -/
theorem queryLoop_post {α : Type} (Q : Registry × Option Err → Prop)
    (R : Registry → Prop) (q : QueryResult α) (body : α → Registry → Registry)
    (r : Registry) (k : Registry → Registry × Option Err)
    (hquery : ∀ e, Q (r, some e)) (hr : R r)
    (hbody : ∀ row r', R r' → R (body row r'))
    (hscan : ∀ r' e, R r' → Q (r', some e))
    (hk : ∀ r', R r' → Q (k r')) : Q (queryLoop q body r k) := by
  cases q with
  | error e => exact hquery e
  | ok rows =>
    have hR := scanRows_invariant R body hbody rows r hr
    show Q (match (scanRows body rows r).2 with
      | some err => ((scanRows body rows r).1, some err)
      | none => k (scanRows body rows r).1)
    cases (scanRows body rows r).2 with
    | none => exact hk _ hR
    | some e => exact hscan _ e hR

/-- Reasoning rule for `queryRow`. -/
theorem queryRow_post {α : Type} (Q : Registry × Option Err → Prop)
    (q : RowResult α) (r : Registry) (k : α → Registry × Option Err)
    (hquery : ∀ e, Q (r, some e)) (hk : ∀ x, Q (k x)) : Q (queryRow q r k) := by
  unfold queryRow
  cases q with
  | error e => exact hquery e
  | ok x => exact hk x

theorem queryLoop_ok {α : Type} (rows : List (Except Err α))
    (body : α → Registry → Registry) (r : Registry)
    (k : Registry → Registry × Option Err) :
    queryLoop (.ok rows) body r k
      = match (scanRows body rows r).2 with
        | some e => ((scanRows body rows r).1, some e)
        | none => k (scanRows body rows r).1 := by
  rfl

/-! ## float64 arithmetic in the exact range -/

theorem roundF64_of_le (x : Int) (h : x.natAbs ≤ 2 ^ 53) : roundF64 x = x :=
  if_pos h

theorem f64Add_exact (y x : Int) (hx : x.natAbs ≤ 2 ^ 53)
    (h : (y + x).natAbs ≤ 2 ^ 53) : f64Add y x = y + x := by
  unfold f64Add
  rw [roundF64_of_le x hx, roundF64_of_le _ h]

/-! ## Gauge vector lemmas -/

theorem GaugeVec.labels_Add (v : GaugeVec) (ls : List String) (x : Int) :
    (v.Add ls x).labels = if ls ∈ v.labels then v.labels else v.labels ++ [ls] := by
  induction v with
  | nil => simp [GaugeVec.Add, GaugeVec.labels]
  | cons p rest ih =>
    obtain ⟨ls', y⟩ := p
    simp only [GaugeVec.labels] at ih
    by_cases h : ls' = ls
    · simp [GaugeVec.Add, GaugeVec.labels, h]
    · have h' : ¬ ls = ls' := fun e => h e.symm
      by_cases hm : ls ∈ List.map Prod.fst rest
      · simp [GaugeVec.Add, GaugeVec.labels, h, h', ih, hm]
      · simp [GaugeVec.Add, GaugeVec.labels, h, h', ih, hm]

theorem GaugeVec.value_Add (v : GaugeVec) (ls ls' : List String) (x : Int) :
    (v.Add ls x).value ls'
      = if ls' = ls then some (f64Add ((v.value ls).getD 0) x)
        else v.value ls' := by
  induction v with
  | nil =>
    by_cases h : ls = ls'
    · simp [GaugeVec.Add, GaugeVec.value, h]
    · have h' : ¬ ls' = ls := fun e => h e.symm
      simp [GaugeVec.Add, GaugeVec.value, h, h']
  | cons p rest ih =>
    obtain ⟨l, y⟩ := p
    by_cases h : l = ls
    · subst h
      by_cases h2 : l = ls'
      · subst h2; simp [GaugeVec.Add, GaugeVec.value]
      · have h2' : ¬ ls' = l := fun e => h2 e.symm
        simp [GaugeVec.Add, GaugeVec.value, h2, h2']
    · by_cases h2 : l = ls'
      · subst h2
        simp [GaugeVec.Add, GaugeVec.value, h]
      · simp [GaugeVec.Add, GaugeVec.value, h, h2, ih]

theorem GaugeVec.total_nonneg (v : GaugeVec) (hv : ∀ p ∈ v, 0 ≤ p.2) :
    0 ≤ v.total := by
  unfold GaugeVec.total
  apply List.sum_nonneg
  intro x hx
  obtain ⟨p, hp, rfl⟩ := List.mem_map.1 hx
  exact hv p hp

/-- An addition that keeps the total of a vector of non-negative values within
`2 ^ 53` is exact. -/
theorem GaugeVec.total_Add (v : GaugeVec) (ls : List String) (x : Int)
    (hv : ∀ p ∈ v, 0 ≤ p.2) (hx : 0 ≤ x) (hb : v.total + x ≤ 2 ^ 53) :
    (v.Add ls x).total = v.total + x ∧ ∀ p ∈ v.Add ls x, 0 ≤ p.2 := by
  induction v with
  | nil =>
    have hb' : x ≤ 2 ^ 53 := by simpa [GaugeVec.total] using hb
    have e : f64Add 0 x = x := by
      have := f64Add_exact 0 x (by omega) (by omega)
      simpa using this
    simp [GaugeVec.Add, GaugeVec.total, e, hx]
  | cons p rest ih =>
    obtain ⟨l, y⟩ := p
    have hy : 0 ≤ y := hv (l, y) (List.mem_cons_self _ _)
    have hrest : ∀ p ∈ rest, 0 ≤ p.2 := fun p hp =>
      hv p (List.mem_cons_of_mem _ hp)
    have hrt := GaugeVec.total_nonneg rest hrest
    have ht : GaugeVec.total ((l, y) :: rest) = y + GaugeVec.total rest := by
      simp [GaugeVec.total]
    rw [ht] at hb
    by_cases h : l = ls
    · have e : f64Add y x = y + x := f64Add_exact y x (by omega) (by omega)
      have hA : GaugeVec.Add ((l, y) :: rest) ls x = (ls, y + x) :: rest := by
        simp [GaugeVec.Add, h, e]
      rw [hA]
      constructor
      · have ht' : GaugeVec.total ((ls, y + x) :: rest)
            = y + x + GaugeVec.total rest := by
          simp [GaugeVec.total]
        rw [ht', ht]
        ring
      · intro p hp
        rcases List.mem_cons.1 hp with rfl | hp
        · show 0 ≤ y + x
          omega
        · exact hrest p hp
    · have hA : GaugeVec.Add ((l, y) :: rest) ls x = (l, y) :: GaugeVec.Add rest ls x := by
        simp [GaugeVec.Add, h]
      obtain ⟨h1, h2⟩ := ih hrest (by omega)
      rw [hA]
      constructor
      · have ht' : GaugeVec.total ((l, y) :: GaugeVec.Add rest ls x)
            = y + GaugeVec.total (GaugeVec.Add rest ls x) := by
          simp [GaugeVec.total]
        rw [ht', h1, ht]
        ring
      · intro p hp
        rcases List.mem_cons.1 hp with rfl | hp
        · exact hy
        · exact h2 p hp

theorem GaugeVec.value_isSome_iff (v : GaugeVec) (ls : List String) :
    (v.value ls).isSome ↔ ls ∈ v.labels := by
  induction v with
  | nil => simp [GaugeVec.value, GaugeVec.labels]
  | cons p rest ih =>
    obtain ⟨l, y⟩ := p
    simp only [GaugeVec.labels] at ih
    by_cases h : l = ls
    · simp [GaugeVec.value, GaugeVec.labels, h]
    · have h' : ¬ ls = l := fun e => h e.symm
      simp [GaugeVec.value, GaugeVec.labels, h, h', ih]

/-! ## Faction accumulation -/

theorem GoMap.find_mem (m : GoMap) (k : Int) (name : String)
    (h : m.find k = some name) : (k, name) ∈ m := by
  induction m with
  | nil => simp [GoMap.find] at h
  | cons p rest ih =>
    obtain ⟨k', v⟩ := p
    by_cases hk : k' = k
    · simp [GoMap.find, hk] at h
      simp [hk, h]
    · simp [GoMap.find, hk] at h
      exact List.mem_cons_of_mem _ (ih h)

theorem RaceToFaction_find_ne_empty (race : Int) (f : String)
    (h : RaceToFaction.find race = some f) : f ≠ "" := by
  have hall : ∀ p ∈ RaceToFaction, p.2 ≠ "" := by decide
  exact hall _ (GoMap.find_mem _ _ _ h)

theorem GaugeVec.addByFaction_eq (row : Int × Int) (v : GaugeVec) :
    GaugeVec.addByFaction row v
      = match RaceToFaction.find row.1 with
        | some f => v.Add [f] row.2
        | none => v := by
  unfold GaugeVec.addByFaction GoMap.index
  cases h : RaceToFaction.find row.1 with
  | none => simp
  | some f => simp [RaceToFaction_find_ne_empty _ _ h]

/-- The accumulation loop on a vector, for rows that all scan. -/
theorem accumulate_labels_nodup (rows : List (Int × Int)) (v : GaugeVec)
    (hv : v.labels.Nodup) :
    (rows.foldl (fun v row => GaugeVec.addByFaction row v) v).labels.Nodup := by
  induction rows generalizing v with
  | nil => exact hv
  | cons row rest ih =>
    apply ih
    show (GaugeVec.addByFaction row v).labels.Nodup
    rw [GaugeVec.addByFaction_eq]
    cases RaceToFaction.find row.1 with
    | none => exact hv
    | some f =>
      show (v.Add [f] row.2).labels.Nodup
      rw [GaugeVec.labels_Add]
      split
      · exact hv
      · rename_i hm
        exact List.Nodup.append hv (List.nodup_singleton _) (by simpa using hm)

theorem accumulate_mem_labels (rows : List (Int × Int)) (v : GaugeVec)
    (ls : List String) :
    ls ∈ (rows.foldl (fun v row => GaugeVec.addByFaction row v) v).labels
      ↔ ls ∈ v.labels ∨ ∃ row ∈ rows, ∃ f, RaceToFaction.find row.1 = some f ∧ ls = [f] := by
  induction rows generalizing v with
  | nil => simp
  | cons row rest ih =>
    simp only [List.foldl_cons, ih, List.mem_cons, exists_eq_or_imp]
    rw [GaugeVec.addByFaction_eq]
    cases h : RaceToFaction.find row.1 with
    | none => simp
    | some f =>
      simp only [GaugeVec.labels_Add]
      by_cases hm : [f] ∈ v.labels
      · simp only [hm, if_true, Option.some.injEq, exists_eq_left']
        constructor
        · rintro (h1 | h1)
          · exact Or.inl h1
          · exact Or.inr (Or.inr h1)
        · rintro (h1 | h1 | h1)
          · exact Or.inl h1
          · exact Or.inl (h1 ▸ hm)
          · exact Or.inr h1
      · simp only [hm, if_false, List.mem_append, List.mem_singleton,
          Option.some.injEq, exists_eq_left']
        tauto

theorem countAbsSum_cons (row : Int × Int) (rest : List (Int × Int)) :
    countAbsSum (row :: rest) = row.2.natAbs + countAbsSum rest := by
  simp [countAbsSum]

theorem countSum_cons (row : Int × Int) (rest : List (Int × Int)) :
    countSum (row :: rest) = row.2 + countSum rest := by
  simp [countSum]

theorem countSum_nonneg (rows : List (Int × Int)) (h : ∀ row ∈ rows, 0 ≤ row.2) :
    0 ≤ countSum rows := by
  unfold countSum
  apply List.sum_nonneg
  intro x hx
  obtain ⟨row, hrow, rfl⟩ := List.mem_map.1 hx
  exact h row hrow

/-- The value that the accumulation loop leaves in the series of a faction, as
long as the sums stay in the range in which float64 addition is exact. -/
theorem accumulate_value (rows : List (Int × Int)) (v : GaugeVec) (f : String)
    (hb : ((v.value [f]).getD 0).natAbs + countAbsSum rows ≤ 2 ^ 53) :
    (((rows.foldl (fun v row => GaugeVec.addByFaction row v) v).value [f]).getD 0)
      = (v.value [f]).getD 0 + factionSum f rows := by
  induction rows generalizing v with
  | nil => simp [factionSum, countSum]
  | cons row rest ih =>
    rw [countAbsSum_cons] at hb
    simp only [List.foldl_cons]
    rw [GaugeVec.addByFaction_eq]
    cases h : RaceToFaction.find row.1 with
    | none =>
      dsimp only
      rw [ih v (by omega)]
      simp [factionSum, countSum, List.filter_cons, h]
    | some g =>
      dsimp only
      by_cases hg : g = f
      · subst hg
        have e : f64Add ((v.value [g]).getD 0) row.2 = (v.value [g]).getD 0 + row.2 :=
          f64Add_exact _ _ (by omega) (by omega)
        have hv' : ((v.Add [g] row.2).value [g]).getD 0
            = (v.value [g]).getD 0 + row.2 := by
          simp [GaugeVec.value_Add, e]
        rw [ih _ (by rw [hv']; omega), hv']
        simp [factionSum, countSum, List.filter_cons, h]
        ring
      · have hg' : ¬ f = g := fun e => hg e.symm
        have hv' : (v.Add [g] row.2).value [f] = v.value [f] := by
          simp [GaugeVec.value_Add, hg']
        rw [ih _ (by rw [hv']; omega), hv']
        simp [factionSum, countSum, List.filter_cons, h, hg]

/-- The total that the accumulation loop leaves, as long as the counts are not
negative and the sum stays in the range in which float64 addition is exact. -/
theorem accumulate_total (rows : List (Int × Int)) (v : GaugeVec)
    (hpos : ∀ row ∈ rows, 0 ≤ row.2) (hv : ∀ p ∈ v, 0 ≤ p.2)
    (hb : v.total + countSum rows ≤ 2 ^ 53) :
    (rows.foldl (fun v row => GaugeVec.addByFaction row v) v).total + unmappedSum rows
      = v.total + countSum rows := by
  induction rows generalizing v with
  | nil => simp [unmappedSum, countSum]
  | cons row rest ih =>
    have hrow : 0 ≤ row.2 := hpos row (List.mem_cons_self _ _)
    have hrest : ∀ row ∈ rest, 0 ≤ row.2 := fun r hr =>
      hpos r (List.mem_cons_of_mem _ hr)
    have hcs := countSum_nonneg rest hrest
    rw [countSum_cons] at hb ⊢
    simp only [List.foldl_cons]
    rw [GaugeVec.addByFaction_eq]
    cases h : RaceToFaction.find row.1 with
    | none =>
      dsimp only
      have := ih v hrest hv (by omega)
      have hu : unmappedSum (row :: rest) = row.2 + unmappedSum rest := by
        simp [unmappedSum, countSum, List.filter_cons, h]
      rw [hu]
      linarith
    | some g =>
      dsimp only
      obtain ⟨h1, h2⟩ := GaugeVec.total_Add v [g] row.2 hv hrow (by omega)
      have := ih (v.Add [g] row.2) hrest h2 (by rw [h1]; omega)
      have hu : unmappedSum (row :: rest) = unmappedSum rest := by
        simp [unmappedSum, countSum, List.filter_cons, h]
      rw [hu, this, h1]
      ring

/-! ## Frame rules -/

theorem queryLoop_vec_frame {α : Type} (m : VecName) (c : GaugeVec)
    (q : QueryResult α) (body : α → Registry → Registry) (r : Registry)
    (k : Registry → Registry × Option Err) (hr : r.vec m = c)
    (hbody : ∀ row r', (body row r').vec m = r'.vec m)
    (hk : ∀ r', r'.vec m = c → (k r').1.vec m = c) :
    (queryLoop q body r k).1.vec m = c :=
  queryLoop_post (fun res => res.1.vec m = c) (fun r' => r'.vec m = c) q body r k
    (fun _ => hr) hr (fun row r' h => (hbody row r').trans h) (fun _ _ h => h) hk

theorem queryRow_vec_frame {α : Type} (m : VecName) (c : GaugeVec)
    (q : RowResult α) (r : Registry) (k : α → Registry × Option Err)
    (hr : r.vec m = c) (hk : ∀ x, (k x).1.vec m = c) :
    (queryRow q r k).1.vec m = c :=
  queryRow_post (fun res => res.1.vec m = c) q r k (fun _ => hr) hk

theorem addByFaction_vec (m m' : VecName) (row : Int × Int) (r : Registry) :
    (addByFaction m row r).vec m'
      = if m' = m then GaugeVec.addByFaction row (r.vec m) else r.vec m' := by
  unfold addByFaction GaugeVec.addByFaction
  by_cases h : RaceToFaction.index row.1 = ""
  · by_cases hm : m' = m
    · simp [h, hm]
    · simp [h, hm]
  · simp [h, Registry.vec_AddV]

theorem addByLevel_vec (m : VecName) (hm : m ≠ .PlayersByLevel)
    (row : Int × Int × Int) (r : Registry) : (addByLevel row r).vec m = r.vec m := by
  unfold addByLevel
  by_cases h : RaceToFaction.index row.2.1 = ""
  · simp [h]
  · simp [h, Registry.vec_AddV, hm]

theorem addByClass_vec (m : VecName) (hm : m ≠ .PlayersByClass)
    (row : Int × Int × Int) (r : Registry) : (addByClass row r).vec m = r.vec m := by
  unfold addByClass
  by_cases h : RaceToFaction.index row.2.1 ≠ "" ∧ ClassNames.index row.1 ≠ ""
  · dsimp only; rw [if_pos h]; simp [Registry.vec_AddV, hm]
  · dsimp only; rw [if_neg h]

theorem setOnlineChar_vec (m : VecName) (hm : m ≠ .OnlinePlayersByLevel)
    (username : Int → RowResult String) (row : String × Int × Int)
    (s : OnlineCharsState) : (setOnlineChar username row s).reg.vec m = s.reg.vec m := by
  unfold setOnlineChar
  dsimp only
  cases s.accountMap.find row.2.2 <;> simp [Registry.vec_SetV, hm]

theorem collectOnlineChars_vec (m : VecName) (hm : m ≠ .OnlinePlayersByLevel)
    (q : PlayerQueries) (r : Registry) :
    (collectOnlineChars q r).1.vec m = r.vec m := by
  unfold collectOnlineChars
  cases q.onlineChars with
  | error e => rfl
  | ok rows =>
    exact scanRows_invariant (fun s => s.reg.vec m = r.vec m) _
      (fun row s h => (setOnlineChar_vec m hm q.username row s).trans h) rows
      { reg := r, accountMap := [], lookups := [] } rfl

/-- The series of `wow_players_online` after `collectPlayerMetrics`, once the
online-players query has returned: the accumulation of its rows from the empty
vector, whatever the later queries do. -/
theorem collectPlayerMetrics_PlayersOnline (q : PlayerQueries) (r : Registry)
    (rows : List (Except Err (Int × Int))) (h : q.online = .ok rows) :
    (collectPlayerMetrics q r).1.vec .PlayersOnline
      = (scanRows GaugeVec.addByFaction rows []).1 := by
  unfold collectPlayerMetrics
  simp only [h, queryLoop_ok]
  have hc := scanRows_component (fun r : Registry => r.vec .PlayersOnline)
    (addByFaction .PlayersOnline) GaugeVec.addByFaction
    (fun row r => by simp [addByFaction_vec]) rows
    (((((r.Reset .PlayersOnline).Reset .PlayersTotal).Reset .PlayersByLevel).Reset
      .PlayersByClass).Reset .OnlinePlayersByLevel)
  simp only [Registry.vec_Reset, if_true, reduceCtorEq, if_false] at hc
  rw [← hc.1]
  cases (scanRows (addByFaction .PlayersOnline) rows _).2 with
  | some e => rfl
  | none =>
    apply queryLoop_vec_frame
    · rfl
    · intro row r'; simp [addByFaction_vec]
    · intro r' hr'
      apply queryLoop_vec_frame _ _ _ _ _ _ hr'
      · intro row r''; exact addByLevel_vec _ (by decide) row r''
      · intro r'' hr''
        apply queryLoop_vec_frame _ _ _ _ _ _ hr''
        · intro row r3; exact addByClass_vec _ (by decide) row r3
        · intro r3 hr3
          rw [collectOnlineChars_vec _ (by decide)]; exact hr3

/-! ## C1 -/

/-- C1 (counterexample): the online-players query returns 2^53 humans, one
dwarf and one night elf, all of them Alliance.  The series `faction="Alliance"`
then holds 2^53 and not the sum 2^53 + 2 of the three counts: each
`Add(float64(1))` to 2^53 rounds back to 2^53. -/
theorem huge_online_counts_are_not_summed :
    ((collectPlayerMetrics
        (playerQueriesOfRows [(1, 9007199254740992), (3, 1), (4, 1)] [] [] []
          (.ok []) fun _ => .ok "")
        Registry.initial).1.vec .PlayersOnline).value ["Alliance"]
      = some 9007199254740992
    ∧ factionSum "Alliance" [(1, 9007199254740992), (3, 1), (4, 1)]
      = 9007199254740994 := by
  decide

/-- C1 (amended): once `collectPlayerMetrics` has read the rows of the
online-players query, `wow_players_online` has exactly one series per faction
that the race of at least one row maps to, and no other series; as long as the
magnitudes of the counts sum to at most 2^53, the range in which float64
addition is exact, the value of the series of a faction is the sum of the counts
of the rows whose race maps to it.  The rows (race 1, count 2),
(race 99, count 1) give the single series `faction="Alliance"` with value 2.
This holds for every prior registry and whatever the later queries of the group
return. -/
theorem players_online_faction_sums (q : PlayerQueries) (r : Registry)
    (rows : List (Int × Int)) (h : q.online = .ok (rows.map Except.ok)) :
    ((collectPlayerMetrics q r).1.vec .PlayersOnline).labels.Nodup
    ∧ (∀ ls, ls ∈ ((collectPlayerMetrics q r).1.vec .PlayersOnline).labels
        ↔ ∃ row ∈ rows, ∃ f, RaceToFaction.find row.1 = some f ∧ ls = [f])
    ∧ (countAbsSum rows ≤ 2 ^ 53 →
        ∀ f, [f] ∈ ((collectPlayerMetrics q r).1.vec .PlayersOnline).labels →
          ((collectPlayerMetrics q r).1.vec .PlayersOnline).value [f]
            = some (factionSum f rows))
    ∧ (rows = [(1, 2), (99, 1)] →
        (collectPlayerMetrics q r).1.vec .PlayersOnline = [(["Alliance"], 2)]) := by
  rw [collectPlayerMetrics_PlayersOnline q r _ h, scanRows_map_ok]
  refine ⟨?_, ?_, ?_, ?_⟩
  · exact accumulate_labels_nodup rows [] List.nodup_nil
  · intro ls
    simpa [GaugeVec.labels] using accumulate_mem_labels rows [] ls
  · intro hb f hf
    have hv := accumulate_value rows [] f (by simpa [GaugeVec.value] using hb)
    have hs := (GaugeVec.value_isSome_iff _ _).2 hf
    obtain ⟨x, hx⟩ := Option.isSome_iff_exists.1 hs
    simp only [hx, Option.getD_some, GaugeVec.value, Option.getD_none, zero_add] at hv
    simp only [hx, hv]
  · rintro rfl
    decide

theorem players_online_faction_sums_witness :
    (collectPlayerMetrics playerQueriesExample registryWithPlayers).1.vec .PlayersOnline
        = [(["Alliance"], 2)]
    ∧ ((collectPlayerMetrics playerQueriesExample registryWithPlayers).1.vec
        .PlayersOnline).value ["Alliance"]
        = some (factionSum "Alliance" [(1, 2), (99, 1)]) :=
  ⟨(players_online_faction_sums playerQueriesExample registryWithPlayers
      [(1, 2), (99, 1)] rfl).2.2.2 rfl,
    (players_online_faction_sums playerQueriesExample registryWithPlayers
      [(1, 2), (99, 1)] rfl).2.2.1 (by decide) "Alliance" (by decide)⟩

/-! ## C3 -/

theorem collectGroup_calls (g : Group) (msg : String) (q : CycleQueries)
    (s : CollectState) : (collectGroup g msg q s).calls = s.calls ++ [g] := by
  unfold collectGroup
  dsimp only
  cases (g.run q s.reg).2 <;> rfl

theorem collectGroup_reg (g : Group) (msg : String) (q : CycleQueries)
    (s : CollectState) : (collectGroup g msg q s).reg = (g.run q s.reg).1 := by
  unfold collectGroup
  dsimp only
  cases (g.run q s.reg).2 <;> rfl

/-- C3: whatever the queries of the cycle return, and so for every combination
of success and failure of the groups, `Exporter.Collect` invokes each of the
fifteen groups exactly once, in the order player, mail, account, server,
auction, guild, max-level characters, unread mail, GM accounts, last restart,
banned characters, chat, instance, network, battleground. -/
theorem collect_invokes_every_group_in_order (q : CycleQueries) (r : Registry) :
    (Collect q r).calls
      = [.player, .mail, .account, .server, .auction, .guild, .maxLevelChar,
         .unreadMail, .gmAccount, .lastServerRestart, .bannedChar, .chat,
         .instances, .network, .battleground] := by
  simp [Collect, collectGroup_calls]

/-! ## C9 -/

theorem GoMap.find_of_mem (m : GoMap) (hm : (m.map Prod.fst).Nodup) (k : Int)
    (name : String) (h : (k, name) ∈ m) : m.find k = some name := by
  induction m with
  | nil => simp at h
  | cons p rest ih =>
    obtain ⟨k', v⟩ := p
    simp only [List.map_cons, List.nodup_cons, List.mem_map, Prod.exists,
      exists_and_right, exists_eq_right, not_exists] at hm
    rcases List.mem_cons.1 h with h1 | h1
    · cases h1; simp [GoMap.find]
    · have hk : k' ≠ k := by
        rintro rfl
        exact hm.1 name h1
      simp only [GoMap.find, hk, if_false]
      exact ih hm.2 h1

theorem GoMap.find_none_of_not_mem (m : GoMap) (k : Int)
    (h : ∀ name, (k, name) ∉ m) : m.find k = none := by
  cases hf : m.find k with
  | none => rfl
  | some name => exact absurd (GoMap.find_mem m k name hf) (h name)

/-- The shape shared by the six name functions. -/
theorem lookup_or_unknown (m : GoMap) (hm : (m.map Prod.fst).Nodup)
    (F : Int → String)
    (hF : ∀ code, F code = match m.find code with
      | some name => name
      | none => "Unknown_" ++ fmtD code) (code : Int) :
    (∀ name, (code, name) ∈ m → F code = name)
    ∧ ((∀ name, (code, name) ∉ m) → F code = "Unknown_" ++ fmtD code) := by
  constructor
  · intro name h
    rw [hF, GoMap.find_of_mem m hm code name h]
  · intro h
    rw [hF, GoMap.find_none_of_not_mem m code h]

/-- C9: each of `GetDifficultyName`, `GetLFGStateName`, `GetIPActionTypeName`,
`GetLagTypeName`, `GetBattlegroundTypeName` and `GetDesertionTypeName` returns,
for a code that is a key of its table, the name the table gives it, and for
every other integer code the string `Unknown_` followed by the decimal
rendering of the code, which starts with a minus sign for a negative code. -/
theorem name_functions_lookup_or_unknown (code : Int) :
    ((∀ name, (code, name) ∈ difficultyNames → GetDifficultyName code = name)
      ∧ ((∀ name, (code, name) ∉ difficultyNames) →
          GetDifficultyName code = "Unknown_" ++ fmtD code))
    ∧ ((∀ name, (code, name) ∈ stateNames → GetLFGStateName code = name)
      ∧ ((∀ name, (code, name) ∉ stateNames) →
          GetLFGStateName code = "Unknown_" ++ fmtD code))
    ∧ ((∀ name, (code, name) ∈ typeNames → GetIPActionTypeName code = name)
      ∧ ((∀ name, (code, name) ∉ typeNames) →
          GetIPActionTypeName code = "Unknown_" ++ fmtD code))
    ∧ ((∀ name, (code, name) ∈ lagTypeNames → GetLagTypeName code = name)
      ∧ ((∀ name, (code, name) ∉ lagTypeNames) →
          GetLagTypeName code = "Unknown_" ++ fmtD code))
    ∧ ((∀ name, (code, name) ∈ bgTypeNames → GetBattlegroundTypeName code = name)
      ∧ ((∀ name, (code, name) ∉ bgTypeNames) →
          GetBattlegroundTypeName code = "Unknown_" ++ fmtD code))
    ∧ ((∀ name, (code, name) ∈ desertionTypeNames →
          GetDesertionTypeName code = name)
      ∧ ((∀ name, (code, name) ∉ desertionTypeNames) →
          GetDesertionTypeName code = "Unknown_" ++ fmtD code))
    ∧ (∀ n : Nat, fmtD (n : Int) = Nat.repr n
        ∧ fmtD (-((n : Int) + 1)) = "-" ++ Nat.repr (n + 1)) :=
  ⟨lookup_or_unknown difficultyNames (by decide) GetDifficultyName (fun _ => rfl) code,
   lookup_or_unknown stateNames (by decide) GetLFGStateName (fun _ => rfl) code,
   lookup_or_unknown typeNames (by decide) GetIPActionTypeName (fun _ => rfl) code,
   lookup_or_unknown lagTypeNames (by decide) GetLagTypeName (fun _ => rfl) code,
   lookup_or_unknown bgTypeNames (by decide) GetBattlegroundTypeName (fun _ => rfl) code,
   lookup_or_unknown desertionTypeNames (by decide) GetDesertionTypeName
     (fun _ => rfl) code,
   fun n => ⟨rfl, by rw [← Int.negSucc_eq]; rfl⟩⟩

theorem name_functions_lookup_or_unknown_witness :
    GetDifficultyName 4 = "10_Player_Heroic"
    ∧ GetDifficultyName (-9) = "Unknown_-9"
    ∧ GetBattlegroundTypeName 0 = "Unknown_0"
    ∧ GetDesertionTypeName 4 = "Unknown_4" :=
  ⟨(name_functions_lookup_or_unknown 4).1.1 "10_Player_Heroic" (by decide),
   (name_functions_lookup_or_unknown (-9)).1.2 (by
      intro name h
      have : ∀ p ∈ difficultyNames, p.1 ≠ -9 := by decide
      exact this _ h rfl),
   (name_functions_lookup_or_unknown 0).2.2.2.2.1.2 (by
      intro name h
      have : ∀ p ∈ bgTypeNames, p.1 ≠ 0 := by decide
      exact this _ h rfl),
   (name_functions_lookup_or_unknown 4).2.2.2.2.2.1.2 (by
      intro name h
      have : ∀ p ∈ desertionTypeNames, p.1 ≠ 4 := by decide
      exact this _ h rfl)⟩

/-! ## C8 -/

theorem queryLoop_ok_none {α : Type} (rows : List (Except Err α))
    (body : α → Registry → Registry) (r : Registry)
    (k : Registry → Registry × Option Err) (h : (scanRows body rows r).2 = none) :
    queryLoop (.ok rows) body r k = k (scanRows body rows r).1 := by
  rw [queryLoop_ok, h]

theorem queryLoop_ok_some {α : Type} (rows : List (Except Err α))
    (body : α → Registry → Registry) (r : Registry)
    (k : Registry → Registry × Option Err) (e : Err)
    (h : (scanRows body rows r).2 = some e) :
    queryLoop (.ok rows) body r k = ((scanRows body rows r).1, some e) := by
  rw [queryLoop_ok, h]

theorem scanRows_map_ok_snd {α σ : Type} (body : α → σ → σ) (rows : List α) (s : σ) :
    (scanRows body (rows.map Except.ok) s).2 = none := by
  rw [scanRows_map_ok]

/-- The series of `wow_players_total` after `collectPlayerMetrics`, once the
first query has been read through and the second has returned. -/
theorem collectPlayerMetrics_PlayersTotal (q : PlayerQueries) (r : Registry)
    (rows0 : List (Int × Int)) (rows : List (Except Err (Int × Int)))
    (h0 : q.online = .ok (rows0.map Except.ok)) (h : q.total = .ok rows) :
    (collectPlayerMetrics q r).1.vec .PlayersTotal
      = (scanRows GaugeVec.addByFaction rows []).1 := by
  unfold collectPlayerMetrics
  simp only [h0, h]
  rw [queryLoop_ok_none _ _ _ _ (scanRows_map_ok_snd _ _ _), queryLoop_ok]
  generalize hr1 : (scanRows (addByFaction .PlayersOnline) (rows0.map Except.ok)
    (((((r.Reset .PlayersOnline).Reset .PlayersTotal).Reset .PlayersByLevel).Reset
      .PlayersByClass).Reset .OnlinePlayersByLevel)).1 = r1
  have hr1v : r1.vec .PlayersTotal = [] := by
    rw [← hr1]
    exact scanRows_invariant (fun r' : Registry => r'.vec .PlayersTotal = [])
      (addByFaction .PlayersOnline)
      (fun row r' h => by simpa [addByFaction_vec] using h) _ _
      (by simp [Registry.vec_Reset])
  have hc := scanRows_component (fun r : Registry => r.vec .PlayersTotal)
    (addByFaction .PlayersTotal) GaugeVec.addByFaction
    (fun row r => by simp [addByFaction_vec]) rows r1
  rw [hr1v] at hc
  rw [← hc.1]
  cases (scanRows (addByFaction .PlayersTotal) rows r1).2 with
  | some e => rfl
  | none =>
    apply queryLoop_vec_frame
    · rfl
    · intro row r''; exact addByLevel_vec _ (by decide) row r''
    · intro r'' hr''
      apply queryLoop_vec_frame _ _ _ _ _ _ hr''
      · intro row r3; exact addByClass_vec _ (by decide) row r3
      · intro r3 hr3
        rw [collectOnlineChars_vec _ (by decide)]; exact hr3

/-- The series of `wow_mail_by_faction` after `collectMailMetrics`, once the
two counts have been read and the by-faction query has returned. -/
theorem collectMailMetrics_MailByFaction (q : MailQueries) (r : Registry)
    (a b : Int) (rows : List (Except Err (Int × Int)))
    (ha : q.totalMail = .ok a) (hb : q.mailWithItemsCount = .ok b)
    (h : q.byFaction = .ok rows) :
    (collectMailMetrics q r).1.vec .MailByFaction
      = (scanRows GaugeVec.addByFaction rows []).1 := by
  unfold collectMailMetrics
  simp only [ha, hb, h, queryRow]
  rw [queryLoop_ok]
  have hc := scanRows_component (fun r : Registry => r.vec .MailByFaction)
    (addByFaction .MailByFaction) GaugeVec.addByFaction
    (fun row r => by simp [addByFaction_vec]) rows
    ((((((r.Set .MailTotal 0).Reset .MailByFaction).Set .MailWithItems 0).Add
      .MailTotal a)).Add .MailWithItems b)
  simp only [Registry.vec_Set, Registry.vec_Add, Registry.vec_Reset, if_true] at hc
  rw [← hc.1]
  cases (scanRows (addByFaction .MailByFaction) rows _).2 <;> rfl

theorem unmappedSum_nonneg (rows : List (Int × Int)) (h : ∀ row ∈ rows, 0 ≤ row.2) :
    0 ≤ unmappedSum rows := by
  unfold unmappedSum countSum
  apply List.sum_nonneg
  intro x hx
  obtain ⟨row, hrow, rfl⟩ := List.mem_map.1 hx
  exact h row (List.mem_of_mem_filter hrow)

theorem accumulate_gap (rows : List (Int × Int)) (h : ∀ row ∈ rows, 0 ≤ row.2)
    (hb : countSum rows ≤ 2 ^ 53) :
    (scanRows GaugeVec.addByFaction (rows.map Except.ok) []).1.total ≤ countSum rows
    ∧ countSum rows
        - (scanRows GaugeVec.addByFaction (rows.map Except.ok) []).1.total
        = unmappedSum rows := by
  have ht := accumulate_total rows [] h (by simp) (by simpa [GaugeVec.total] using hb)
  have hn := unmappedSum_nonneg rows h
  rw [scanRows_map_ok]
  simp only [GaugeVec.total, List.map_nil, List.sum_nil, zero_add] at ht ⊢
  constructor <;> linarith

/-- C8 (counterexample): with the online rows (race 1, count 2^53 - 1) and
(race 3, count 2), both Alliance, `wow_players_online` sums to 2^53 while the
counts sum to 2^53 + 1: a gap of 1 although no row is unmapped.  With the rows
(race 1, count 2^53) and (race 3, count 3) it sums to 2^53 + 4, which is more
than the sum 2^53 + 3 of the counts. -/
theorem huge_counts_break_faction_total_gap :
    (((collectPlayerMetrics
        (playerQueriesOfRows [(1, 9007199254740991), (3, 2)] [] [] [] (.ok [])
          fun _ => .ok "")
        Registry.initial).1.vec .PlayersOnline).total = 9007199254740992
      ∧ countSum [(1, 9007199254740991), (3, 2)] = 9007199254740993
      ∧ unmappedSum [(1, 9007199254740991), (3, 2)] = 0)
    ∧ ((collectPlayerMetrics
        (playerQueriesOfRows [(1, 9007199254740992), (3, 3)] [] [] [] (.ok [])
          fun _ => .ok "")
        Registry.initial).1.vec .PlayersOnline).total = 9007199254740996
    ∧ countSum [(1, 9007199254740992), (3, 3)] = 9007199254740995 := by
  decide

/-- C8 (amended): for each of `wow_players_online`, `wow_players_total` and
`wow_mail_by_faction`, when its query returns rows with non-negative counts
that sum to at most 2^53, the range in which float64 addition is exact, the sum
of the values published over all factions is at most the sum of all row counts,
and the difference is exactly the sum of the counts of the rows whose race is
not a key of `RaceToFaction`. -/
theorem faction_totals_gap (r : Registry) (rows : List (Int × Int))
    (hpos : ∀ row ∈ rows, 0 ≤ row.2) (hb : countSum rows ≤ 2 ^ 53) :
    (∀ q : PlayerQueries, q.online = .ok (rows.map Except.ok) →
      ((collectPlayerMetrics q r).1.vec .PlayersOnline).total ≤ countSum rows
      ∧ countSum rows - ((collectPlayerMetrics q r).1.vec .PlayersOnline).total
          = unmappedSum rows)
    ∧ (∀ (q : PlayerQueries) (rows0 : List (Int × Int)),
        q.online = .ok (rows0.map Except.ok) → q.total = .ok (rows.map Except.ok) →
      ((collectPlayerMetrics q r).1.vec .PlayersTotal).total ≤ countSum rows
      ∧ countSum rows - ((collectPlayerMetrics q r).1.vec .PlayersTotal).total
          = unmappedSum rows)
    ∧ (∀ (q : MailQueries) (a b : Int), q.totalMail = .ok a →
        q.mailWithItemsCount = .ok b → q.byFaction = .ok (rows.map Except.ok) →
      ((collectMailMetrics q r).1.vec .MailByFaction).total ≤ countSum rows
      ∧ countSum rows - ((collectMailMetrics q r).1.vec .MailByFaction).total
          = unmappedSum rows) := by
  refine ⟨?_, ?_, ?_⟩
  · intro q h
    rw [collectPlayerMetrics_PlayersOnline q r _ h]
    exact accumulate_gap rows hpos hb
  · intro q rows0 h0 h
    rw [collectPlayerMetrics_PlayersTotal q r rows0 _ h0 h]
    exact accumulate_gap rows hpos hb
  · intro q a b ha hb' h
    rw [collectMailMetrics_MailByFaction q r a b _ ha hb' h]
    exact accumulate_gap rows hpos hb

theorem faction_totals_gap_witness :
    ((collectPlayerMetrics playerQueriesExample registryWithPlayers).1.vec
        .PlayersOnline).total ≤ countSum [(1, 2), (99, 1)]
    ∧ countSum [(1, 2), (99, 1)]
        - ((collectPlayerMetrics playerQueriesExample registryWithPlayers).1.vec
            .PlayersOnline).total
        = unmappedSum [(1, 2), (99, 1)] :=
  (faction_totals_gap registryWithPlayers [(1, 2), (99, 1)] (by decide)
    (by decide)).1 playerQueriesExample rfl

/-! ## C7 -/

/-- C7 (the code at the failing input): with the rows (race 1, count 5) and
(race 3, count 7), both of the Alliance, `collectMaxLevelCharMetrics` succeeds
and leaves `wow_max_level_characters{faction="Alliance"}` at 7, the count of the
last row, while the counts of the rows of that faction sum to 12. -/
theorem max_level_keeps_last_row_only :
    (collectMaxLevelCharMetrics maxLevelQueriesExample Registry.initial).2 = none
    ∧ (collectMaxLevelCharMetrics maxLevelQueriesExample Registry.initial).1.vec
        .MaxLevelCharCount = [(["Alliance"], 7)]
    ∧ factionSum "Alliance" [(1, 5), (3, 7)] = 12 := by
  decide

/-! ## C2 -/

/-- C2 (the code at the failing input): in a cycle in which every query fails,
`collectChatMetrics` returns at the channel count, before it resets
`wow_log_count`, and the series `type="login"` of an earlier cycle is still
there after `Collect`, although no row of this cycle produced it. -/
theorem stale_log_count_survives_failed_cycle :
    (Collect cycleDown registryWithLogs).reg.vec .LogCountByType = [(["login"], 5)] := by
  decide

/-! ## C6 -/

/-- The series of `wow_player_latency` after `collectNetworkMetrics`, once the
three latency queries have returned: later queries do not touch the vector. -/
theorem collectNetworkMetrics_PlayerLatencyStats (q : NetworkQueries) (r : Registry)
    (avg mn mx : Null Int) (high : Int) (havg : q.avgLatency = .ok avg)
    (hhigh : q.highLatencyCount = .ok high) (hmm : q.minMaxLatency = .ok (mn, mx)) :
    (collectNetworkMetrics q r).1.vec .PlayerLatencyStats
      = (publishMinMaxLatency (.ok (mn, mx))
          (((publishAvgLatency (.ok avg) (r.Reset .PlayerLatencyStats)).Set
            .HighLatencyPlayers high).SetV .PlayerLatencyStats ["high_latency"]
            high)).vec .PlayerLatencyStats := by
  unfold collectNetworkMetrics
  simp only [havg, hhigh, hmm, fatalUnlessNoRows, queryRow]
  cases q.bannedCount with
  | error e => rfl
  | ok banned =>
    dsimp only
    apply queryLoop_vec_frame
    · simp [Registry.vec_Reset]
    · intro row r'; simp [setIPActionLogsByType, Registry.vec_SetV]
    · intro r' hr'
      apply queryLoop_vec_frame
      · simpa [Registry.vec_Reset] using hr'
      · intro row r''; simp [setLagReportsByType, Registry.vec_SetV]
      · intro r'' hr''
        apply queryLoop_vec_frame
        · simpa [Registry.vec_Reset] using hr''
        · intro row r3; simp [setNetworkActivityByIP, Registry.vec_SetV]
        · intro r3 hr3; exact hr3

/-- C6: once `collectNetworkMetrics` has read the latency aggregates,
`wow_player_latency` has a series `stat="average"` exactly when AVG is not
NULL, a series `stat="min"` exactly when MIN is not NULL and a series
`stat="max"` exactly when MAX is not NULL, each with the value of its
aggregate; for a NULL aggregate there is no series, not a series with value 0.
This holds for every prior registry and whatever the later queries return. -/
theorem latency_series_iff_non_null (q : NetworkQueries) (r : Registry)
    (avg mn mx : Null Int) (high : Int) (havg : q.avgLatency = .ok avg)
    (hhigh : q.highLatencyCount = .ok high) (hmm : q.minMaxLatency = .ok (mn, mx)) :
    ((collectNetworkMetrics q r).1.vec .PlayerLatencyStats).value ["average"] = avg
    ∧ ((collectNetworkMetrics q r).1.vec .PlayerLatencyStats).value ["min"] = mn
    ∧ ((collectNetworkMetrics q r).1.vec .PlayerLatencyStats).value ["max"] = mx
    ∧ (["average"] ∈ ((collectNetworkMetrics q r).1.vec .PlayerLatencyStats).labels
        ↔ avg ≠ none)
    ∧ (["min"] ∈ ((collectNetworkMetrics q r).1.vec .PlayerLatencyStats).labels
        ↔ mn ≠ none)
    ∧ (["max"] ∈ ((collectNetworkMetrics q r).1.vec .PlayerLatencyStats).labels
        ↔ mx ≠ none)
    ∧ ((collectNetworkMetrics q r).1.vec .PlayerLatencyStats).labels.Nodup := by
  rw [collectNetworkMetrics_PlayerLatencyStats q r avg mn mx high havg hhigh hmm]
  cases avg <;> cases mn <;> cases mx <;>
    simp [publishAvgLatency, publishMinMaxLatency, Registry.vec_SetV,
      Registry.vec_Reset, GaugeVec.Set, GaugeVec.value, GaugeVec.labels]

theorem latency_series_iff_non_null_witness :
    ((collectNetworkMetrics networkQueriesNobodyOnline registryWithLatency).1.vec
        .PlayerLatencyStats).value ["average"] = none
    ∧ ((collectNetworkMetrics networkQueriesNobodyOnline registryWithLatency).1.vec
        .PlayerLatencyStats).value ["min"] = none
    ∧ ((collectNetworkMetrics networkQueriesNobodyOnline registryWithLatency).1.vec
        .PlayerLatencyStats).value ["max"] = none :=
  ⟨(latency_series_iff_non_null networkQueriesNobodyOnline registryWithLatency
      none none none 0 rfl rfl rfl).1,
   (latency_series_iff_non_null networkQueriesNobodyOnline registryWithLatency
      none none none 0 rfl rfl rfl).2.1,
   (latency_series_iff_non_null networkQueriesNobodyOnline registryWithLatency
      none none none 0 rfl rfl rfl).2.2.1⟩

/-! ## C10 -/

theorem GaugeVec.value_Set_same (v : GaugeVec) (ls : List String) (x : Int) :
    (v.Set ls x).value ls = some x := by
  induction v with
  | nil => simp [GaugeVec.Set, GaugeVec.value]
  | cons p rest ih =>
    obtain ⟨l, y⟩ := p
    by_cases h : l = ls
    · simp [GaugeVec.Set, GaugeVec.value, h]
    · simp [GaugeVec.Set, GaugeVec.value, h, ih]

theorem GoMap.index_of_not_mem (m : GoMap) (k : Int) (h : ∀ name, (k, name) ∉ m) :
    m.index k = "" := by
  simp [GoMap.index, GoMap.find_none_of_not_mem m k h]

/-- The fallback of a name function, for a code without table entry. -/
theorem unknown_fallback (m : GoMap) (F : Int → String)
    (hF : ∀ code, F code = match m.find code with
      | some name => name
      | none => "Unknown_" ++ fmtD code) (code : Int)
    (h : ∀ name, (code, name) ∉ m) : F code = "Unknown_" ++ fmtD code := by
  rw [hF, GoMap.find_none_of_not_mem m code h]

/-- C10 (counterexample): a players-by-class row of class 13, which has no
`ClassNames` entry, is not published at all, and an auction row of house 3,
which has no `houseMap` entry, is published under the label `3`, not under
`Unknown_3`. -/
theorem unknown_class_dropped_and_house_label_bare :
    (collectPlayerMetrics playerQueriesUnknownClass Registry.initial).2 = none
    ∧ (collectPlayerMetrics playerQueriesUnknownClass Registry.initial).1.vec
        .PlayersByClass = []
    ∧ (collectAuctionMetrics auctionQueriesUnknownHouse Registry.initial).1.vec
        .AuctionCount = [(["3"], 4)]
    ∧ ((collectAuctionMetrics auctionQueriesUnknownHouse Registry.initial).1.vec
        .AuctionCount).value ["Unknown_3"] = none := by
  decide

/-- C10 (amended): a row whose code has no entry in the table of
`GetDifficultyName`, `GetLFGStateName`, `GetIPActionTypeName`, `GetLagTypeName`,
`GetBattlegroundTypeName` or `GetDesertionTypeName` is published by the loop
that uses the function, under the label `Unknown_<code>` and with the value of
the row.  A players-by-class row whose class has no `ClassNames` entry is
dropped, and an auction row whose house has no `houseMap` entry is published
under the decimal house id. -/
theorem unmatched_code_rows (r : Registry) (code count : Int) :
    ((∀ name, (code, name) ∉ difficultyNames) →
        ((setInstancesByDifficulty (code, count) r).vec .InstancesByDifficulty).value
          ["Unknown_" ++ fmtD code] = some count
        ∧ ∀ mapID, ((setInstanceResets (mapID, code, count) r).vec
            .InstanceResets).value [fmtD mapID, "Unknown_" ++ fmtD code] = some count)
    ∧ ((∀ name, (code, name) ∉ stateNames) →
        ((setLFGData (code, count) r).vec .LFGDataCount).value
          ["Unknown_" ++ fmtD code] = some count)
    ∧ ((∀ name, (code, name) ∉ typeNames) →
        ((setIPActionLogsByType (code, count) r).vec .IPActionLogsByType).value
          ["Unknown_" ++ fmtD code] = some count)
    ∧ ((∀ name, (code, name) ∉ lagTypeNames) →
        ((setLagReportsByType (code, count) r).vec .LagReportsByType).value
          ["Unknown_" ++ fmtD code] = some count)
    ∧ ((∀ name, (code, name) ∉ bgTypeNames) →
        ((setBattlegroundsByType (code, count) r).vec .BattlegroundsByType).value
          ["Unknown_" ++ fmtD code] = some count)
    ∧ ((∀ name, (code, name) ∉ desertionTypeNames) →
        ((setDesertersByType (code, count) r).vec
          .BattlegroundDesertersByType).value ["Unknown_" ++ fmtD code] = some count)
    ∧ ((∀ name, (code, name) ∉ ClassNames) →
        ∀ race, addByClass (code, race, count) r = r)
    ∧ ((∀ name, (code, name) ∉ houseMap) →
        ((setAuctionHouse (code, count) r).vec .AuctionCount).value [fmtD code]
          = some count) := by
  refine ⟨?_, ?_, ?_, ?_, ?_, ?_, ?_, ?_⟩
  · intro h
    have hn := (unknown_fallback difficultyNames GetDifficultyName
      (fun _ => rfl) code) h
    constructor
    · simp [setInstancesByDifficulty, Registry.vec_SetV, hn, GaugeVec.value_Set_same]
    · intro mapID
      simp [setInstanceResets, Registry.vec_SetV, hn, GaugeVec.value_Set_same]
  · intro h
    have hn := (unknown_fallback stateNames GetLFGStateName
      (fun _ => rfl) code) h
    simp [setLFGData, Registry.vec_SetV, hn, GaugeVec.value_Set_same]
  · intro h
    have hn := (unknown_fallback typeNames GetIPActionTypeName
      (fun _ => rfl) code) h
    simp [setIPActionLogsByType, Registry.vec_SetV, hn, GaugeVec.value_Set_same]
  · intro h
    have hn := (unknown_fallback lagTypeNames GetLagTypeName
      (fun _ => rfl) code) h
    simp [setLagReportsByType, Registry.vec_SetV, hn, GaugeVec.value_Set_same]
  · intro h
    have hn := (unknown_fallback bgTypeNames GetBattlegroundTypeName
      (fun _ => rfl) code) h
    simp [setBattlegroundsByType, Registry.vec_SetV, hn, GaugeVec.value_Set_same]
  · intro h
    have hn := (unknown_fallback desertionTypeNames
      GetDesertionTypeName (fun _ => rfl) code) h
    simp [setDesertersByType, Registry.vec_SetV, hn, GaugeVec.value_Set_same]
  · intro h race
    simp [addByClass, GoMap.index_of_not_mem ClassNames code h]
  · intro h
    simp [setAuctionHouse, houseLabel, GoMap.index_of_not_mem houseMap code h,
      Registry.vec_SetV, GaugeVec.value_Set_same]

theorem unmatched_code_rows_witness :
    ((setInstancesByDifficulty (13, 4) Registry.initial).vec
        .InstancesByDifficulty).value ["Unknown_13"] = some 4
    ∧ addByClass (13, 1, 4) Registry.initial = Registry.initial
    ∧ ((setAuctionHouse (13, 4) Registry.initial).vec .AuctionCount).value ["13"]
        = some 4 :=
  ⟨((unmatched_code_rows Registry.initial 13 4).1 (by
      intro name h
      have : ∀ p ∈ difficultyNames, p.1 ≠ 13 := by decide
      exact this _ h rfl)).1,
   (unmatched_code_rows Registry.initial 13 4).2.2.2.2.2.2.1 (by
      intro name h
      have : ∀ p ∈ ClassNames, p.1 ≠ 13 := by decide
      exact this _ h rfl) 1,
   (unmatched_code_rows Registry.initial 13 4).2.2.2.2.2.2.2 (by
      intro name h
      have : ∀ p ∈ houseMap, p.1 ≠ 13 := by decide
      exact this _ h rfl)⟩

/-! ## Scalar gauges: case rules -/

theorem scanRows_snd {α σ : Type} (body : α → σ → σ) (rows : List (Except Err α))
    (s : σ) : (scanRows body rows s).2 = scanError rows := by
  induction rows generalizing s with
  | nil => rfl
  | cons row rest ih =>
    cases row with
    | error e => rfl
    | ok row => exact ih _

theorem scanRows_gauge {α : Type} (body : α → Registry → Registry)
    (hbody : ∀ row r', (body row r').gauge = r'.gauge)
    (rows : List (Except Err α)) (r : Registry) :
    (scanRows body rows r).1.gauge = r.gauge :=
  scanRows_invariant (fun r' => r'.gauge = r.gauge) body
    (fun row r' h => (hbody row r').trans h) rows r rfl

theorem scanRowsContinue_gauge {α : Type} (body : α → Registry → Registry)
    (hbody : ∀ row r', (body row r').gauge = r'.gauge)
    (rows : List (Except Err α)) (r : Registry) :
    (scanRowsContinue body rows r).gauge = r.gauge :=
  scanRowsContinue_invariant (fun r' => r'.gauge = r.gauge) body
    (fun row r' h => (hbody row r').trans h) rows r rfl

theorem queryRow_gauge {α : Type} (g : GaugeName) (c : Int) (q : RowResult α)
    (r : Registry) (k : α → Registry × Option Err)
    (herr : ∀ e, q = .error e → r.gauge g = c)
    (hok : ∀ x, q = .ok x → (k x).1.gauge g = c) :
    (queryRow q r k).1.gauge g = c := by
  cases q with
  | error e => exact herr e rfl
  | ok x => exact hok x rfl

theorem queryRowErrorf_gauge {α : Type} (g : GaugeName) (c : Int)
    (q : RowResult α) (msg : String) (r : Registry)
    (k : α → Registry × Option Err)
    (herr : ∀ e, q = .error e → r.gauge g = c)
    (hok : ∀ x, q = .ok x → (k x).1.gauge g = c) :
    (queryRowErrorf q msg r k).1.gauge g = c := by
  cases q with
  | error e => exact herr e rfl
  | ok x => exact hok x rfl

theorem queryLoop_gauge {α : Type} (g : GaugeName) (c : Int) (q : QueryResult α)
    (body : α → Registry → Registry) (r : Registry)
    (k : Registry → Registry × Option Err)
    (hbody : ∀ row r', (body row r').gauge = r'.gauge)
    (herr : ∀ e, q = .error e → r.gauge g = c)
    (hscan : ∀ rows e, q = .ok rows → scanError rows = some e → r.gauge g = c)
    (hok : ∀ rows r', q = .ok rows → scanError rows = none → r'.gauge = r.gauge →
      (k r').1.gauge g = c) :
    (queryLoop q body r k).1.gauge g = c := by
  cases q with
  | error e => exact herr e rfl
  | ok rows =>
    rw [queryLoop_ok]
    have hg := scanRows_gauge body hbody rows r
    have hs := scanRows_snd body rows r
    cases he : scanError rows with
    | none =>
      rw [he] at hs
      rw [hs]
      exact hok rows _ rfl he hg
    | some e =>
      rw [he] at hs
      rw [hs]
      show (scanRows body rows r).1.gauge g = c
      rw [hg]
      exact hscan rows e rfl he

theorem queryLoopContinue_gauge {α : Type} (g : GaugeName) (c : Int)
    (q : QueryResult α) (msg : String) (body : α → Registry → Registry)
    (r : Registry) (k : Registry → Registry × Option Err)
    (hbody : ∀ row r', (body row r').gauge = r'.gauge)
    (herr : ∀ e, q = .error e → r.gauge g = c)
    (hok : ∀ rows r', q = .ok rows → r'.gauge = r.gauge → (k r').1.gauge g = c) :
    (queryLoopContinue q msg body r k).1.gauge g = c := by
  cases q with
  | error e => exact herr e rfl
  | ok rows => exact hok rows _ rfl (scanRowsContinue_gauge body hbody rows r)

theorem queryFirstRow_gauge {α : Type} (g : GaugeName) (c : Int)
    (q : QueryResult α) (msg : String) (body : α → Registry → Registry)
    (r : Registry) (k : Registry → Registry × Option Err)
    (hbody : ∀ row r', (body row r').gauge = r'.gauge)
    (herr : ∀ e, q = .error e → r.gauge g = c)
    (hok : ∀ rows r', q = .ok rows → r'.gauge = r.gauge → (k r').1.gauge g = c) :
    (queryFirstRow q msg body r k).1.gauge g = c := by
  cases q with
  | error e => exact herr e rfl
  | ok rows =>
    cases rows with
    | nil => exact hok [] r rfl rfl
    | cons row rest =>
      cases row with
      | error e => exact hok _ r rfl rfl
      | ok row => exact hok _ _ rfl (hbody row r)

/-! ## The row bodies leave the scalar gauges alone -/

@[simp] theorem addByFaction_gauge (m : VecName) (row : Int × Int) (r : Registry) :
    (addByFaction m row r).gauge = r.gauge := by
  unfold addByFaction
  dsimp only
  split <;> rfl

@[simp] theorem addByLevel_gauge (row : Int × Int × Int) (r : Registry) :
    (addByLevel row r).gauge = r.gauge := by
  unfold addByLevel
  dsimp only
  split <;> rfl

@[simp] theorem addByClass_gauge (row : Int × Int × Int) (r : Registry) :
    (addByClass row r).gauge = r.gauge := by
  unfold addByClass
  dsimp only
  split <;> rfl

@[simp] theorem setMaxLevel_gauge (row : Int × Int) (r : Registry) :
    (setMaxLevel row r).gauge = r.gauge := by
  unfold setMaxLevel
  dsimp only
  split <;> rfl

@[simp] theorem setIfValid_gauge (m : VecName) (label : String) (x : Null Int)
    (r : Registry) : (setIfValid m label x r).gauge = r.gauge := by
  cases x <;> rfl

@[simp] theorem setPlayerStats_gauge (row : PlayerStatsRow) (r : Registry) :
    (setPlayerStats row r).gauge = r.gauge := by
  simp [setPlayerStats]

@[simp] theorem setRecent_gauge (row : Null Int × Null Int × Null Int)
    (r : Registry) : (setRecent row r).gauge = r.gauge := by
  simp [setRecent]

theorem collectOnlineChars_gauge (q : PlayerQueries) (r : Registry) :
    (collectOnlineChars q r).1.gauge = r.gauge := by
  unfold collectOnlineChars
  cases q.onlineChars with
  | error e => rfl
  | ok rows =>
    refine scanRows_invariant (fun s : OnlineCharsState => s.reg.gauge = r.gauge)
      (setOnlineChar q.username) ?_ rows
      { reg := r, accountMap := [], lookups := [] } rfl
    intro row s h
    unfold setOnlineChar
    dsimp only
    cases s.accountMap.find row.2.2 <;> exact h

/-! ## Scalar gauges: what each group leaves alone -/

theorem collectPlayerMetrics_gauge (q : PlayerQueries) (r : Registry) (g : GaugeName) :
    (collectPlayerMetrics q r).1.gauge g = r.gauge g := by
  unfold collectPlayerMetrics
  dsimp only
  repeat' first
    | apply queryLoop_gauge
    | intro _
  all_goals first
    | rfl
    | simp_all [collectOnlineChars_gauge]

theorem collectMailMetrics_gauge (q : MailQueries) (r : Registry) (g : GaugeName)
    (h1 : g ≠ .MailTotal) (h2 : g ≠ .MailWithItems) :
    (collectMailMetrics q r).1.gauge g = r.gauge g := by
  unfold collectMailMetrics
  dsimp only
  repeat' first
    | apply queryRow_gauge
    | apply queryLoop_gauge
    | intro _
  all_goals first
    | rfl
    | simp_all [Registry.gauge_Set, Registry.gauge_Add]

theorem collectAccountMetrics_gauge (q : AccountQueries) (r : Registry)
    (g : GaugeName) (h1 : g ≠ .AccountsTotal) (h2 : g ≠ .AccountsOnline)
    (h3 : g ≠ .AccountsBanned) :
    (collectAccountMetrics q r).1.gauge g = r.gauge g := by
  unfold collectAccountMetrics
  dsimp only
  repeat' first
    | apply queryRow_gauge
    | intro _
  all_goals first
    | rfl
    | simp_all [Registry.gauge_Set, Registry.gauge_Add]

theorem collectServerMetrics_gauge (q : ServerQueries) (r : Registry)
    (g : GaugeName) (h1 : g ≠ .ServerUptime) (h2 : g ≠ .ServerMaxPlayers) :
    (collectServerMetrics q r).1.gauge g = r.gauge g := by
  unfold collectServerMetrics
  dsimp only
  split <;> simp [Registry.gauge_Set, Registry.gauge_Add, h1, h2]

theorem collectAuctionMetrics_gauge (q : AuctionQueries) (r : Registry)
    (g : GaugeName) : (collectAuctionMetrics q r).1.gauge g = r.gauge g := by
  unfold collectAuctionMetrics
  dsimp only
  repeat' first
    | apply queryLoop_gauge
    | intro _
  all_goals first
    | rfl
    | simp_all

theorem collectGuildMetrics_gauge (q : CountQuery) (r : Registry) (g : GaugeName)
    (h1 : g ≠ .GuildCount) : (collectGuildMetrics q r).1.gauge g = r.gauge g := by
  unfold collectGuildMetrics
  cases q.count <;> simp [queryRow, Registry.gauge_Set, h1]

theorem collectMaxLevelCharMetrics_gauge (q : MaxLevelQueries) (r : Registry)
    (g : GaugeName) : (collectMaxLevelCharMetrics q r).1.gauge g = r.gauge g := by
  unfold collectMaxLevelCharMetrics
  dsimp only
  repeat' first
    | apply queryLoop_gauge
    | intro _
  all_goals first
    | rfl
    | simp_all

theorem collectUnreadMailMetrics_gauge (q : CountQuery) (r : Registry)
    (g : GaugeName) (h1 : g ≠ .UnreadMailCount) :
    (collectUnreadMailMetrics q r).1.gauge g = r.gauge g := by
  unfold collectUnreadMailMetrics
  cases q.count <;> simp [queryRow, Registry.gauge_Set, h1]

theorem collectGMAccountMetrics_gauge (q : CountQuery) (r : Registry)
    (g : GaugeName) (h1 : g ≠ .GMAccountCount) :
    (collectGMAccountMetrics q r).1.gauge g = r.gauge g := by
  unfold collectGMAccountMetrics
  cases q.count <;> simp [queryRow, Registry.gauge_Set, h1]

theorem collectLastServerRestartMetrics_gauge (q : RestartQueries) (r : Registry)
    (g : GaugeName) (h1 : g ≠ .LastServerRestart) :
    (collectLastServerRestartMetrics q r).1.gauge g = r.gauge g := by
  unfold collectLastServerRestartMetrics
  dsimp only
  split <;> simp [Registry.gauge_Set, h1]

theorem collectBannedCharMetrics_gauge (q : CountQuery) (r : Registry)
    (g : GaugeName) (h1 : g ≠ .BannedCharCount) :
    (collectBannedCharMetrics q r).1.gauge g = r.gauge g := by
  unfold collectBannedCharMetrics
  cases q.count <;> simp [queryRow, Registry.gauge_Set, h1]

theorem collectChatMetrics_gauge (q : ChatQueries) (r : Registry)
    (g : GaugeName) (h1 : g ≠ .ChannelCount) (h2 : g ≠ .ChannelBans)
    (h3 : g ≠ .GuildEventCount) (h4 : g ≠ .MoneyLogCount)
    (h5 : g ≠ .EncounterLogCount) (h6 : g ≠ .ArenaLogCount)
    (h7 : g ≠ .IPActionLogCount) :
    (collectChatMetrics q r).1.gauge g = r.gauge g := by
  unfold collectChatMetrics
  dsimp only
  repeat' first
    | apply queryRow_gauge
    | apply queryLoop_gauge
    | intro _
  all_goals first
    | rfl
    | simp_all [Registry.gauge_Set, Registry.gauge_Add]

theorem collectInstanceMetrics_gauge (q : InstanceQueries) (r : Registry)
    (g : GaugeName) (h1 : g ≠ .ActiveInstanceCount)
    (h2 : g ≠ .CharactersInInstances) (h3 : g ≠ .LagReportsCount)
    (h4 : g ≠ .InstanceSavesCount) :
    (collectInstanceMetrics q r).1.gauge g = r.gauge g := by
  unfold collectInstanceMetrics
  dsimp only
  repeat' first
    | apply queryRow_gauge
    | apply queryLoop_gauge
    | intro _
  all_goals first
    | rfl
    | simp_all [Registry.gauge_Set, Registry.gauge_Add]

theorem publishAvgLatency_gauge (q : RowResult (Null Int)) (r : Registry)
    (g : GaugeName) (h : g ≠ .AverageLatency) :
    (publishAvgLatency q r).gauge g = r.gauge g := by
  unfold publishAvgLatency
  split <;> simp [Registry.gauge_Set, h]

@[simp] theorem publishMinMaxLatency_gauge (q : RowResult (Null Int × Null Int))
    (r : Registry) : (publishMinMaxLatency q r).gauge = r.gauge := by
  unfold publishMinMaxLatency
  split
  · rename_i mn mx
    cases mn <;> cases mx <;> rfl
  · rfl

theorem collectNetworkMetrics_gauge (q : NetworkQueries) (r : Registry)
    (g : GaugeName) (h1 : g ≠ .AverageLatency) (h2 : g ≠ .HighLatencyPlayers)
    (h3 : g ≠ .IPBannedCount) :
    (collectNetworkMetrics q r).1.gauge g = r.gauge g := by
  unfold collectNetworkMetrics
  dsimp only
  split
  · rfl
  · apply queryRow_gauge
    · intro e _
      simp [publishAvgLatency_gauge _ _ _ h1]
    · intro high _
      split
      · simp [Registry.gauge_Set, h2, publishAvgLatency_gauge _ _ _ h1]
      · repeat' first
          | apply queryRow_gauge
          | apply queryLoop_gauge
          | intro _
        all_goals first
          | rfl
          | simp_all [Registry.gauge_Set, Registry.gauge_Add,
              publishAvgLatency_gauge _ _ _ h1]

theorem collectBattlegroundMetrics_gauge (q : BattlegroundQueries) (r : Registry)
    (g : GaugeName) (h1 : g ≠ .BattlegroundDeserters)
    (h2 : g ≠ .RandomBattlegroundQueue) :
    (collectBattlegroundMetrics q r).1.gauge g = r.gauge g := by
  unfold collectBattlegroundMetrics
  dsimp only
  repeat' first
    | apply queryRowErrorf_gauge
    | apply queryLoopContinue_gauge
    | apply queryFirstRow_gauge
    | intro _
  all_goals first
    | rfl
    | simp_all [Registry.gauge_Set, Registry.gauge_Add]

/-! ## Scalar gauges over a whole cycle -/

theorem Group.run_gauge (G : Group) (g : GaugeName) (hg : gaugeOwner g ≠ G)
    (q : CycleQueries) (r : Registry) : (G.run q r).1.gauge g = r.gauge g := by
  cases G
  case player => exact collectPlayerMetrics_gauge _ _ _
  case mail =>
    exact collectMailMetrics_gauge _ _ _ (by rintro rfl; exact hg rfl)
      (by rintro rfl; exact hg rfl)
  case account =>
    exact collectAccountMetrics_gauge _ _ _ (by rintro rfl; exact hg rfl)
      (by rintro rfl; exact hg rfl) (by rintro rfl; exact hg rfl)
  case server =>
    exact collectServerMetrics_gauge _ _ _ (by rintro rfl; exact hg rfl)
      (by rintro rfl; exact hg rfl)
  case auction => exact collectAuctionMetrics_gauge _ _ _
  case guild => exact collectGuildMetrics_gauge _ _ _ (by rintro rfl; exact hg rfl)
  case maxLevelChar => exact collectMaxLevelCharMetrics_gauge _ _ _
  case unreadMail =>
    exact collectUnreadMailMetrics_gauge _ _ _ (by rintro rfl; exact hg rfl)
  case gmAccount =>
    exact collectGMAccountMetrics_gauge _ _ _ (by rintro rfl; exact hg rfl)
  case lastServerRestart =>
    exact collectLastServerRestartMetrics_gauge _ _ _ (by rintro rfl; exact hg rfl)
  case bannedChar =>
    exact collectBannedCharMetrics_gauge _ _ _ (by rintro rfl; exact hg rfl)
  case chat =>
    exact collectChatMetrics_gauge _ _ _ (by rintro rfl; exact hg rfl)
      (by rintro rfl; exact hg rfl) (by rintro rfl; exact hg rfl)
      (by rintro rfl; exact hg rfl) (by rintro rfl; exact hg rfl)
      (by rintro rfl; exact hg rfl) (by rintro rfl; exact hg rfl)
  case instances =>
    exact collectInstanceMetrics_gauge _ _ _ (by rintro rfl; exact hg rfl)
      (by rintro rfl; exact hg rfl) (by rintro rfl; exact hg rfl)
      (by rintro rfl; exact hg rfl)
  case network =>
    exact collectNetworkMetrics_gauge _ _ _ (by rintro rfl; exact hg rfl)
      (by rintro rfl; exact hg rfl) (by rintro rfl; exact hg rfl)
  case battleground =>
    exact collectBattlegroundMetrics_gauge _ _ _ (by rintro rfl; exact hg rfl)
      (by rintro rfl; exact hg rfl)

theorem runGroups_gauge (q : CycleQueries) (g : GaugeName) (gs : List Group)
    (hgs : gaugeOwner g ∉ gs) (r : Registry) :
    (runGroups q gs r).gauge g = r.gauge g := by
  induction gs generalizing r with
  | nil => rfl
  | cons G rest ih =>
    simp only [List.mem_cons, not_or] at hgs
    rw [runGroups, ih hgs.2, Group.run_gauge G g hgs.1]

theorem runGroups_append (q : CycleQueries) (gs hs : List Group) (r : Registry) :
    runGroups q (gs ++ hs) r = runGroups q hs (runGroups q gs r) := by
  induction gs generalizing r with
  | nil => rfl
  | cons G rest ih => simp [runGroups, ih]

theorem Collect_reg (q : CycleQueries) (r : Registry) :
    (Collect q r).reg = runGroups q allGroups r := by
  simp [Collect, collectGroup_reg, allGroups, runGroups]

/-- Over a cycle a scalar gauge is only touched by its own group. -/
theorem Collect_gauge (q : CycleQueries) (r : Registry) (g : GaugeName) :
    ∃ r', r'.gauge g = r.gauge g
      ∧ (Collect q r).reg.gauge g = ((gaugeOwner g).run q r').1.gauge g := by
  have hmem : gaugeOwner g ∈ allGroups := by cases g <;> decide
  have hnd : allGroups.Nodup := by decide
  obtain ⟨pre, post, hsplit⟩ := List.append_of_mem hmem
  rw [hsplit] at hnd
  have hpre : gaugeOwner g ∉ pre := by
    intro h
    have := (List.nodup_append.1 hnd).2.2
    exact this h (List.mem_cons_self _ _)
  have hpost : gaugeOwner g ∉ post :=
    (List.nodup_cons.1 (List.nodup_append.1 hnd).2.1).1
  refine ⟨runGroups q pre r, runGroups_gauge q g pre hpre r, ?_⟩
  rw [Collect_reg, hsplit, runGroups_append, runGroups, runGroups_gauge q g post hpost]

/-! ## C4 -/

theorem tolerated_iff {α : Type} (x : RowResult α) :
    tolerated x = true ↔ fatalUnlessNoRows x = none := by
  unfold tolerated fatalUnlessNoRows
  split <;> simp

theorem publishAvgLatency_failed (x : RowResult (Null Int)) (r : Registry)
    (h : failed x = true) : publishAvgLatency x r = r := by
  cases x with
  | error e => rfl
  | ok a => simp [failed] at h

/-- The three scalar gauges of `collectNetworkMetrics` when their query fails. -/
theorem collectNetworkMetrics_feed (q : NetworkQueries) (r : Registry) :
    (failed q.avgLatency = true →
      (collectNetworkMetrics q r).1.gauge .AverageLatency = r.gauge .AverageLatency)
    ∧ (tolerated q.avgLatency = true → failed q.highLatencyCount = true →
      (collectNetworkMetrics q r).1.gauge .HighLatencyPlayers
        = r.gauge .HighLatencyPlayers)
    ∧ (tolerated q.avgLatency = true → succeeded q.highLatencyCount = true →
      tolerated q.minMaxLatency = true → failed q.bannedCount = true →
      (collectNetworkMetrics q r).1.gauge .IPBannedCount = 0) := by
  refine ⟨?_, ?_, ?_⟩
  · intro h
    unfold collectNetworkMetrics
    dsimp only
    rw [publishAvgLatency_failed _ _ h]
    split
    · rfl
    · apply queryRow_gauge
      · intros; rfl
      · intro high _
        split
        · simp [Registry.gauge_Set]
        · repeat' first
            | apply queryRow_gauge
            | apply queryLoop_gauge
            | intro _
          all_goals first
            | rfl
            | simp_all [Registry.gauge_Set, Registry.gauge_Add]
  · intro h1 h2
    rw [tolerated_iff] at h1
    unfold collectNetworkMetrics
    dsimp only
    rw [h1]
    dsimp only
    apply queryRow_gauge
    · intro e _
      rw [publishAvgLatency_gauge _ _ _ (by decide)]; rfl
    · intro x hx
      simp [hx, failed] at h2
  · intro h1 h2 h3 h4
    rw [tolerated_iff] at h1 h3
    unfold collectNetworkMetrics
    dsimp only
    rw [h1, h3]
    dsimp only
    apply queryRow_gauge
    · intro e he
      simp [he, succeeded] at h2
    · intro high _
      apply queryRow_gauge
      · intro e _
        simp [Registry.gauge_Set]
      · intro x hx
        simp [hx, failed] at h4

/-- What the group of a scalar gauge leaves in the gauge when the query that
feeds it fails. -/
theorem feedFails_group_gauge (g : GaugeName) (q : CycleQueries) (r : Registry)
    (h : feedFails g q = true) :
    ((gaugeOwner g).run q r).1.gauge g
      = if resetBeforeQuery g = true then 0 else r.gauge g := by
  cases g
  case AverageLatency => exact (collectNetworkMetrics_feed q.network r).1 h
  case HighLatencyPlayers =>
    simp only [feedFails, Bool.and_eq_true] at h
    exact (collectNetworkMetrics_feed q.network r).2.1 h.1 h.2
  case IPBannedCount =>
    simp only [feedFails, Bool.and_eq_true] at h
    exact (collectNetworkMetrics_feed q.network r).2.2 h.1.1.1 h.1.1.2 h.1.2 h.2
  all_goals
    simp only [gaugeOwner, Group.run, resetBeforeQuery, feedFails, Bool.and_eq_true,
      if_true, if_false, Bool.false_eq_true] at h ⊢
    first
      | unfold collectMailMetrics
      | unfold collectAccountMetrics
      | unfold collectServerMetrics
      | unfold collectGuildMetrics
      | unfold collectUnreadMailMetrics
      | unfold collectGMAccountMetrics
      | unfold collectLastServerRestartMetrics
      | unfold collectBannedCharMetrics
      | unfold collectChatMetrics
      | unfold collectInstanceMetrics
      | unfold collectBattlegroundMetrics
    dsimp only
    repeat' first
      | apply queryRow_gauge
      | apply queryLoop_gauge
      | apply queryRowErrorf_gauge
      | apply queryLoopContinue_gauge
      | apply queryFirstRow_gauge
      | intro _
    all_goals first
      | rfl
      | (simp_all [failed, succeeded, readThrough, Registry.gauge_Set,
          Registry.gauge_Add]; done)
      | (split <;> simp_all [failed, succeeded, readThrough, Registry.gauge_Set,
          Registry.gauge_Add])

/-- C4 (counterexample): the guild count is 7 before a cycle in which the guild
query fails; after the cycle it is 0, not 7. -/
theorem failed_guild_query_zeroes_gauge :
    feedFails .GuildCount cycleDown = true
    ∧ registryWithGuilds.gauge .GuildCount = 7
    ∧ (Collect cycleDown registryWithGuilds).reg.gauge .GuildCount = 0 := by
  decide

/-- C4 (amended): if the query that feeds a scalar gauge fails during a cycle,
the gauge holds 0 after the cycle, the value its group writes with `Set(0)`
before it issues the query, whatever the gauge held before.  The four gauges
that their group never resets (`wow_average_latency_ms`,
`wow_high_latency_players`, `wow_battleground_deserters`,
`wow_random_battleground_queue`) hold the value they held before the cycle. -/
theorem failed_query_gauge_value (g : GaugeName) (q : CycleQueries) (r : Registry)
    (h : feedFails g q = true) :
    (Collect q r).reg.gauge g = if resetBeforeQuery g = true then 0 else r.gauge g := by
  obtain ⟨r', hr', hc⟩ := Collect_gauge q r g
  rw [hc, feedFails_group_gauge g q r' h, hr']

theorem failed_query_gauge_value_witness :
    (Collect cycleDown registryWithGuilds).reg.gauge .GuildCount = 0
    ∧ (Collect cycleDown registryWithGuilds).reg.gauge .AverageLatency
        = registryWithGuilds.gauge .AverageLatency :=
  ⟨failed_query_gauge_value .GuildCount cycleDown registryWithGuilds rfl,
   failed_query_gauge_value .AverageLatency cycleDown registryWithGuilds rfl⟩

/-! ## C5 -/

/-- C5 (counterexample): `collectMailMetrics` reads a mail total of 10, then its
mail-with-items query fails: it returns the error, and `wow_mail_total`, which
held 3 before, has been changed to the 10 computed in this cycle. -/
theorem mail_total_published_before_failure :
    (collectMailMetrics mailQueriesItemsFail registryWithMail).2 = some downErr
    ∧ registryWithMail.gauge .MailTotal = 3
    ∧ (collectMailMetrics mailQueriesItemsFail registryWithMail).1.gauge .MailTotal
        = 10 := by
  decide

/-- C5 (amended): `collectMailMetrics` and `collectChatMetrics` publish the
result of each query as soon as they have read it and return at the first
failing query, without undoing what they have published.
`collectMailMetrics`: when the first query fails it returns the error with its
three metrics in their reset state; when the mail-with-items query fails it
returns the error with `wow_mail_total` at `0 + float64(count)` for the count
just read; when the by-faction query fails it returns the error with both
counts published; when the by-faction query returns, the group returns the
first scan error of its rows, or none, with both counts published and the rows
read so far accumulated.  `collectChatMetrics`: when one of its queries fails,
or a row of its log query fails to scan, it returns that error with the counts
of the queries before it published and the gauge of the failing query at 0. -/
theorem groups_publish_until_first_failure (q : MailQueries) (c : ChatQueries)
    (r : Registry) :
    (∀ e, q.totalMail = .error e →
      (collectMailMetrics q r).2 = some e
      ∧ (collectMailMetrics q r).1.gauge .MailTotal = 0
      ∧ (collectMailMetrics q r).1.gauge .MailWithItems = 0
      ∧ (collectMailMetrics q r).1.vec .MailByFaction = [])
    ∧ (∀ a e, q.totalMail = .ok a → q.mailWithItemsCount = .error e →
      (collectMailMetrics q r).2 = some e
      ∧ (collectMailMetrics q r).1.gauge .MailTotal = f64Add 0 a
      ∧ (collectMailMetrics q r).1.gauge .MailWithItems = 0
      ∧ (collectMailMetrics q r).1.vec .MailByFaction = [])
    ∧ (∀ a b e, q.totalMail = .ok a → q.mailWithItemsCount = .ok b →
        q.byFaction = .error e →
      (collectMailMetrics q r).2 = some e
      ∧ (collectMailMetrics q r).1.gauge .MailTotal = f64Add 0 a
      ∧ (collectMailMetrics q r).1.gauge .MailWithItems = f64Add 0 b
      ∧ (collectMailMetrics q r).1.vec .MailByFaction = [])
    ∧ (∀ a b rows, q.totalMail = .ok a → q.mailWithItemsCount = .ok b →
        q.byFaction = .ok rows →
      (collectMailMetrics q r).2 = scanError rows
      ∧ (collectMailMetrics q r).1.gauge .MailTotal = f64Add 0 a
      ∧ (collectMailMetrics q r).1.gauge .MailWithItems = f64Add 0 b
      ∧ (collectMailMetrics q r).1.vec .MailByFaction
          = (scanRows GaugeVec.addByFaction rows []).1)
    ∧ (∀ e,
        c.channels = .error e →
      (collectChatMetrics c r).2 = some e
      ∧ (collectChatMetrics c r).1.gauge .ChannelCount = 0)
    ∧ (∀ a e,
        c.channels = .ok a →
        c.channelBans = .error e →
      (collectChatMetrics c r).2 = some e
      ∧ (collectChatMetrics c r).1.gauge .ChannelCount = a
      ∧ (collectChatMetrics c r).1.gauge .ChannelBans = 0)
    ∧ (∀ a b e,
        c.channels = .ok a →
        c.channelBans = .ok b →
        c.logs = .error e →
      (collectChatMetrics c r).2 = some e
      ∧ (collectChatMetrics c r).1.gauge .ChannelCount = a
      ∧ (collectChatMetrics c r).1.gauge .ChannelBans = b
      ∧ (collectChatMetrics c r).1.vec .LogCountByType = [])
    ∧ (∀ a b rows e,
        c.channels = .ok a →
        c.channelBans = .ok b →
        c.logs = .ok rows →
        scanError rows = some e →
      (collectChatMetrics c r).2 = some e
      ∧ (collectChatMetrics c r).1.gauge .ChannelCount = a
      ∧ (collectChatMetrics c r).1.gauge .ChannelBans = b)
    ∧ (∀ a b rows e,
        c.channels = .ok a →
        c.channelBans = .ok b →
        c.logs = .ok rows →
        scanError rows = none →
        c.guildEvents = .error e →
      (collectChatMetrics c r).2 = some e
      ∧ (collectChatMetrics c r).1.gauge .ChannelCount = a
      ∧ (collectChatMetrics c r).1.gauge .ChannelBans = b
      ∧ (collectChatMetrics c r).1.gauge .GuildEventCount = 0)
    ∧ (∀ a b rows g e,
        c.channels = .ok a →
        c.channelBans = .ok b →
        c.logs = .ok rows →
        scanError rows = none →
        c.guildEvents = .ok g →
        c.moneyLogs = .error e →
      (collectChatMetrics c r).2 = some e
      ∧ (collectChatMetrics c r).1.gauge .ChannelCount = a
      ∧ (collectChatMetrics c r).1.gauge .ChannelBans = b
      ∧ (collectChatMetrics c r).1.gauge .GuildEventCount = g
      ∧ (collectChatMetrics c r).1.gauge .MoneyLogCount = 0)
    ∧ (∀ a b rows g m e,
        c.channels = .ok a →
        c.channelBans = .ok b →
        c.logs = .ok rows →
        scanError rows = none →
        c.guildEvents = .ok g →
        c.moneyLogs = .ok m →
        c.encounterLogs = .error e →
      (collectChatMetrics c r).2 = some e
      ∧ (collectChatMetrics c r).1.gauge .ChannelCount = a
      ∧ (collectChatMetrics c r).1.gauge .ChannelBans = b
      ∧ (collectChatMetrics c r).1.gauge .GuildEventCount = g
      ∧ (collectChatMetrics c r).1.gauge .MoneyLogCount = m
      ∧ (collectChatMetrics c r).1.gauge .EncounterLogCount = 0)
    ∧ (∀ a b rows g m n e,
        c.channels = .ok a →
        c.channelBans = .ok b →
        c.logs = .ok rows →
        scanError rows = none →
        c.guildEvents = .ok g →
        c.moneyLogs = .ok m →
        c.encounterLogs = .ok n →
        c.arenaLogs = .error e →
      (collectChatMetrics c r).2 = some e
      ∧ (collectChatMetrics c r).1.gauge .ChannelCount = a
      ∧ (collectChatMetrics c r).1.gauge .ChannelBans = b
      ∧ (collectChatMetrics c r).1.gauge .GuildEventCount = g
      ∧ (collectChatMetrics c r).1.gauge .MoneyLogCount = m
      ∧ (collectChatMetrics c r).1.gauge .EncounterLogCount = n
      ∧ (collectChatMetrics c r).1.gauge .ArenaLogCount = 0)
    ∧ (∀ a b rows g m n x e,
        c.channels = .ok a →
        c.channelBans = .ok b →
        c.logs = .ok rows →
        scanError rows = none →
        c.guildEvents = .ok g →
        c.moneyLogs = .ok m →
        c.encounterLogs = .ok n →
        c.arenaLogs = .ok x →
        c.ipActionLogs = .error e →
      (collectChatMetrics c r).2 = some e
      ∧ (collectChatMetrics c r).1.gauge .ChannelCount = a
      ∧ (collectChatMetrics c r).1.gauge .ChannelBans = b
      ∧ (collectChatMetrics c r).1.gauge .GuildEventCount = g
      ∧ (collectChatMetrics c r).1.gauge .MoneyLogCount = m
      ∧ (collectChatMetrics c r).1.gauge .EncounterLogCount = n
      ∧ (collectChatMetrics c r).1.gauge .ArenaLogCount = x
      ∧ (collectChatMetrics c r).1.gauge .IPActionLogCount = 0) := by
  have hlog : ∀ row r', (setLogCount row r').gauge = r'.gauge := fun _ _ => rfl
  refine ⟨?_, ?_, ?_, ?_, ?_, ?_, ?_, ?_, ?_, ?_, ?_, ?_, ?_⟩
  · intro e h
    simp [collectMailMetrics, queryRow, h, Registry.gauge_Set, Registry.vec_Reset]
  · intro a e h1 h2
    simp [collectMailMetrics, queryRow, h1, h2, Registry.gauge_Set,
      Registry.gauge_Add, Registry.vec_Reset]
  · intro a b e h1 h2 h3
    simp [collectMailMetrics, queryRow, queryLoop, h1, h2, h3, Registry.gauge_Set,
      Registry.gauge_Add, Registry.vec_Reset]
  · intro a b rows h1 h2 h3
    refine ⟨?_, ?_, ?_, collectMailMetrics_MailByFaction q r a b rows h1 h2 h3⟩
    · simp only [collectMailMetrics, queryRow, h1, h2, h3, queryLoop_ok]
      rw [scanRows_snd]
      cases scanError rows <;> rfl
    · simp only [collectMailMetrics, queryRow, h1, h2, h3, queryLoop_ok]
      rw [scanRows_snd]
      cases scanError rows <;>
        simp [scanRows_gauge, Registry.gauge_Set, Registry.gauge_Add]
    · simp only [collectMailMetrics, queryRow, h1, h2, h3, queryLoop_ok]
      rw [scanRows_snd]
      cases scanError rows <;>
        simp [scanRows_gauge, Registry.gauge_Set, Registry.gauge_Add]
  · intros
    simp_all [collectChatMetrics, queryRow, queryLoop, Registry.gauge_Set,
      Registry.vec_Reset]
  · intros
    simp_all [collectChatMetrics, queryRow, queryLoop, Registry.gauge_Set,
      Registry.vec_Reset]
  · intros
    simp_all [collectChatMetrics, queryRow, queryLoop, Registry.gauge_Set,
      Registry.vec_Reset]
  · intros
    simp_all [collectChatMetrics, queryRow, queryLoop_ok, scanRows_snd,
      scanRows_gauge setLogCount hlog, Registry.gauge_Set]
  · intros
    simp_all [collectChatMetrics, queryRow, queryLoop_ok, scanRows_snd,
      scanRows_gauge setLogCount hlog, Registry.gauge_Set]
  · intros
    simp_all [collectChatMetrics, queryRow, queryLoop_ok, scanRows_snd,
      scanRows_gauge setLogCount hlog, Registry.gauge_Set]
  · intros
    simp_all [collectChatMetrics, queryRow, queryLoop_ok, scanRows_snd,
      scanRows_gauge setLogCount hlog, Registry.gauge_Set]
  · intros
    simp_all [collectChatMetrics, queryRow, queryLoop_ok, scanRows_snd,
      scanRows_gauge setLogCount hlog, Registry.gauge_Set]
  · intros
    simp_all [collectChatMetrics, queryRow, queryLoop_ok, scanRows_snd,
      scanRows_gauge setLogCount hlog, Registry.gauge_Set]

theorem groups_publish_until_first_failure_witness :
    (collectMailMetrics mailQueriesItemsFail Registry.initial).2 = some downErr
    ∧ (collectMailMetrics mailQueriesItemsFail Registry.initial).1.gauge .MailTotal
        = 10
    ∧ (collectMailMetrics mailQueriesItemsFail Registry.initial).1.gauge
        .MailWithItems = 0
    ∧ (collectMailMetrics mailQueriesItemsFail Registry.initial).1.vec
        .MailByFaction = [] :=
  (groups_publish_until_first_failure mailQueriesItemsFail cycleDown.chat
    Registry.initial).2.1 10 downErr rfl rfl

/-! ## C11 -/

/-- C11 (counterexample): the uptime gauge holds 3600 and the player maximum 50
before `collectServerMetrics` runs on an `uptime` table without rows; after it
both hold 0, and no error is returned. -/
theorem empty_uptime_table_zeroes_server_gauges :
    registryWithUptime.gauge .ServerUptime = 3600
    ∧ registryWithUptime.gauge .ServerMaxPlayers = 50
    ∧ (collectServerMetrics serverQueriesNoRows registryWithUptime).1.gauge
        .ServerUptime = 0
    ∧ (collectServerMetrics serverQueriesNoRows registryWithUptime).1.gauge
        .ServerMaxPlayers = 0
    ∧ (collectServerMetrics serverQueriesNoRows registryWithUptime).2 = none := by
  decide

/-- C11 (amended): if the uptime query returns no row, `collectServerMetrics`
returns no error and leaves `wow_server_uptime_seconds` and
`wow_server_max_players` at 0, the value it writes before the query, whatever
they held before; they keep their earlier value exactly when that was 0, as at
the first scrape. -/
theorem empty_uptime_table_leaves_zero (q : ServerQueries) (r : Registry)
    (h : q.uptime = .error .ErrNoRows) :
    (collectServerMetrics q r).2 = none
    ∧ (collectServerMetrics q r).1.gauge .ServerUptime = 0
    ∧ (collectServerMetrics q r).1.gauge .ServerMaxPlayers = 0
    ∧ ((collectServerMetrics q r).1.gauge .ServerUptime = r.gauge .ServerUptime
        ↔ r.gauge .ServerUptime = 0)
    ∧ ((collectServerMetrics q r).1.gauge .ServerMaxPlayers
          = r.gauge .ServerMaxPlayers ↔ r.gauge .ServerMaxPlayers = 0) := by
  have h1 : (collectServerMetrics q r).1.gauge .ServerUptime = 0 := by
    simp [collectServerMetrics, h, Registry.gauge_Set]
  have h2 : (collectServerMetrics q r).1.gauge .ServerMaxPlayers = 0 := by
    simp [collectServerMetrics, h, Registry.gauge_Set]
  refine ⟨by simp [collectServerMetrics, h], h1, h2, ?_, ?_⟩
  · rw [h1]; exact eq_comm
  · rw [h2]; exact eq_comm

theorem empty_uptime_table_leaves_zero_witness :
    (collectServerMetrics serverQueriesNoRows Registry.initial).2 = none
    ∧ (collectServerMetrics serverQueriesNoRows Registry.initial).1.gauge
        .ServerUptime = 0
    ∧ (collectServerMetrics serverQueriesNoRows Registry.initial).1.gauge
        .ServerMaxPlayers = 0 :=
  ⟨(empty_uptime_table_leaves_zero serverQueriesNoRows Registry.initial rfl).1,
   (empty_uptime_table_leaves_zero serverQueriesNoRows Registry.initial rfl).2.1,
   (empty_uptime_table_leaves_zero serverQueriesNoRows Registry.initial rfl).2.2.1⟩

/-! ## Queries that are read through -/

theorem readThrough_iff {α : Type} (x : QueryResult α) :
    readThrough x = true ↔ ∃ rows, x = .ok rows ∧ scanError rows = none := by
  cases x with
  | error e => simp [readThrough]
  | ok rows => simp [readThrough]

theorem queryLoop_readThrough {α : Type} (x : QueryResult α)
    (body : α → Registry → Registry) (r : Registry)
    (k : Registry → Registry × Option Err) (h : readThrough x = true) :
    ∃ r', queryLoop x body r k = k r' := by
  obtain ⟨rows, rfl, hs⟩ := (readThrough_iff x).1 h
  exact ⟨_, queryLoop_ok_none rows body r k (by rw [scanRows_snd, hs])⟩

/-- When its first four queries are read through, `collectPlayerMetrics` ends
with the online-characters loop. -/
theorem collectPlayerMetrics_eq_onlineChars (q : PlayerQueries) (r : Registry)
    (h1 : readThrough q.online = true) (h2 : readThrough q.total = true)
    (h3 : readThrough q.byLevel = true) (h4 : readThrough q.byClass = true) :
    ∃ r', collectPlayerMetrics q r = collectOnlineChars q r' := by
  unfold collectPlayerMetrics
  dsimp only
  obtain ⟨r1, e1⟩ := queryLoop_readThrough q.online (addByFaction .PlayersOnline)
    (((((r.Reset .PlayersOnline).Reset .PlayersTotal).Reset .PlayersByLevel).Reset
      .PlayersByClass).Reset .OnlinePlayersByLevel)
    (fun r => queryLoop q.total (addByFaction .PlayersTotal) r fun r =>
      queryLoop q.byLevel addByLevel r fun r =>
      queryLoop q.byClass addByClass r fun r => collectOnlineChars q r) h1
  rw [e1]
  obtain ⟨r2, e2⟩ := queryLoop_readThrough q.total (addByFaction .PlayersTotal) r1
    (fun r => queryLoop q.byLevel addByLevel r fun r =>
      queryLoop q.byClass addByClass r fun r => collectOnlineChars q r) h2
  rw [e2]
  obtain ⟨r3, e3⟩ := queryLoop_readThrough q.byLevel addByLevel r2
    (fun r => queryLoop q.byClass addByClass r fun r => collectOnlineChars q r) h3
  rw [e3]
  obtain ⟨r4, e4⟩ := queryLoop_readThrough q.byClass addByClass r3
    (fun r => collectOnlineChars q r) h4
  exact ⟨r4, e4⟩

/-! ## C14 -/

theorem queryRow_of_none {α : Type} (C : Prop) (q : RowResult α) (r : Registry)
    (k : α → Registry × Option Err)
    (hk : ∀ x, q = .ok x → NoErrorImplies (k x) C) :
    NoErrorImplies (queryRow q r k) C := by
  cases q with
  | error e => exact ⟨fun h => by cases h⟩
  | ok x => exact hk x rfl

theorem queryLoop_of_none {α : Type} (C : Prop) (q : QueryResult α)
    (body : α → Registry → Registry) (r : Registry)
    (k : Registry → Registry × Option Err)
    (hk : ∀ rows r', q = .ok rows → scanError rows = none → NoErrorImplies (k r') C) :
    NoErrorImplies (queryLoop q body r k) C := by
  cases q with
  | error e => exact ⟨fun h => by cases h⟩
  | ok rows =>
    rw [queryLoop_ok]
    have hs := scanRows_snd body rows r
    cases he : scanError rows with
    | none =>
      rw [he] at hs
      rw [hs]
      exact hk rows _ rfl he
    | some e =>
      rw [he] at hs
      rw [hs]
      exact ⟨fun h => by cases h⟩

theorem collectOnlineChars_of_none (q : PlayerQueries) (r : Registry)
    (h : (collectOnlineChars q r).2 = none) : rowsScanned q.onlineChars = true := by
  unfold collectOnlineChars at h
  unfold rowsScanned
  cases hq : q.onlineChars with
  | error e => rfl
  | ok rows =>
    rw [hq] at h
    dsimp only at h ⊢
    rw [scanRows_snd] at h
    simp [h]

theorem collectPlayerMetrics_of_none (q : CycleQueries) (r : Registry) :
    NoErrorImplies (collectPlayerMetrics q.player r)
      (Group.scansSucceeded .player q = true) := by
  simp only [Group.scansSucceeded, Bool.and_eq_true]
  unfold collectPlayerMetrics
  dsimp only
  repeat' first
    | (apply queryLoop_of_none; intro _ _ _ _)
  all_goals
    refine ⟨fun h => ?_⟩
    have := collectOnlineChars_of_none _ _ h
    simp_all [rowsScanned]

theorem collectMailMetrics_of_none (q : CycleQueries) (r : Registry) :
    NoErrorImplies (collectMailMetrics q.mail r)
      (Group.scansSucceeded .mail q = true) := by
  simp only [Group.scansSucceeded, Bool.and_eq_true]
  unfold collectMailMetrics
  dsimp only
  repeat' first
    | (apply queryRow_of_none; intro _ _)
    | (apply queryLoop_of_none; intro _ _ _ _)
  all_goals
    refine ⟨fun _ => ?_⟩
    simp_all [rowsScanned, succeeded]

theorem collectAccountMetrics_of_none (q : CycleQueries) (r : Registry) :
    NoErrorImplies (collectAccountMetrics q.account r)
      (Group.scansSucceeded .account q = true) := by
  simp only [Group.scansSucceeded, Bool.and_eq_true]
  unfold collectAccountMetrics
  dsimp only
  repeat' (apply queryRow_of_none; intro _ _)
  all_goals
    refine ⟨fun _ => ?_⟩
    simp_all [rowsScanned, succeeded]

theorem collectAuctionMetrics_of_none (q : CycleQueries) (r : Registry) :
    NoErrorImplies (collectAuctionMetrics q.auction r)
      (Group.scansSucceeded .auction q = true) := by
  simp only [Group.scansSucceeded, Bool.and_eq_true]
  unfold collectAuctionMetrics
  dsimp only
  repeat' (apply queryLoop_of_none; intro _ _ _ _)
  all_goals
    refine ⟨fun _ => ?_⟩
    simp_all [rowsScanned, succeeded]

theorem collectGuildMetrics_of_none (q : CycleQueries) (r : Registry) :
    NoErrorImplies (collectGuildMetrics q.guild r)
      (Group.scansSucceeded .guild q = true) := by
  simp only [Group.scansSucceeded, Bool.and_eq_true]
  unfold collectGuildMetrics
  dsimp only
  repeat' (apply queryRow_of_none; intro _ _)
  all_goals
    refine ⟨fun _ => ?_⟩
    simp_all [rowsScanned, succeeded]

theorem collectMaxLevelCharMetrics_of_none (q : CycleQueries) (r : Registry) :
    NoErrorImplies (collectMaxLevelCharMetrics q.maxLevelChar r)
      (Group.scansSucceeded .maxLevelChar q = true) := by
  simp only [Group.scansSucceeded, Bool.and_eq_true]
  unfold collectMaxLevelCharMetrics
  dsimp only
  repeat' (apply queryLoop_of_none; intro _ _ _ _)
  all_goals
    refine ⟨fun _ => ?_⟩
    simp_all [rowsScanned, succeeded]

theorem collectUnreadMailMetrics_of_none (q : CycleQueries) (r : Registry) :
    NoErrorImplies (collectUnreadMailMetrics q.unreadMail r)
      (Group.scansSucceeded .unreadMail q = true) := by
  simp only [Group.scansSucceeded, Bool.and_eq_true]
  unfold collectUnreadMailMetrics
  dsimp only
  repeat' (apply queryRow_of_none; intro _ _)
  all_goals
    refine ⟨fun _ => ?_⟩
    simp_all [rowsScanned, succeeded]

theorem collectGMAccountMetrics_of_none (q : CycleQueries) (r : Registry) :
    NoErrorImplies (collectGMAccountMetrics q.gmAccount r)
      (Group.scansSucceeded .gmAccount q = true) := by
  simp only [Group.scansSucceeded, Bool.and_eq_true]
  unfold collectGMAccountMetrics
  dsimp only
  repeat' (apply queryRow_of_none; intro _ _)
  all_goals
    refine ⟨fun _ => ?_⟩
    simp_all [rowsScanned, succeeded]

theorem collectBannedCharMetrics_of_none (q : CycleQueries) (r : Registry) :
    NoErrorImplies (collectBannedCharMetrics q.bannedChar r)
      (Group.scansSucceeded .bannedChar q = true) := by
  simp only [Group.scansSucceeded, Bool.and_eq_true]
  unfold collectBannedCharMetrics
  dsimp only
  repeat' (apply queryRow_of_none; intro _ _)
  all_goals
    refine ⟨fun _ => ?_⟩
    simp_all [rowsScanned, succeeded]

theorem collectChatMetrics_of_none (q : CycleQueries) (r : Registry) :
    NoErrorImplies (collectChatMetrics q.chat r)
      (Group.scansSucceeded .chat q = true) := by
  simp only [Group.scansSucceeded, Bool.and_eq_true]
  unfold collectChatMetrics
  dsimp only
  repeat' first
    | (apply queryRow_of_none; intro _ _)
    | (apply queryLoop_of_none; intro _ _ _ _)
  all_goals
    refine ⟨fun _ => ?_⟩
    simp_all [rowsScanned, succeeded]

theorem collectInstanceMetrics_of_none (q : CycleQueries) (r : Registry) :
    NoErrorImplies (collectInstanceMetrics q.instances r)
      (Group.scansSucceeded .instances q = true) := by
  simp only [Group.scansSucceeded, Bool.and_eq_true]
  unfold collectInstanceMetrics
  dsimp only
  repeat' first
    | (apply queryRow_of_none; intro _ _)
    | (apply queryLoop_of_none; intro _ _ _ _)
  all_goals
    refine ⟨fun _ => ?_⟩
    simp_all [rowsScanned, succeeded]

theorem collectServerMetrics_of_none (q : CycleQueries) (r : Registry) :
    NoErrorImplies (collectServerMetrics q.server r)
      (Group.scansSucceeded .server q = true) := by
  refine ⟨fun h => ?_⟩
  simp only [Group.scansSucceeded]
  unfold collectServerMetrics at h
  dsimp only at h
  split at h <;> simp_all [tolerated]

theorem collectLastServerRestartMetrics_of_none (q : CycleQueries) (r : Registry) :
    NoErrorImplies (collectLastServerRestartMetrics q.lastServerRestart r)
      (Group.scansSucceeded .lastServerRestart q = true) := by
  refine ⟨fun h => ?_⟩
  simp only [Group.scansSucceeded]
  unfold collectLastServerRestartMetrics at h
  dsimp only at h
  split at h <;> simp_all [tolerated]

theorem collectNetworkMetrics_of_none (q : CycleQueries) (r : Registry) :
    NoErrorImplies (collectNetworkMetrics q.network r)
      (Group.scansSucceeded .network q = true) := by
  simp only [Group.scansSucceeded, Bool.and_eq_true]
  unfold collectNetworkMetrics
  dsimp only
  split
  · exact ⟨fun h => by cases h⟩
  · rename_i havg
    apply queryRow_of_none
    intro high _
    split
    · exact ⟨fun h => by cases h⟩
    · rename_i hmm
      have h1 := (tolerated_iff q.network.avgLatency).2 havg
      have h2 := (tolerated_iff q.network.minMaxLatency).2 hmm
      repeat' first
        | (apply queryRow_of_none; intro _ _)
        | (apply queryLoop_of_none; intro _ _ _ _)
      all_goals
        refine ⟨fun _ => ?_⟩
        simp_all [rowsScanned, succeeded]

/-- C14 (counterexample): `collectBattlegroundMetrics` skips the row of the
deserters-by-type query that fails to scan and returns no error, and `Collect`
logs nothing for the battleground group.  `collectPlayerMetrics` returns no
error either when the username lookup of an online character fails. -/
theorem battleground_skips_unscannable_row :
    Group.scansSucceeded .battleground cycleBattlegroundScanFails = false
    ∧ (collectBattlegroundMetrics battlegroundQueriesScanFails Registry.initial).2
        = none
    ∧ (Collect cycleBattlegroundScanFails Registry.initial).log.length = 14
    ∧ failed (playerQueriesLookupFails.username 5) = true
    ∧ (collectPlayerMetrics playerQueriesLookupFails Registry.initial).2 = none := by
  decide

/-- C14 (amended): in every collection group other than
`collectBattlegroundMetrics`, a group that returns no error has read every row
it asked for: no row of any of its multi-row queries failed to scan, and each of
its single-row reads returned its row or, in `collectServerMetrics`,
`collectLastServerRestartMetrics` and the average and min/max latency reads of
`collectNetworkMetrics`, found no row (`sql.ErrNoRows`, which the code tolerates
there).  The one read left out is the username lookup that
`collectPlayerMetrics` makes per online character: whatever it returns, the
group returns the first scan error of the online-characters rows, or none.
`collectBattlegroundMetrics` skips a row that fails to scan and goes on. -/
theorem scan_failure_is_returned (g : Group) (q : CycleQueries) (r : Registry) :
    (g ≠ .battleground → (g.run q r).2 = none → g.scansSucceeded q = true)
    ∧ (∀ rows, readThrough q.player.online = true →
        readThrough q.player.total = true → readThrough q.player.byLevel = true →
        readThrough q.player.byClass = true → q.player.onlineChars = .ok rows →
        (Group.run .player q r).2 = scanError rows) := by
  constructor
  · intro hg h
    cases g
    case battleground => exact absurd rfl hg
    case player => exact (collectPlayerMetrics_of_none q r).out h
    case mail => exact (collectMailMetrics_of_none q r).out h
    case account => exact (collectAccountMetrics_of_none q r).out h
    case server => exact (collectServerMetrics_of_none q r).out h
    case auction => exact (collectAuctionMetrics_of_none q r).out h
    case guild => exact (collectGuildMetrics_of_none q r).out h
    case maxLevelChar => exact (collectMaxLevelCharMetrics_of_none q r).out h
    case unreadMail => exact (collectUnreadMailMetrics_of_none q r).out h
    case gmAccount => exact (collectGMAccountMetrics_of_none q r).out h
    case lastServerRestart => exact (collectLastServerRestartMetrics_of_none q r).out h
    case bannedChar => exact (collectBannedCharMetrics_of_none q r).out h
    case chat => exact (collectChatMetrics_of_none q r).out h
    case instances => exact (collectInstanceMetrics_of_none q r).out h
    case network => exact (collectNetworkMetrics_of_none q r).out h
  · intro rows h1 h2 h3 h4 ho
    obtain ⟨r', hr'⟩ := collectPlayerMetrics_eq_onlineChars q.player r h1 h2 h3 h4
    show (collectPlayerMetrics q.player r).2 = scanError rows
    rw [hr']
    unfold collectOnlineChars
    rw [ho]
    dsimp only
    rw [scanRows_snd]

theorem scan_failure_is_returned_witness :
    Group.scansSucceeded .auction cycleAuctionOnly = true :=
  (scan_failure_is_returned .auction cycleAuctionOnly Registry.initial).1
    (by decide) (by decide)

/-! ## The online-characters loop -/

theorem GaugeVec.value_Set_ne (v : GaugeVec) (ls ls' : List String) (x : Int)
    (h : ls' ≠ ls) : (v.Set ls x).value ls' = v.value ls' := by
  induction v with
  | nil =>
    have h' : ¬ ls = ls' := fun e => h e.symm
    simp [GaugeVec.Set, GaugeVec.value, h']
  | cons p rest ih =>
    obtain ⟨l, y⟩ := p
    by_cases h1 : l = ls
    · subst h1
      have h' : ¬ l = ls' := fun e => h e.symm
      simp [GaugeVec.Set, GaugeVec.value, h']
    · by_cases h2 : l = ls'
      · subst h2
        simp [GaugeVec.Set, GaugeVec.value, h1]
      · simp [GaugeVec.Set, GaugeVec.value, h1, h2, ih]

theorem onlineCharsStart_inv (username : Int → RowResult String) (r : Registry) :
    OnlineCharsInv username (onlineCharsStart r) :=
  ⟨List.nodup_nil, fun id => by simp [onlineCharsStart, GoMap.find],
   fun id name h => by simp [onlineCharsStart, GoMap.find] at h⟩

theorem setOnlineChar_step (username : Int → RowResult String)
    (row : String × Int × Int) (s : OnlineCharsState)
    (hs : OnlineCharsInv username s) :
    OnlineCharsInv username (setOnlineChar username row s)
    ∧ (setOnlineChar username row s).reg
        = s.reg.SetV .OnlinePlayersByLevel
            [row.1, resolveAccount username row.2.2] row.2.1
    ∧ (∀ id, id ∈ (setOnlineChar username row s).lookups
        ↔ id ∈ s.lookups ∨ row.2.2 = id) := by
  unfold setOnlineChar
  dsimp only
  cases hf : s.accountMap.find row.2.2 with
  | some name =>
    have hmem : row.2.2 ∈ s.lookups := (hs.memo _).2 (by simp [hf])
    refine ⟨⟨hs.nodup, hs.memo, hs.label⟩, ?_, ?_⟩
    · rw [hs.label _ _ hf]
    · intro id
      constructor
      · exact Or.inl
      · rintro (h | h)
        · exact h
        · exact h ▸ hmem
  | none =>
    have hnot : row.2.2 ∉ s.lookups := fun h => by
      have := (hs.memo _).1 h
      simp [hf] at this
    refine ⟨⟨?_, ?_, ?_⟩, rfl, ?_⟩
    · exact List.Nodup.append hs.nodup (List.nodup_singleton _) (by simpa using hnot)
    · intro id
      by_cases hid : row.2.2 = id
      · simp [GoMap.find, hid]
      · have hid' : ¬ id = row.2.2 := fun e => hid e.symm
        simp [GoMap.find, hid, hid', hs.memo id]
    · intro id name h
      by_cases hid : row.2.2 = id
      · simp only [GoMap.find, hid, if_true, Option.some.injEq] at h
        rw [← h, ← hid]
        rfl
      · simp only [GoMap.find, hid, if_false] at h
        exact hs.label id name h
    · intro id
      simp [eq_comm]

/-- The loop over rows that all scan: the invariant is kept, the registry is
the one obtained by setting one series per row, labelled with the account label
of the row, and the ids looked up are those that were already looked up and
those of the rows. -/
theorem onlineChars_fold (username : Int → RowResult String)
    (rows : List (String × Int × Int)) (s : OnlineCharsState)
    (hs : OnlineCharsInv username s) :
    OnlineCharsInv username
        (rows.foldl (fun s row => setOnlineChar username row s) s)
    ∧ (rows.foldl (fun s row => setOnlineChar username row s) s).reg
        = rows.foldl (fun r row => r.SetV .OnlinePlayersByLevel
            [row.1, resolveAccount username row.2.2] row.2.1) s.reg
    ∧ (∀ id, id ∈ (rows.foldl (fun s row => setOnlineChar username row s) s).lookups
        ↔ id ∈ s.lookups ∨ ∃ row ∈ rows, row.2.2 = id) := by
  induction rows generalizing s with
  | nil => exact ⟨hs, rfl, fun id => by simp⟩
  | cons row rest ih =>
    obtain ⟨h1, h2, h3⟩ := setOnlineChar_step username row s hs
    obtain ⟨i1, i2, i3⟩ := ih _ h1
    refine ⟨i1, ?_, ?_⟩
    · simp only [List.foldl_cons]
      rw [i2, h2]
    · intro id
      simp only [List.foldl_cons, i3, h3, List.mem_cons, exists_eq_or_imp]
      tauto

/-! ## C13 -/

/-- C13: `collectOnlineChars` runs its loop from an empty `accountMap`, whatever
earlier cycles resolved, and over rows that all scan it queries the auth
database exactly once for each distinct account id of the rows: the list of ids
looked up has no repetition and contains exactly the account ids of the rows,
whether the lookups succeed or fail. -/
theorem account_lookup_once_per_id (q : PlayerQueries) (r : Registry)
    (rows : List (String × Int × Int))
    (h : q.onlineChars = .ok (rows.map Except.ok)) :
    collectOnlineChars q r
        = ((scanRows (setOnlineChar q.username) (rows.map Except.ok)
              { reg := r, accountMap := [], lookups := [] }).1.reg,
           (scanRows (setOnlineChar q.username) (rows.map Except.ok)
              { reg := r, accountMap := [], lookups := [] }).2)
    ∧ (scanRows (setOnlineChar q.username) (rows.map Except.ok)
        { reg := r, accountMap := [], lookups := [] }).1.lookups.Nodup
    ∧ (∀ id, id ∈ (scanRows (setOnlineChar q.username) (rows.map Except.ok)
          { reg := r, accountMap := [], lookups := [] }).1.lookups
        ↔ ∃ row ∈ rows, row.2.2 = id)
    ∧ (∀ row ∈ rows, (scanRows (setOnlineChar q.username) (rows.map Except.ok)
          { reg := r, accountMap := [], lookups := [] }).1.lookups.count row.2.2
        = 1) := by
  obtain ⟨hinv, _, hmem⟩ :=
    onlineChars_fold q.username rows (onlineCharsStart r) (onlineCharsStart_inv _ r)
  have hmem' : ∀ id, id ∈ (scanRows (setOnlineChar q.username) (rows.map Except.ok)
      { reg := r, accountMap := [], lookups := [] }).1.lookups
        ↔ ∃ row ∈ rows, row.2.2 = id := by
    intro id
    rw [scanRows_map_ok]
    simpa [onlineCharsStart] using hmem id
  have hnd : (scanRows (setOnlineChar q.username) (rows.map Except.ok)
      { reg := r, accountMap := [], lookups := [] }).1.lookups.Nodup := by
    rw [scanRows_map_ok]
    exact hinv.nodup
  refine ⟨?_, hnd, hmem', ?_⟩
  · unfold collectOnlineChars
    rw [h]
  · intro row hrow
    exact List.count_eq_one_of_mem hnd ((hmem' _).2 ⟨row, hrow, rfl⟩)

theorem account_lookup_once_per_id_witness :
    (scanRows (setOnlineChar playerQueriesLookupFails.username)
        ([("Thrall", 80, 5), ("Jaina", 70, 5), ("Anduin", 20, 9)].map Except.ok)
        { reg := Registry.initial, accountMap := [], lookups := [] }).1.lookups.Nodup
    ∧ (scanRows (setOnlineChar playerQueriesLookupFails.username)
        ([("Thrall", 80, 5), ("Jaina", 70, 5), ("Anduin", 20, 9)].map Except.ok)
        { reg := Registry.initial, accountMap := [], lookups := [] }).1.lookups
        = [5, 9] :=
  ⟨(account_lookup_once_per_id playerQueriesLookupFails Registry.initial
    [("Thrall", 80, 5), ("Jaina", 70, 5), ("Anduin", 20, 9)] rfl).2.1, by decide⟩

/-! ## C12 -/

theorem resolveAccount_failed (username : Int → RowResult String) (id : Int)
    (h : failed (username id) = true) :
    resolveAccount username id = "account_" ++ fmtD id := by
  unfold resolveAccount
  cases hu : username id with
  | error e => rfl
  | ok u => simp [hu, failed] at h

/-- A series set for a character survives the rows of other characters. -/
theorem onlineChars_value_kept (username : Int → RowResult String)
    (post : List (String × Int × Int)) (name : String)
    (hpost : ∀ row ∈ post, row.1 ≠ name) (label : String) (r : Registry) :
    ((post.foldl (fun r row => r.SetV .OnlinePlayersByLevel
        [row.1, resolveAccount username row.2.2] row.2.1) r).vec
        .OnlinePlayersByLevel).value [name, label]
      = (r.vec .OnlinePlayersByLevel).value [name, label] := by
  induction post generalizing r with
  | nil => rfl
  | cons row rest ih =>
    simp only [List.foldl_cons]
    rw [ih (fun row' h => hpost row' (List.mem_cons_of_mem _ h))]
    have hne : row.1 ≠ name := hpost row (List.mem_cons_self _ _)
    rw [Registry.vec_SetV, if_pos rfl, GaugeVec.value_Set_ne]
    intro h
    exact hne (by simpa using (List.cons.inj h).1.symm)

/-- C12: in a run of `collectPlayerMetrics` that reaches the online-characters
loop, a row whose account lookup fails is published as the series
(character name, `account_<id>`) with the level of the row as value; the loop
then goes on with the remaining rows, and the group returns no error.  At the
end of the group the series still holds that level when no later row has the
same character name. -/
theorem failed_lookup_publishes_placeholder (q : PlayerQueries) (r : Registry)
    (pre post : List (String × Int × Int)) (row : String × Int × Int)
    (h1 : readThrough q.online = true) (h2 : readThrough q.total = true)
    (h3 : readThrough q.byLevel = true) (h4 : readThrough q.byClass = true)
    (h : q.onlineChars = .ok ((pre ++ row :: post).map Except.ok))
    (hfail : failed (q.username row.2.2) = true) :
    (collectPlayerMetrics q r).2 = none
    ∧ (∃ r' s, s = (scanRows (setOnlineChar q.username)
            ((pre ++ [row]).map Except.ok) (onlineCharsStart r')).1
        ∧ (s.reg.vec .OnlinePlayersByLevel).value
            [row.1, "account_" ++ fmtD row.2.2] = some row.2.1
        ∧ (collectPlayerMetrics q r).1
            = (scanRows (setOnlineChar q.username) (post.map Except.ok) s).1.reg)
    ∧ ((∀ row' ∈ post, row'.1 ≠ row.1) →
        ((collectPlayerMetrics q r).1.vec .OnlinePlayersByLevel).value
          [row.1, "account_" ++ fmtD row.2.2] = some row.2.1) := by
  obtain ⟨r', hr'⟩ := collectPlayerMetrics_eq_onlineChars q r h1 h2 h3 h4
  have hrun : collectOnlineChars q r'
      = ((post.foldl (fun s row => setOnlineChar q.username row s)
            ((pre ++ [row]).foldl (fun s row => setOnlineChar q.username row s)
              (onlineCharsStart r'))).reg, none) := by
    unfold collectOnlineChars
    rw [h]
    dsimp only
    rw [scanRows_map_ok]
    have : pre ++ row :: post = (pre ++ [row]) ++ post := by simp
    rw [this, List.foldl_append]
    rfl
  obtain ⟨hinv, hreg, _⟩ := onlineChars_fold q.username (pre ++ [row])
    (onlineCharsStart r') (onlineCharsStart_inv _ r')
  have hval : (((pre ++ [row]).foldl (fun s row => setOnlineChar q.username row s)
      (onlineCharsStart r')).reg.vec .OnlinePlayersByLevel).value
        [row.1, "account_" ++ fmtD row.2.2] = some row.2.1 := by
    rw [hreg, List.foldl_append]
    simp only [List.foldl_cons, List.foldl_nil]
    rw [Registry.vec_SetV, if_pos rfl, resolveAccount_failed _ _ hfail,
      GaugeVec.value_Set_same]
  refine ⟨?_, ⟨r', _, rfl, ?_, ?_⟩, ?_⟩
  · rw [hr', hrun]
  · rw [scanRows_map_ok]
    exact hval
  · rw [hr', hrun, scanRows_map_ok, scanRows_map_ok]
  · intro hpost
    obtain ⟨_, hreg2, _⟩ := onlineChars_fold q.username post _ hinv
    rw [hr', hrun]
    dsimp only
    rw [hreg2, onlineChars_value_kept _ _ _ hpost]
    exact hval

theorem failed_lookup_publishes_placeholder_witness :
    (collectPlayerMetrics playerQueriesLookupFails Registry.initial).2 = none
    ∧ ((collectPlayerMetrics playerQueriesLookupFails Registry.initial).1.vec
        .OnlinePlayersByLevel).value ["Thrall", "account_5"] = some 80 :=
  ⟨(failed_lookup_publishes_placeholder playerQueriesLookupFails Registry.initial
      [] [("Jaina", 70, 5), ("Anduin", 20, 9)] ("Thrall", 80, 5)
      rfl rfl rfl rfl rfl rfl).1,
   (failed_lookup_publishes_placeholder playerQueriesLookupFails Registry.initial
      [] [("Jaina", 70, 5), ("Anduin", 20, 9)] ("Thrall", 80, 5)
      rfl rfl rfl rfl rfl rfl).2.2 (by decide)⟩

/-! ## C18 -/

theorem String.exists_append_of_isPrefixOf (p n : String)
    (h : List.isPrefixOf p.data n.data = true) : ∃ rest : String, n = p ++ rest := by
  obtain ⟨t, ht⟩ := List.isPrefixOf_iff_prefix.1 h
  refine ⟨⟨t⟩, ?_⟩
  apply String.ext
  simp [String.data_append, ht]

/-- C18: the 53 metric definitions of `metrics/definitions.go` have pairwise
distinct names, and each name begins with `wow_`. -/
theorem metric_names_distinct_and_prefixed :
    definedMetrics.length = 53
    ∧ (∀ m ∈ definedMetrics, (Metric.declaredName m).isSome = true)
    ∧ (definedMetrics.filterMap Metric.declaredName).Nodup
    ∧ ∀ n ∈ definedMetrics.filterMap Metric.declaredName,
        ∃ rest : String, n = "wow_" ++ rest := by
  refine ⟨by decide, by decide, by decide, ?_⟩
  have h : ∀ n ∈ definedMetrics.filterMap Metric.declaredName,
      List.isPrefixOf "wow_".data n.data = true := by decide
  exact fun n hn => String.exists_append_of_isPrefixOf _ _ (h n hn)

/-! ## C16 -/

/-- C16 (the code at the failing input): `Exporter.Collect` sends
`ActiveBattlegrounds`, `ActiveBattlegroundPlayers` and `ActiveBattlegroundTotal`,
but none of the fifteen groups resets or sets any of them; every other metric
that `Collect` sends is written by exactly one group. -/
theorem active_battleground_metrics_never_written :
    (Metric.ActiveBattlegrounds ∈ collectSends
      ∧ ∀ g ∈ allGroups, Metric.ActiveBattlegrounds ∉ Group.writes g)
    ∧ (Metric.ActiveBattlegroundPlayers ∈ collectSends
      ∧ ∀ g ∈ allGroups, Metric.ActiveBattlegroundPlayers ∉ Group.writes g)
    ∧ (Metric.ActiveBattlegroundTotal ∈ collectSends
      ∧ ∀ g ∈ allGroups, Metric.ActiveBattlegroundTotal ∉ Group.writes g)
    ∧ (∀ m ∈ collectSends,
        m ≠ .ActiveBattlegrounds → m ≠ .ActiveBattlegroundPlayers →
        m ≠ .ActiveBattlegroundTotal →
        (allGroups.filter fun g => decide (m ∈ Group.writes g)).length = 1) := by
  refine ⟨by decide, by decide, by decide, by decide⟩

/-! ## Label arity -/

theorem GaugeVec.mem_Set (v : GaugeVec) (ls : List String) (x : Int)
    (p : List String × Int) (h : p ∈ v.Set ls x) : p ∈ v ∨ p.1 = ls := by
  induction v with
  | nil =>
    simp only [GaugeVec.Set, List.mem_singleton] at h
    exact Or.inr (by rw [h])
  | cons e rest ih =>
    obtain ⟨l, y⟩ := e
    by_cases hl : l = ls
    · simp only [GaugeVec.Set, hl, if_true, List.mem_cons] at h
      rcases h with h | h
      · exact Or.inr (by rw [h])
      · exact Or.inl (List.mem_cons_of_mem _ h)
    · simp only [GaugeVec.Set, hl, if_false, List.mem_cons] at h
      rcases h with h | h
      · exact Or.inl (h ▸ List.mem_cons_self _ _)
      · rcases ih h with h' | h'
        · exact Or.inl (List.mem_cons_of_mem _ h')
        · exact Or.inr h'

theorem GaugeVec.mem_Add (v : GaugeVec) (ls : List String) (x : Int)
    (p : List String × Int) (h : p ∈ v.Add ls x) : p ∈ v ∨ p.1 = ls := by
  induction v with
  | nil =>
    simp only [GaugeVec.Add, List.mem_singleton] at h
    exact Or.inr (by rw [h])
  | cons e rest ih =>
    obtain ⟨l, y⟩ := e
    by_cases hl : l = ls
    · simp only [GaugeVec.Add, hl, if_true, List.mem_cons] at h
      rcases h with h | h
      · exact Or.inr (by rw [h])
      · exact Or.inl (List.mem_cons_of_mem _ h)
    · simp only [GaugeVec.Add, hl, if_false, List.mem_cons] at h
      rcases h with h | h
      · exact Or.inl (h ▸ List.mem_cons_self _ _)
      · rcases ih h with h' | h'
        · exact Or.inl (List.mem_cons_of_mem _ h')
        · exact Or.inr h'

theorem ArityOk_initial : Registry.initial.ArityOk :=
  ⟨fun m p h => by simp [Registry.initial] at h⟩

theorem ArityOk_Set (r : Registry) (g : GaugeName) (x : Int) (h : r.ArityOk) :
    (r.Set g x).ArityOk :=
  ⟨fun m p hp => h.arity m p hp⟩

theorem ArityOk_Add (r : Registry) (g : GaugeName) (x : Int) (h : r.ArityOk) :
    (r.Add g x).ArityOk :=
  ⟨fun m p hp => h.arity m p hp⟩

theorem ArityOk_Reset (r : Registry) (m : VecName) (h : r.ArityOk) :
    (r.Reset m).ArityOk := by
  refine ⟨fun m' p hp => ?_⟩
  rw [Registry.vec_Reset] at hp
  by_cases hm : m' = m
  · simp [hm] at hp
  · simp only [hm, if_false] at hp
    exact h.arity m' p hp

theorem ArityOk_SetV (r : Registry) (m : VecName) (ls : List String) (x : Int)
    (h : r.ArityOk) (hls : arityMatches m ls = true) : (r.SetV m ls x).ArityOk := by
  refine ⟨fun m' p hp => ?_⟩
  rw [Registry.vec_SetV] at hp
  by_cases hm : m' = m
  · subst hm
    simp only [if_true] at hp
    rcases GaugeVec.mem_Set _ _ _ _ hp with h' | h'
    · exact h.arity _ p h'
    · rw [h']; exact hls
  · simp only [hm, if_false] at hp
    exact h.arity m' p hp

theorem ArityOk_AddV (r : Registry) (m : VecName) (ls : List String) (x : Int)
    (h : r.ArityOk) (hls : arityMatches m ls = true) : (r.AddV m ls x).ArityOk := by
  refine ⟨fun m' p hp => ?_⟩
  rw [Registry.vec_AddV] at hp
  by_cases hm : m' = m
  · subst hm
    simp only [if_true] at hp
    rcases GaugeVec.mem_Add _ _ _ _ hp with h' | h'
    · exact h.arity _ p h'
    · rw [h']; exact hls
  · simp only [hm, if_false] at hp
    exact h.arity m' p hp

theorem queryRow_arity {α : Type} (q : RowResult α) (r : Registry)
    (k : α → Registry × Option Err) (hr : r.ArityOk)
    (hk : ∀ x, (k x).1.ArityOk) : (queryRow q r k).1.ArityOk := by
  cases q with
  | error e => exact hr
  | ok x => exact hk x

theorem queryRowErrorf_arity {α : Type} (q : RowResult α) (msg : String)
    (r : Registry) (k : α → Registry × Option Err) (hr : r.ArityOk)
    (hk : ∀ x, (k x).1.ArityOk) : (queryRowErrorf q msg r k).1.ArityOk := by
  cases q with
  | error e => exact hr
  | ok x => exact hk x

theorem queryLoop_arity {α : Type} (q : QueryResult α)
    (body : α → Registry → Registry) (r : Registry)
    (k : Registry → Registry × Option Err) (hr : r.ArityOk)
    (hbody : ∀ row r', r'.ArityOk → (body row r').ArityOk)
    (hk : ∀ r', r'.ArityOk → (k r').1.ArityOk) :
    (queryLoop q body r k).1.ArityOk :=
  queryLoop_post (fun res => res.1.ArityOk) Registry.ArityOk q body r k
    (fun _ => hr) hr hbody (fun _ _ h => h) hk

theorem queryLoopContinue_arity {α : Type} (q : QueryResult α) (msg : String)
    (body : α → Registry → Registry) (r : Registry)
    (k : Registry → Registry × Option Err) (hr : r.ArityOk)
    (hbody : ∀ row r', r'.ArityOk → (body row r').ArityOk)
    (hk : ∀ r', r'.ArityOk → (k r').1.ArityOk) :
    (queryLoopContinue q msg body r k).1.ArityOk := by
  cases q with
  | error e => exact hr
  | ok rows => exact hk _ (scanRowsContinue_invariant Registry.ArityOk body hbody rows r hr)

theorem queryFirstRow_arity {α : Type} (q : QueryResult α) (msg : String)
    (body : α → Registry → Registry) (r : Registry)
    (k : Registry → Registry × Option Err) (hr : r.ArityOk)
    (hbody : ∀ row r', r'.ArityOk → (body row r').ArityOk)
    (hk : ∀ r', r'.ArityOk → (k r').1.ArityOk) :
    (queryFirstRow q msg body r k).1.ArityOk := by
  cases q with
  | error e => exact hr
  | ok rows =>
    cases rows with
    | nil => exact hk _ hr
    | cons row rest =>
      cases row with
      | error e => exact hk _ hr
      | ok row => exact hk _ (hbody row r hr)

/-! ## Label arity: the row bodies -/

theorem addByFaction_arity (m : VecName) (hm : ∀ f, arityMatches m [f] = true)
    (row : Int × Int) (r : Registry) (h : r.ArityOk) :
    (addByFaction m row r).ArityOk := by
  unfold addByFaction
  dsimp only
  split
  · exact ArityOk_AddV _ _ _ _ h (hm _)
  · exact h

theorem setIfValid_arity (m : VecName) (label : String)
    (hm : arityMatches m [label] = true) (x : Null Int) (r : Registry)
    (h : r.ArityOk) : (setIfValid m label x r).ArityOk := by
  cases x with
  | none => exact h
  | some v => exact ArityOk_SetV _ _ _ _ h hm

theorem addByLevel_arity (row : Int × Int × Int) (r : Registry) (h : r.ArityOk) :
    (addByLevel row r).ArityOk := by
  unfold addByLevel
  try dsimp only
  repeat' first
    | assumption
    | apply ArityOk_SetV
    | apply ArityOk_AddV
    | apply ArityOk_Set
    | rfl
    | split

theorem addByClass_arity (row : Int × Int × Int) (r : Registry) (h : r.ArityOk) :
    (addByClass row r).ArityOk := by
  unfold addByClass
  try dsimp only
  repeat' first
    | assumption
    | apply ArityOk_SetV
    | apply ArityOk_AddV
    | apply ArityOk_Set
    | rfl
    | split

theorem setAuctionHouse_arity (row : Int × Int) (r : Registry) (h : r.ArityOk) :
    (setAuctionHouse row r).ArityOk := by
  unfold setAuctionHouse
  try dsimp only
  repeat' first
    | assumption
    | apply ArityOk_SetV
    | apply ArityOk_AddV
    | apply ArityOk_Set
    | rfl

theorem setMaxLevel_arity (row : Int × Int) (r : Registry) (h : r.ArityOk) :
    (setMaxLevel row r).ArityOk := by
  unfold setMaxLevel
  try dsimp only
  repeat' first
    | assumption
    | apply ArityOk_SetV
    | apply ArityOk_AddV
    | apply ArityOk_Set
    | rfl
    | split

theorem setLogCount_arity (row : String × Int) (r : Registry) (h : r.ArityOk) :
    (setLogCount row r).ArityOk := by
  unfold setLogCount
  try dsimp only
  repeat' first
    | assumption
    | apply ArityOk_SetV
    | apply ArityOk_AddV
    | apply ArityOk_Set
    | rfl

theorem setInstancesByDifficulty_arity (row : Int × Int) (r : Registry) (h : r.ArityOk) :
    (setInstancesByDifficulty row r).ArityOk := by
  unfold setInstancesByDifficulty
  try dsimp only
  repeat' first
    | assumption
    | apply ArityOk_SetV
    | apply ArityOk_AddV
    | apply ArityOk_Set
    | rfl

theorem setCompletedEncounters_arity (row : Int × Int) (r : Registry) (h : r.ArityOk) :
    (setCompletedEncounters row r).ArityOk := by
  unfold setCompletedEncounters
  try dsimp only
  repeat' first
    | assumption
    | apply ArityOk_SetV
    | apply ArityOk_AddV
    | apply ArityOk_Set
    | rfl

theorem setInstanceResets_arity (row : Int × Int × Int) (r : Registry) (h : r.ArityOk) :
    (setInstanceResets row r).ArityOk := by
  unfold setInstanceResets
  try dsimp only
  repeat' first
    | assumption
    | apply ArityOk_SetV
    | apply ArityOk_AddV
    | apply ArityOk_Set
    | rfl

theorem setLFGData_arity (row : Int × Int) (r : Registry) (h : r.ArityOk) :
    (setLFGData row r).ArityOk := by
  unfold setLFGData
  try dsimp only
  repeat' first
    | assumption
    | apply ArityOk_SetV
    | apply ArityOk_AddV
    | apply ArityOk_Set
    | rfl

theorem setIPActionLogsByType_arity (row : Int × Int) (r : Registry) (h : r.ArityOk) :
    (setIPActionLogsByType row r).ArityOk := by
  unfold setIPActionLogsByType
  try dsimp only
  repeat' first
    | assumption
    | apply ArityOk_SetV
    | apply ArityOk_AddV
    | apply ArityOk_Set
    | rfl

theorem setLagReportsByType_arity (row : Int × Int) (r : Registry) (h : r.ArityOk) :
    (setLagReportsByType row r).ArityOk := by
  unfold setLagReportsByType
  try dsimp only
  repeat' first
    | assumption
    | apply ArityOk_SetV
    | apply ArityOk_AddV
    | apply ArityOk_Set
    | rfl

theorem setNetworkActivityByIP_arity (row : String × Int) (r : Registry) (h : r.ArityOk) :
    (setNetworkActivityByIP row r).ArityOk := by
  unfold setNetworkActivityByIP
  try dsimp only
  repeat' first
    | assumption
    | apply ArityOk_SetV
    | apply ArityOk_AddV
    | apply ArityOk_Set
    | rfl

theorem setDesertersByType_arity (row : Int × Int) (r : Registry) (h : r.ArityOk) :
    (setDesertersByType row r).ArityOk := by
  unfold setDesertersByType
  try dsimp only
  repeat' first
    | assumption
    | apply ArityOk_SetV
    | apply ArityOk_AddV
    | apply ArityOk_Set
    | rfl

theorem setBattlegroundsByType_arity (row : Int × Int) (r : Registry) (h : r.ArityOk) :
    (setBattlegroundsByType row r).ArityOk := by
  unfold setBattlegroundsByType
  try dsimp only
  repeat' first
    | assumption
    | apply ArityOk_SetV
    | apply ArityOk_AddV
    | apply ArityOk_Set
    | rfl

theorem setBattlegroundsByBracket_arity (row : Int × Int) (r : Registry) (h : r.ArityOk) :
    (setBattlegroundsByBracket row r).ArityOk := by
  unfold setBattlegroundsByBracket
  try dsimp only
  repeat' first
    | assumption
    | apply ArityOk_SetV
    | apply ArityOk_AddV
    | apply ArityOk_Set
    | rfl

theorem setWinsByFaction_arity (row : Int × Int) (r : Registry) (h : r.ArityOk) :
    (setWinsByFaction row r).ArityOk := by
  unfold setWinsByFaction
  try dsimp only
  repeat' first
    | assumption
    | apply ArityOk_SetV
    | apply ArityOk_AddV
    | apply ArityOk_Set
    | rfl

theorem setTemplate_arity (row : TemplateRow) (r : Registry) (h : r.ArityOk) :
    (setTemplate row r).ArityOk := by
  unfold setTemplate
  try dsimp only
  repeat' first
    | assumption
    | apply ArityOk_SetV
    | apply ArityOk_AddV
    | apply ArityOk_Set
    | rfl

theorem setPlayerStats_arity (row : PlayerStatsRow) (r : Registry) (h : r.ArityOk) :
    (setPlayerStats row r).ArityOk := by
  unfold setPlayerStats
  try dsimp only
  repeat' first
    | assumption
    | apply setIfValid_arity
    | apply ArityOk_SetV
    | rfl

theorem setRecent_arity (row : Null Int × Null Int × Null Int) (r : Registry)
    (h : r.ArityOk) : (setRecent row r).ArityOk := by
  unfold setRecent
  dsimp only
  repeat' first
    | assumption
    | apply setIfValid_arity
    | rfl

theorem publishAvgLatency_arity (q : RowResult (Null Int)) (r : Registry)
    (h : r.ArityOk) : (publishAvgLatency q r).ArityOk := by
  unfold publishAvgLatency
  split
  · exact ArityOk_Set _ _ _ (ArityOk_SetV _ _ _ _ h rfl)
  · exact h

theorem publishMinMaxLatency_arity (q : RowResult (Null Int × Null Int))
    (r : Registry) (h : r.ArityOk) : (publishMinMaxLatency q r).ArityOk := by
  unfold publishMinMaxLatency
  split
  · rename_i mn mx
    cases mn <;> cases mx <;>
      first
        | exact h
        | exact ArityOk_SetV _ _ _ _ h rfl
        | exact ArityOk_SetV _ _ _ _ (ArityOk_SetV _ _ _ _ h rfl) rfl
  · exact h

theorem setOnlineChar_arity (username : Int → RowResult String)
    (row : String × Int × Int) (s : OnlineCharsState) (h : s.reg.ArityOk) :
    (setOnlineChar username row s).reg.ArityOk := by
  unfold setOnlineChar
  dsimp only
  cases s.accountMap.find row.2.2 <;> exact ArityOk_SetV _ _ _ _ h rfl

theorem collectOnlineChars_arity (q : PlayerQueries) (r : Registry) (h : r.ArityOk) :
    (collectOnlineChars q r).1.ArityOk := by
  unfold collectOnlineChars
  cases q.onlineChars with
  | error e => exact h
  | ok rows =>
    exact scanRows_invariant (fun s : OnlineCharsState => s.reg.ArityOk)
      (setOnlineChar q.username) (fun row s hs => setOnlineChar_arity _ row s hs)
      rows { reg := r, accountMap := [], lookups := [] } h

/-! ## Label arity: the groups -/

theorem collectPlayerMetrics_arity (q : PlayerQueries) (r : Registry) (h : r.ArityOk) :
    (collectPlayerMetrics q r).1.ArityOk := by
  unfold collectPlayerMetrics
  dsimp only
  repeat' first
    | assumption
    | apply queryRow_arity
    | apply queryLoop_arity
    | apply queryRowErrorf_arity
    | apply queryLoopContinue_arity
    | apply queryFirstRow_arity
    | apply ArityOk_Set
    | apply ArityOk_Add
    | apply ArityOk_Reset
    | apply ArityOk_SetV
    | apply ArityOk_AddV
    | apply collectOnlineChars_arity
    | apply addByFaction_arity
    | apply addByLevel_arity
    | apply addByClass_arity
    | apply setAuctionHouse_arity
    | apply setMaxLevel_arity
    | apply setLogCount_arity
    | apply setInstancesByDifficulty_arity
    | apply setCompletedEncounters_arity
    | apply setInstanceResets_arity
    | apply setLFGData_arity
    | apply setDesertersByType_arity
    | apply setBattlegroundsByType_arity
    | apply setBattlegroundsByBracket_arity
    | apply setWinsByFaction_arity
    | apply setPlayerStats_arity
    | apply setTemplate_arity
    | apply setRecent_arity
    | rfl
    | intro _

theorem collectMailMetrics_arity (q : MailQueries) (r : Registry) (h : r.ArityOk) :
    (collectMailMetrics q r).1.ArityOk := by
  unfold collectMailMetrics
  dsimp only
  repeat' first
    | assumption
    | apply queryRow_arity
    | apply queryLoop_arity
    | apply queryRowErrorf_arity
    | apply queryLoopContinue_arity
    | apply queryFirstRow_arity
    | apply ArityOk_Set
    | apply ArityOk_Add
    | apply ArityOk_Reset
    | apply ArityOk_SetV
    | apply ArityOk_AddV
    | apply collectOnlineChars_arity
    | apply addByFaction_arity
    | apply addByLevel_arity
    | apply addByClass_arity
    | apply setAuctionHouse_arity
    | apply setMaxLevel_arity
    | apply setLogCount_arity
    | apply setInstancesByDifficulty_arity
    | apply setCompletedEncounters_arity
    | apply setInstanceResets_arity
    | apply setLFGData_arity
    | apply setDesertersByType_arity
    | apply setBattlegroundsByType_arity
    | apply setBattlegroundsByBracket_arity
    | apply setWinsByFaction_arity
    | apply setPlayerStats_arity
    | apply setTemplate_arity
    | apply setRecent_arity
    | rfl
    | intro _

theorem collectAccountMetrics_arity (q : AccountQueries) (r : Registry) (h : r.ArityOk) :
    (collectAccountMetrics q r).1.ArityOk := by
  unfold collectAccountMetrics
  dsimp only
  repeat' first
    | assumption
    | apply queryRow_arity
    | apply queryLoop_arity
    | apply queryRowErrorf_arity
    | apply queryLoopContinue_arity
    | apply queryFirstRow_arity
    | apply ArityOk_Set
    | apply ArityOk_Add
    | apply ArityOk_Reset
    | apply ArityOk_SetV
    | apply ArityOk_AddV
    | apply collectOnlineChars_arity
    | apply addByFaction_arity
    | apply addByLevel_arity
    | apply addByClass_arity
    | apply setAuctionHouse_arity
    | apply setMaxLevel_arity
    | apply setLogCount_arity
    | apply setInstancesByDifficulty_arity
    | apply setCompletedEncounters_arity
    | apply setInstanceResets_arity
    | apply setLFGData_arity
    | apply setDesertersByType_arity
    | apply setBattlegroundsByType_arity
    | apply setBattlegroundsByBracket_arity
    | apply setWinsByFaction_arity
    | apply setPlayerStats_arity
    | apply setTemplate_arity
    | apply setRecent_arity
    | rfl
    | intro _

theorem collectAuctionMetrics_arity (q : AuctionQueries) (r : Registry) (h : r.ArityOk) :
    (collectAuctionMetrics q r).1.ArityOk := by
  unfold collectAuctionMetrics
  dsimp only
  repeat' first
    | assumption
    | apply queryRow_arity
    | apply queryLoop_arity
    | apply queryRowErrorf_arity
    | apply queryLoopContinue_arity
    | apply queryFirstRow_arity
    | apply ArityOk_Set
    | apply ArityOk_Add
    | apply ArityOk_Reset
    | apply ArityOk_SetV
    | apply ArityOk_AddV
    | apply collectOnlineChars_arity
    | apply addByFaction_arity
    | apply addByLevel_arity
    | apply addByClass_arity
    | apply setAuctionHouse_arity
    | apply setMaxLevel_arity
    | apply setLogCount_arity
    | apply setInstancesByDifficulty_arity
    | apply setCompletedEncounters_arity
    | apply setInstanceResets_arity
    | apply setLFGData_arity
    | apply setDesertersByType_arity
    | apply setBattlegroundsByType_arity
    | apply setBattlegroundsByBracket_arity
    | apply setWinsByFaction_arity
    | apply setPlayerStats_arity
    | apply setTemplate_arity
    | apply setRecent_arity
    | rfl
    | intro _

theorem collectGuildMetrics_arity (q : CountQuery) (r : Registry) (h : r.ArityOk) :
    (collectGuildMetrics q r).1.ArityOk := by
  unfold collectGuildMetrics
  dsimp only
  repeat' first
    | assumption
    | apply queryRow_arity
    | apply queryLoop_arity
    | apply queryRowErrorf_arity
    | apply queryLoopContinue_arity
    | apply queryFirstRow_arity
    | apply ArityOk_Set
    | apply ArityOk_Add
    | apply ArityOk_Reset
    | apply ArityOk_SetV
    | apply ArityOk_AddV
    | apply collectOnlineChars_arity
    | apply addByFaction_arity
    | apply addByLevel_arity
    | apply addByClass_arity
    | apply setAuctionHouse_arity
    | apply setMaxLevel_arity
    | apply setLogCount_arity
    | apply setInstancesByDifficulty_arity
    | apply setCompletedEncounters_arity
    | apply setInstanceResets_arity
    | apply setLFGData_arity
    | apply setDesertersByType_arity
    | apply setBattlegroundsByType_arity
    | apply setBattlegroundsByBracket_arity
    | apply setWinsByFaction_arity
    | apply setPlayerStats_arity
    | apply setTemplate_arity
    | apply setRecent_arity
    | rfl
    | intro _

theorem collectMaxLevelCharMetrics_arity (q : MaxLevelQueries) (r : Registry) (h : r.ArityOk) :
    (collectMaxLevelCharMetrics q r).1.ArityOk := by
  unfold collectMaxLevelCharMetrics
  dsimp only
  repeat' first
    | assumption
    | apply queryRow_arity
    | apply queryLoop_arity
    | apply queryRowErrorf_arity
    | apply queryLoopContinue_arity
    | apply queryFirstRow_arity
    | apply ArityOk_Set
    | apply ArityOk_Add
    | apply ArityOk_Reset
    | apply ArityOk_SetV
    | apply ArityOk_AddV
    | apply collectOnlineChars_arity
    | apply addByFaction_arity
    | apply addByLevel_arity
    | apply addByClass_arity
    | apply setAuctionHouse_arity
    | apply setMaxLevel_arity
    | apply setLogCount_arity
    | apply setInstancesByDifficulty_arity
    | apply setCompletedEncounters_arity
    | apply setInstanceResets_arity
    | apply setLFGData_arity
    | apply setDesertersByType_arity
    | apply setBattlegroundsByType_arity
    | apply setBattlegroundsByBracket_arity
    | apply setWinsByFaction_arity
    | apply setPlayerStats_arity
    | apply setTemplate_arity
    | apply setRecent_arity
    | rfl
    | intro _

theorem collectUnreadMailMetrics_arity (q : CountQuery) (r : Registry) (h : r.ArityOk) :
    (collectUnreadMailMetrics q r).1.ArityOk := by
  unfold collectUnreadMailMetrics
  dsimp only
  repeat' first
    | assumption
    | apply queryRow_arity
    | apply queryLoop_arity
    | apply queryRowErrorf_arity
    | apply queryLoopContinue_arity
    | apply queryFirstRow_arity
    | apply ArityOk_Set
    | apply ArityOk_Add
    | apply ArityOk_Reset
    | apply ArityOk_SetV
    | apply ArityOk_AddV
    | apply collectOnlineChars_arity
    | apply addByFaction_arity
    | apply addByLevel_arity
    | apply addByClass_arity
    | apply setAuctionHouse_arity
    | apply setMaxLevel_arity
    | apply setLogCount_arity
    | apply setInstancesByDifficulty_arity
    | apply setCompletedEncounters_arity
    | apply setInstanceResets_arity
    | apply setLFGData_arity
    | apply setDesertersByType_arity
    | apply setBattlegroundsByType_arity
    | apply setBattlegroundsByBracket_arity
    | apply setWinsByFaction_arity
    | apply setPlayerStats_arity
    | apply setTemplate_arity
    | apply setRecent_arity
    | rfl
    | intro _

theorem collectGMAccountMetrics_arity (q : CountQuery) (r : Registry) (h : r.ArityOk) :
    (collectGMAccountMetrics q r).1.ArityOk := by
  unfold collectGMAccountMetrics
  dsimp only
  repeat' first
    | assumption
    | apply queryRow_arity
    | apply queryLoop_arity
    | apply queryRowErrorf_arity
    | apply queryLoopContinue_arity
    | apply queryFirstRow_arity
    | apply ArityOk_Set
    | apply ArityOk_Add
    | apply ArityOk_Reset
    | apply ArityOk_SetV
    | apply ArityOk_AddV
    | apply collectOnlineChars_arity
    | apply addByFaction_arity
    | apply addByLevel_arity
    | apply addByClass_arity
    | apply setAuctionHouse_arity
    | apply setMaxLevel_arity
    | apply setLogCount_arity
    | apply setInstancesByDifficulty_arity
    | apply setCompletedEncounters_arity
    | apply setInstanceResets_arity
    | apply setLFGData_arity
    | apply setDesertersByType_arity
    | apply setBattlegroundsByType_arity
    | apply setBattlegroundsByBracket_arity
    | apply setWinsByFaction_arity
    | apply setPlayerStats_arity
    | apply setTemplate_arity
    | apply setRecent_arity
    | rfl
    | intro _

theorem collectBannedCharMetrics_arity (q : CountQuery) (r : Registry) (h : r.ArityOk) :
    (collectBannedCharMetrics q r).1.ArityOk := by
  unfold collectBannedCharMetrics
  dsimp only
  repeat' first
    | assumption
    | apply queryRow_arity
    | apply queryLoop_arity
    | apply queryRowErrorf_arity
    | apply queryLoopContinue_arity
    | apply queryFirstRow_arity
    | apply ArityOk_Set
    | apply ArityOk_Add
    | apply ArityOk_Reset
    | apply ArityOk_SetV
    | apply ArityOk_AddV
    | apply collectOnlineChars_arity
    | apply addByFaction_arity
    | apply addByLevel_arity
    | apply addByClass_arity
    | apply setAuctionHouse_arity
    | apply setMaxLevel_arity
    | apply setLogCount_arity
    | apply setInstancesByDifficulty_arity
    | apply setCompletedEncounters_arity
    | apply setInstanceResets_arity
    | apply setLFGData_arity
    | apply setDesertersByType_arity
    | apply setBattlegroundsByType_arity
    | apply setBattlegroundsByBracket_arity
    | apply setWinsByFaction_arity
    | apply setPlayerStats_arity
    | apply setTemplate_arity
    | apply setRecent_arity
    | rfl
    | intro _

theorem collectChatMetrics_arity (q : ChatQueries) (r : Registry) (h : r.ArityOk) :
    (collectChatMetrics q r).1.ArityOk := by
  unfold collectChatMetrics
  dsimp only
  repeat' first
    | assumption
    | apply queryRow_arity
    | apply queryLoop_arity
    | apply queryRowErrorf_arity
    | apply queryLoopContinue_arity
    | apply queryFirstRow_arity
    | apply ArityOk_Set
    | apply ArityOk_Add
    | apply ArityOk_Reset
    | apply ArityOk_SetV
    | apply ArityOk_AddV
    | apply collectOnlineChars_arity
    | apply addByFaction_arity
    | apply addByLevel_arity
    | apply addByClass_arity
    | apply setAuctionHouse_arity
    | apply setMaxLevel_arity
    | apply setLogCount_arity
    | apply setInstancesByDifficulty_arity
    | apply setCompletedEncounters_arity
    | apply setInstanceResets_arity
    | apply setLFGData_arity
    | apply setDesertersByType_arity
    | apply setBattlegroundsByType_arity
    | apply setBattlegroundsByBracket_arity
    | apply setWinsByFaction_arity
    | apply setPlayerStats_arity
    | apply setTemplate_arity
    | apply setRecent_arity
    | rfl
    | intro _

theorem collectInstanceMetrics_arity (q : InstanceQueries) (r : Registry) (h : r.ArityOk) :
    (collectInstanceMetrics q r).1.ArityOk := by
  unfold collectInstanceMetrics
  dsimp only
  repeat' first
    | assumption
    | apply queryRow_arity
    | apply queryLoop_arity
    | apply queryRowErrorf_arity
    | apply queryLoopContinue_arity
    | apply queryFirstRow_arity
    | apply ArityOk_Set
    | apply ArityOk_Add
    | apply ArityOk_Reset
    | apply ArityOk_SetV
    | apply ArityOk_AddV
    | apply collectOnlineChars_arity
    | apply addByFaction_arity
    | apply addByLevel_arity
    | apply addByClass_arity
    | apply setAuctionHouse_arity
    | apply setMaxLevel_arity
    | apply setLogCount_arity
    | apply setInstancesByDifficulty_arity
    | apply setCompletedEncounters_arity
    | apply setInstanceResets_arity
    | apply setLFGData_arity
    | apply setDesertersByType_arity
    | apply setBattlegroundsByType_arity
    | apply setBattlegroundsByBracket_arity
    | apply setWinsByFaction_arity
    | apply setPlayerStats_arity
    | apply setTemplate_arity
    | apply setRecent_arity
    | rfl
    | intro _

theorem collectBattlegroundMetrics_arity (q : BattlegroundQueries) (r : Registry) (h : r.ArityOk) :
    (collectBattlegroundMetrics q r).1.ArityOk := by
  unfold collectBattlegroundMetrics
  dsimp only
  repeat' first
    | assumption
    | apply queryRow_arity
    | apply queryLoop_arity
    | apply queryRowErrorf_arity
    | apply queryLoopContinue_arity
    | apply queryFirstRow_arity
    | apply ArityOk_Set
    | apply ArityOk_Add
    | apply ArityOk_Reset
    | apply ArityOk_SetV
    | apply ArityOk_AddV
    | apply collectOnlineChars_arity
    | apply addByFaction_arity
    | apply addByLevel_arity
    | apply addByClass_arity
    | apply setAuctionHouse_arity
    | apply setMaxLevel_arity
    | apply setLogCount_arity
    | apply setInstancesByDifficulty_arity
    | apply setCompletedEncounters_arity
    | apply setInstanceResets_arity
    | apply setLFGData_arity
    | apply setDesertersByType_arity
    | apply setBattlegroundsByType_arity
    | apply setBattlegroundsByBracket_arity
    | apply setWinsByFaction_arity
    | apply setPlayerStats_arity
    | apply setTemplate_arity
    | apply setRecent_arity
    | rfl
    | intro _

theorem collectServerMetrics_arity (q : ServerQueries) (r : Registry)
    (h : r.ArityOk) : (collectServerMetrics q r).1.ArityOk := by
  unfold collectServerMetrics
  dsimp only
  split <;>
    repeat' first
      | assumption
      | apply ArityOk_Set

theorem collectLastServerRestartMetrics_arity (q : RestartQueries) (r : Registry)
    (h : r.ArityOk) : (collectLastServerRestartMetrics q r).1.ArityOk := by
  unfold collectLastServerRestartMetrics
  dsimp only
  split <;>
    repeat' first
      | assumption
      | apply ArityOk_Set

theorem collectNetworkMetrics_arity (q : NetworkQueries) (r : Registry)
    (h : r.ArityOk) : (collectNetworkMetrics q r).1.ArityOk := by
  unfold collectNetworkMetrics
  dsimp only
  split
  · exact ArityOk_Reset _ _ h
  · apply queryRow_arity
    · exact publishAvgLatency_arity _ _ (ArityOk_Reset _ _ h)
    · intro high
      have h1 : (((publishAvgLatency q.avgLatency (r.Reset .PlayerLatencyStats)).Set
          .HighLatencyPlayers high).SetV .PlayerLatencyStats ["high_latency"]
          high).ArityOk :=
        ArityOk_SetV _ _ _ _ (ArityOk_Set _ _ _
          (publishAvgLatency_arity _ _ (ArityOk_Reset _ _ h))) rfl
      split
      · exact h1
      · have h2 := publishMinMaxLatency_arity q.minMaxLatency _ h1
        repeat' first
          | assumption
          | apply queryRow_arity
          | apply queryLoop_arity
          | apply ArityOk_Set
          | apply ArityOk_Reset
          | apply setIPActionLogsByType_arity
          | apply setLagReportsByType_arity
          | apply setNetworkActivityByIP_arity
          | intro _

theorem Group.run_arity (g : Group) (q : CycleQueries) (r : Registry)
    (h : r.ArityOk) : (g.run q r).1.ArityOk := by
  cases g
  case player => exact collectPlayerMetrics_arity _ _ h
  case mail => exact collectMailMetrics_arity _ _ h
  case account => exact collectAccountMetrics_arity _ _ h
  case server => exact collectServerMetrics_arity _ _ h
  case auction => exact collectAuctionMetrics_arity _ _ h
  case guild => exact collectGuildMetrics_arity _ _ h
  case maxLevelChar => exact collectMaxLevelCharMetrics_arity _ _ h
  case unreadMail => exact collectUnreadMailMetrics_arity _ _ h
  case gmAccount => exact collectGMAccountMetrics_arity _ _ h
  case lastServerRestart => exact collectLastServerRestartMetrics_arity _ _ h
  case bannedChar => exact collectBannedCharMetrics_arity _ _ h
  case chat => exact collectChatMetrics_arity _ _ h
  case instances => exact collectInstanceMetrics_arity _ _ h
  case network => exact collectNetworkMetrics_arity _ _ h
  case battleground => exact collectBattlegroundMetrics_arity _ _ h

theorem runGroups_arity (q : CycleQueries) (gs : List Group) (r : Registry)
    (h : r.ArityOk) : (runGroups q gs r).ArityOk := by
  induction gs generalizing r with
  | nil => exact h
  | cons g rest ih => exact ih _ (Group.run_arity g q r h)

/-! ## C17 -/

/-- C17: every `WithLabelValues` call of `collectors.go` on a vector declared in
`metrics/definitions.go` passes as many label values as the vector has label
names: from a registry in which every series has the arity of its definition,
every group, and so a whole cycle, leads to such a registry again, whatever the
queries return. -/
theorem label_arity_preserved (q : CycleQueries) (r : Registry) (h : r.ArityOk) :
    (∀ g : Group, (g.run q r).1.ArityOk)
    ∧ ∀ m p, p ∈ (Collect q r).reg.vec m →
        ∀ names, m.labelNames = some names → p.1.length = names.length := by
  refine ⟨fun g => Group.run_arity g q r h, ?_⟩
  intro m p hp names hn
  have hc : (Collect q r).reg.ArityOk := by
    rw [Collect_reg]
    exact runGroups_arity q allGroups r h
  have := hc.arity m p hp
  simpa [arityMatches, hn] using this

theorem label_arity_preserved_witness :
    (Group.run .battleground cycleBattlegroundScanFails Registry.initial).1.ArityOk :=
  (label_arity_preserved cycleBattlegroundScanFails Registry.initial
    ArityOk_initial).1 .battleground

/-! ## C19 -/

/-- C19: `NewConnections` returns an error exactly when one of the six open and
ping calls on the characters, auth and world databases fails, and then it is the
error of the first call that fails; when all six succeed it returns the three
handles and no error. -/
theorem new_connections_error_iff (o : ConnectOutcomes) (dsn : String) :
    ((∃ e, (NewConnections o dsn).result = .error e) ↔ o.allOk = false)
    ∧ (o.allOk = true →
        (NewConnections o dsn).result
          = .ok
            { Characters := { dsn := dsn },
              Auth := { dsn := stringsReplaceFirst dsn "/acore_characters?" "/acore_auth?" },
              World :=
                { dsn := stringsReplaceFirst dsn "/acore_characters?" "/acore_world?" } })
    ∧ (∀ e, (NewConnections o dsn).result = .error e →
        e ∈ [o.openCharacters, o.pingCharacters, o.openAuth, o.pingAuth,
          o.openWorld, o.pingWorld].filterMap id) := by
  obtain ⟨a, b, c, d, e, f⟩ := o
  cases a <;> cases b <;> cases c <;> cases d <;> cases e <;> cases f <;>
    simp [NewConnections, ConnectOutcomes.allOk]

theorem new_connections_error_iff_witness :
    (NewConnections connectAllOk "u:p@tcp(h:3306)/acore_characters?parseTime=true").result
      = .ok { Characters := { dsn := "u:p@tcp(h:3306)/acore_characters?parseTime=true" },
              Auth := { dsn := "u:p@tcp(h:3306)/acore_auth?parseTime=true" },
              World := { dsn := "u:p@tcp(h:3306)/acore_world?parseTime=true" } } :=
  (new_connections_error_iff connectAllOk
    "u:p@tcp(h:3306)/acore_characters?parseTime=true").2.1 rfl

/-! ## C20 -/

/-- C20 (counterexample): the population queries do not all apply one and the
same exclusion predicate: the online-players-by-faction query applies no
exclusion at all, and the players-by-level query applies four conjuncts more
than the total-players query. -/
theorem population_queries_differ_in_exclusions :
    onlineByFactionQuery ∈ populationQueries
    ∧ onlineByFactionQuery.exclusions = []
    ∧ byLevelQuery ∈ populationQueries
    ∧ byLevelQuery.exclusions ≠ totalByFactionQuery.exclusions
    ∧ totalByFactionQuery.exclusions = exclusionPredicate := by
  decide

/-- C20 (amended): the total-players, players-by-class, max-level, mail-by-faction
and the three latency queries apply exactly the exclusion predicate; the
players-by-level query applies every conjunct of it and, in addition, excludes
characters that never logged in and names containing temp, demo or example;
no query behind an administrative count applies any conjunct of it. -/
theorem exclusion_predicate_by_query :
    (∀ q ∈ [totalByFactionQuery, byClassQuery, maxLevelQuery, mailByFactionQuery,
        avgLatencyQuery, highLatencyQuery, minMaxLatencyQuery],
      q.exclusions = exclusionPredicate)
    ∧ (∀ c ∈ exclusionPredicate, c ∈ byLevelQuery.exclusions)
    ∧ (byLevelQuery.exclusions.filter fun c => decide (c ∉ exclusionPredicate))
        = [ "logout_time > 0", "name NOT LIKE '%temp%'", "name NOT LIKE '%demo%'",
            "name NOT LIKE '%example%'" ]
    ∧ (∀ q ∈ administrativeQueries, ∀ c ∈ exclusionPredicate, c ∉ q.conditions) := by
  refine ⟨by decide, by decide, by decide, by decide⟩

/-! ## Two runs in lockstep: the statements -/

theorem Registry.metric_Set (r : Registry) (g : GaugeName) (x : Int) (m : MetricName) :
    (r.Set g x).metric m = if m = .inl g then .inl x else r.metric m := by
  cases m with
  | inl g' =>
    by_cases h : g' = g <;> simp [Registry.metric, Registry.Set, Function.update, h]
  | inr v => simp [Registry.metric, Registry.Set]

theorem Registry.metric_Add (r : Registry) (g : GaugeName) (x : Int) (m : MetricName) :
    (r.Add g x).metric m
      = if m = .inl g then .inl (f64Add (r.gauge g) x) else r.metric m := by
  cases m with
  | inl g' =>
    by_cases h : g' = g <;> simp [Registry.metric, Registry.Add, Function.update, h]
  | inr v => simp [Registry.metric, Registry.Add]

theorem Registry.metric_onVec (r : Registry) (v : VecName) (f : GaugeVec → GaugeVec)
    (m : MetricName) :
    (r.onVec v f).metric m = if m = .inr v then .inr (f (r.vec v)) else r.metric m := by
  cases m with
  | inl g => simp [Registry.metric, Registry.onVec]
  | inr v' =>
    by_cases h : v' = v <;> simp [Registry.metric, Registry.onVec, Function.update, h]

theorem Registry.ext_metric (r s : Registry) (h : ∀ m, r.metric m = s.metric m) :
    r = s := by
  obtain ⟨rg, rv⟩ := r
  obtain ⟨sg, sv⟩ := s
  have hg : rg = sg := funext fun g => by simpa [Registry.metric] using h (.inl g)
  have hv : rv = sv := funext fun v => by simpa [Registry.metric] using h (.inr v)
  rw [hg, hv]

theorem Lockstep_start (m : MetricName) (a b : Registry) : Lockstep m false a b a b :=
  ⟨fun h => Bool.noConfusion h, fun _ => ⟨rfl, rfl⟩⟩

theorem Lockstep_Set {m : MetricName} {w : Bool} {a b ra rb : Registry}
    (g : GaugeName) (x : Int) (h : Lockstep m w a b ra rb) :
    Lockstep m (w || decide (m = .inl g)) a b (ra.Set g x) (rb.Set g x) := by
  by_cases hm : m = .inl g
  · refine ⟨fun _ => ?_, fun hw => ?_⟩
    · rw [Registry.metric_Set, Registry.metric_Set, if_pos hm, if_pos hm]
    · simp [hm] at hw
  · refine ⟨fun hw => ?_, fun hw => ?_⟩
    · rw [Registry.metric_Set, Registry.metric_Set, if_neg hm, if_neg hm]
      exact h.same (by simpa [hm] using hw)
    · rw [Registry.metric_Set, Registry.metric_Set, if_neg hm, if_neg hm]
      exact h.kept (by simpa [hm] using hw)

theorem Lockstep_Add {m : MetricName} {w : Bool} {a b ra rb : Registry}
    (g : GaugeName) (x : Int) (h : Lockstep m w a b ra rb)
    (hw : Overwritten m (.inl g) w) :
    Lockstep m w a b (ra.Add g x) (rb.Add g x) := by
  by_cases hm : m = .inl g
  · have hs := h.same (hw.out hm)
    refine ⟨fun _ => ?_, fun hf => ?_⟩
    · rw [Registry.metric_Add, Registry.metric_Add, if_pos hm, if_pos hm]
      rw [hm] at hs
      simp only [Registry.metric, Sum.inl.injEq] at hs
      rw [hs]
    · rw [hw.out hm] at hf; cases hf
  · refine ⟨fun hw' => ?_, fun hw' => ?_⟩
    · rw [Registry.metric_Add, Registry.metric_Add, if_neg hm, if_neg hm]
      exact h.same hw'
    · rw [Registry.metric_Add, Registry.metric_Add, if_neg hm, if_neg hm]
      exact h.kept hw'

theorem Lockstep_Reset {m : MetricName} {w : Bool} {a b ra rb : Registry}
    (v : VecName) (h : Lockstep m w a b ra rb) :
    Lockstep m (w || decide (m = .inr v)) a b (ra.Reset v) (rb.Reset v) := by
  unfold Registry.Reset
  by_cases hm : m = .inr v
  · refine ⟨fun _ => ?_, fun hw => ?_⟩
    · rw [Registry.metric_onVec, Registry.metric_onVec, if_pos hm, if_pos hm]
      rfl
    · simp [hm] at hw
  · refine ⟨fun hw => ?_, fun hw => ?_⟩
    · rw [Registry.metric_onVec, Registry.metric_onVec, if_neg hm, if_neg hm]
      exact h.same (by simpa [hm] using hw)
    · rw [Registry.metric_onVec, Registry.metric_onVec, if_neg hm, if_neg hm]
      exact h.kept (by simpa [hm] using hw)

theorem Lockstep_onVec {m : MetricName} {w : Bool} {a b ra rb : Registry}
    (v : VecName) (f : GaugeVec → GaugeVec) (h : Lockstep m w a b ra rb)
    (hw : Overwritten m (.inr v) w) :
    Lockstep m w a b (ra.onVec v f) (rb.onVec v f) := by
  by_cases hm : m = .inr v
  · have hs := h.same (hw.out hm)
    refine ⟨fun _ => ?_, fun hf => ?_⟩
    · rw [Registry.metric_onVec, Registry.metric_onVec, if_pos hm, if_pos hm]
      rw [hm] at hs
      simp only [Registry.metric, Sum.inr.injEq] at hs
      rw [hs]
    · rw [hw.out hm] at hf; cases hf
  · refine ⟨fun hw' => ?_, fun hw' => ?_⟩
    · rw [Registry.metric_onVec, Registry.metric_onVec, if_neg hm, if_neg hm]
      exact h.same hw'
    · rw [Registry.metric_onVec, Registry.metric_onVec, if_neg hm, if_neg hm]
      exact h.kept hw'

theorem Lockstep_SetV {m : MetricName} {w : Bool} {a b ra rb : Registry}
    (v : VecName) (ls : List String) (x : Int) (h : Lockstep m w a b ra rb)
    (hw : Overwritten m (.inr v) w) :
    Lockstep m w a b (ra.SetV v ls x) (rb.SetV v ls x) :=
  Lockstep_onVec v _ h hw

theorem Lockstep_AddV {m : MetricName} {w : Bool} {a b ra rb : Registry}
    (v : VecName) (ls : List String) (x : Int) (h : Lockstep m w a b ra rb)
    (hw : Overwritten m (.inr v) w) :
    Lockstep m w a b (ra.AddV v ls x) (rb.AddV v ls x) :=
  Lockstep_onVec v _ h hw

theorem SameOrKept_of_Lockstep {m : MetricName} {w : Bool} {a b ra rb : Registry}
    (h : Lockstep m w a b ra rb) : SameOrKept m a b ra rb := by
  cases w with
  | true => exact ⟨Or.inl (h.same rfl)⟩
  | false => exact ⟨Or.inr (h.kept rfl)⟩

theorem SameOrKept_queryRow {α : Type} {m : MetricName} {w : Bool}
    {a b ra rb : Registry} (q : RowResult α) (ka kb : α → Registry × Option Err)
    (hr : Lockstep m w a b ra rb)
    (hk : ∀ x, SameOrKept m a b (ka x).1 (kb x).1) :
    SameOrKept m a b (queryRow q ra ka).1 (queryRow q rb kb).1 := by
  cases q with
  | error e => exact SameOrKept_of_Lockstep hr
  | ok x => exact hk x

theorem SameOrKept_queryRowErrorf {α : Type} {m : MetricName} {w : Bool}
    {a b ra rb : Registry} (q : RowResult α) (msg : String)
    (ka kb : α → Registry × Option Err)
    (hr : Lockstep m w a b ra rb)
    (hk : ∀ x, SameOrKept m a b (ka x).1 (kb x).1) :
    SameOrKept m a b (queryRowErrorf q msg ra ka).1 (queryRowErrorf q msg rb kb).1 := by
  cases q with
  | error e => exact SameOrKept_of_Lockstep hr
  | ok x => exact hk x

/-- Two runs of a scanning loop stop at the same row. -/
theorem scanRows_lockstep {α σ : Type} (R : σ → σ → Prop) (body : α → σ → σ)
    (hb : ∀ row sa sb, R sa sb → R (body row sa) (body row sb))
    (rows : List (Except Err α)) (sa sb : σ) (h : R sa sb) :
    R (scanRows body rows sa).1 (scanRows body rows sb).1
    ∧ (scanRows body rows sa).2 = (scanRows body rows sb).2 := by
  induction rows generalizing sa sb with
  | nil => exact ⟨h, rfl⟩
  | cons row rest ih =>
    cases row with
    | error e => exact ⟨h, rfl⟩
    | ok row => exact ih _ _ (hb row sa sb h)

theorem scanRowsContinue_lockstep {α σ : Type} (R : σ → σ → Prop) (body : α → σ → σ)
    (hb : ∀ row sa sb, R sa sb → R (body row sa) (body row sb))
    (rows : List (Except Err α)) (sa sb : σ) (h : R sa sb) :
    R (scanRowsContinue body rows sa) (scanRowsContinue body rows sb) := by
  induction rows generalizing sa sb with
  | nil => exact h
  | cons row rest ih =>
    cases row with
    | error e => exact ih _ _ h
    | ok row => exact ih _ _ (hb row sa sb h)

theorem SameOrKept_queryLoop {α : Type} {m : MetricName} {w : Bool}
    {a b ra rb : Registry} (q : QueryResult α) (body : α → Registry → Registry)
    (ka kb : Registry → Registry × Option Err)
    (hr : Lockstep m w a b ra rb)
    (hb : ∀ row ra rb, Lockstep m w a b ra rb →
      Lockstep m w a b (body row ra) (body row rb))
    (hk : ∀ ra rb, Lockstep m w a b ra rb → SameOrKept m a b (ka ra).1 (kb rb).1) :
    SameOrKept m a b (queryLoop q body ra ka).1 (queryLoop q body rb kb).1 := by
  cases q with
  | error e => exact SameOrKept_of_Lockstep hr
  | ok rows =>
    obtain ⟨h1, h2⟩ := scanRows_lockstep (Lockstep m w a b) body hb rows ra rb hr
    unfold queryLoop
    dsimp only
    rw [h2]
    cases (scanRows body rows rb).2 with
    | some e => exact SameOrKept_of_Lockstep h1
    | none => exact hk _ _ h1

theorem SameOrKept_queryLoopContinue {α : Type} {m : MetricName} {w : Bool}
    {a b ra rb : Registry} (q : QueryResult α) (msg : String)
    (body : α → Registry → Registry)
    (ka kb : Registry → Registry × Option Err)
    (hr : Lockstep m w a b ra rb)
    (hb : ∀ row ra rb, Lockstep m w a b ra rb →
      Lockstep m w a b (body row ra) (body row rb))
    (hk : ∀ ra rb, Lockstep m w a b ra rb → SameOrKept m a b (ka ra).1 (kb rb).1) :
    SameOrKept m a b (queryLoopContinue q msg body ra ka).1
      (queryLoopContinue q msg body rb kb).1 := by
  cases q with
  | error e => exact SameOrKept_of_Lockstep hr
  | ok rows =>
    exact hk _ _ (scanRowsContinue_lockstep (Lockstep m w a b) body hb rows ra rb hr)

theorem SameOrKept_queryFirstRow {α : Type} {m : MetricName} {w : Bool}
    {a b ra rb : Registry} (q : QueryResult α) (msg : String)
    (body : α → Registry → Registry)
    (ka kb : Registry → Registry × Option Err)
    (hr : Lockstep m w a b ra rb)
    (hb : ∀ row ra rb, Lockstep m w a b ra rb →
      Lockstep m w a b (body row ra) (body row rb))
    (hk : ∀ ra rb, Lockstep m w a b ra rb → SameOrKept m a b (ka ra).1 (kb rb).1) :
    SameOrKept m a b (queryFirstRow q msg body ra ka).1
      (queryFirstRow q msg body rb kb).1 := by
  cases q with
  | error e => exact SameOrKept_of_Lockstep hr
  | ok rows =>
    cases rows with
    | nil => exact hk _ _ hr
    | cons row rest =>
      cases row with
      | error e => exact hk _ _ hr
      | ok row => exact hk _ _ (hb row ra rb hr)

/-! ## Two runs in lockstep: the row bodies -/

theorem addByFaction_lockstep {m : MetricName} {w : Bool} {a b ra rb : Registry}
    (v : VecName) (row : Int × Int) (h : Lockstep m w a b ra rb)
    (hw : Overwritten m (.inr v) w) :
    Lockstep m w a b (addByFaction v row ra) (addByFaction v row rb) := by
  unfold addByFaction
  dsimp only
  split
  · exact Lockstep_AddV _ _ _ h hw
  · exact h

theorem addByLevel_lockstep {m : MetricName} {w : Bool} {a b ra rb : Registry}
    (row : Int × Int × Int) (h : Lockstep m w a b ra rb)
    (hw : Overwritten m (.inr .PlayersByLevel) w) :
    Lockstep m w a b (addByLevel row ra) (addByLevel row rb) := by
  unfold addByLevel
  dsimp only
  split
  · exact Lockstep_AddV _ _ _ h hw
  · exact h

theorem addByClass_lockstep {m : MetricName} {w : Bool} {a b ra rb : Registry}
    (row : Int × Int × Int) (h : Lockstep m w a b ra rb)
    (hw : Overwritten m (.inr .PlayersByClass) w) :
    Lockstep m w a b (addByClass row ra) (addByClass row rb) := by
  unfold addByClass
  dsimp only
  split
  · exact Lockstep_AddV _ _ _ h hw
  · exact h

theorem setMaxLevel_lockstep {m : MetricName} {w : Bool} {a b ra rb : Registry}
    (row : Int × Int) (h : Lockstep m w a b ra rb)
    (hw : Overwritten m (.inr .MaxLevelCharCount) w) :
    Lockstep m w a b (setMaxLevel row ra) (setMaxLevel row rb) := by
  unfold setMaxLevel
  dsimp only
  split
  · exact Lockstep_SetV _ _ _ h hw
  · exact h

theorem setAuctionHouse_lockstep {m : MetricName} {w : Bool} {a b ra rb : Registry}
    (row : Int × Int) (h : Lockstep m w a b ra rb)
    (hw : Overwritten m (.inr .AuctionCount) w) :
    Lockstep m w a b (setAuctionHouse row ra) (setAuctionHouse row rb) :=
  Lockstep_SetV _ _ _ h hw

theorem setLogCount_lockstep {m : MetricName} {w : Bool} {a b ra rb : Registry}
    (row : String × Int) (h : Lockstep m w a b ra rb)
    (hw : Overwritten m (.inr .LogCountByType) w) :
    Lockstep m w a b (setLogCount row ra) (setLogCount row rb) :=
  Lockstep_SetV _ _ _ h hw

theorem setInstancesByDifficulty_lockstep {m : MetricName} {w : Bool}
    {a b ra rb : Registry} (row : Int × Int) (h : Lockstep m w a b ra rb)
    (hw : Overwritten m (.inr .InstancesByDifficulty) w) :
    Lockstep m w a b (setInstancesByDifficulty row ra)
      (setInstancesByDifficulty row rb) :=
  Lockstep_SetV _ _ _ h hw

theorem setCompletedEncounters_lockstep {m : MetricName} {w : Bool}
    {a b ra rb : Registry} (row : Int × Int) (h : Lockstep m w a b ra rb)
    (hw : Overwritten m (.inr .CompletedEncounters) w) :
    Lockstep m w a b (setCompletedEncounters row ra) (setCompletedEncounters row rb) :=
  Lockstep_SetV _ _ _ h hw

theorem setInstanceResets_lockstep {m : MetricName} {w : Bool}
    {a b ra rb : Registry} (row : Int × Int × Int) (h : Lockstep m w a b ra rb)
    (hw : Overwritten m (.inr .InstanceResets) w) :
    Lockstep m w a b (setInstanceResets row ra) (setInstanceResets row rb) :=
  Lockstep_SetV _ _ _ h hw

theorem setLFGData_lockstep {m : MetricName} {w : Bool} {a b ra rb : Registry}
    (row : Int × Int) (h : Lockstep m w a b ra rb)
    (hw : Overwritten m (.inr .LFGDataCount) w) :
    Lockstep m w a b (setLFGData row ra) (setLFGData row rb) :=
  Lockstep_SetV _ _ _ h hw

theorem setIPActionLogsByType_lockstep {m : MetricName} {w : Bool}
    {a b ra rb : Registry} (row : Int × Int) (h : Lockstep m w a b ra rb)
    (hw : Overwritten m (.inr .IPActionLogsByType) w) :
    Lockstep m w a b (setIPActionLogsByType row ra) (setIPActionLogsByType row rb) :=
  Lockstep_SetV _ _ _ h hw

theorem setLagReportsByType_lockstep {m : MetricName} {w : Bool}
    {a b ra rb : Registry} (row : Int × Int) (h : Lockstep m w a b ra rb)
    (hw : Overwritten m (.inr .LagReportsByType) w) :
    Lockstep m w a b (setLagReportsByType row ra) (setLagReportsByType row rb) :=
  Lockstep_SetV _ _ _ h hw

theorem setNetworkActivityByIP_lockstep {m : MetricName} {w : Bool}
    {a b ra rb : Registry} (row : String × Int) (h : Lockstep m w a b ra rb)
    (hw : Overwritten m (.inr .NetworkActivityByIP) w) :
    Lockstep m w a b (setNetworkActivityByIP row ra) (setNetworkActivityByIP row rb) :=
  Lockstep_SetV _ _ _ h hw

theorem setDesertersByType_lockstep {m : MetricName} {w : Bool}
    {a b ra rb : Registry} (row : Int × Int) (h : Lockstep m w a b ra rb)
    (hw : Overwritten m (.inr .BattlegroundDesertersByType) w) :
    Lockstep m w a b (setDesertersByType row ra) (setDesertersByType row rb) :=
  Lockstep_SetV _ _ _ h hw

theorem setBattlegroundsByType_lockstep {m : MetricName} {w : Bool}
    {a b ra rb : Registry} (row : Int × Int) (h : Lockstep m w a b ra rb)
    (hw : Overwritten m (.inr .BattlegroundsByType) w) :
    Lockstep m w a b (setBattlegroundsByType row ra) (setBattlegroundsByType row rb) :=
  Lockstep_SetV _ _ _ h hw

theorem setBattlegroundsByBracket_lockstep {m : MetricName} {w : Bool}
    {a b ra rb : Registry} (row : Int × Int) (h : Lockstep m w a b ra rb)
    (hw : Overwritten m (.inr .BattlegroundsByBracket) w) :
    Lockstep m w a b (setBattlegroundsByBracket row ra)
      (setBattlegroundsByBracket row rb) :=
  Lockstep_SetV _ _ _ h hw

theorem setWinsByFaction_lockstep {m : MetricName} {w : Bool}
    {a b ra rb : Registry} (row : Int × Int) (h : Lockstep m w a b ra rb)
    (hw : Overwritten m (.inr .BattlegroundWinsByFaction) w) :
    Lockstep m w a b (setWinsByFaction row ra) (setWinsByFaction row rb) :=
  Lockstep_SetV _ _ _ h hw

theorem setIfValid_lockstep {m : MetricName} {w : Bool} {a b ra rb : Registry}
    (v : VecName) (label : String) (x : Null Int) (h : Lockstep m w a b ra rb)
    (hw : Overwritten m (.inr v) w) :
    Lockstep m w a b (setIfValid v label x ra) (setIfValid v label x rb) := by
  cases x with
  | none => exact h
  | some x => exact Lockstep_SetV _ _ _ h hw

theorem setPlayerStats_lockstep {m : MetricName} {w : Bool} {a b ra rb : Registry}
    (row : PlayerStatsRow) (h : Lockstep m w a b ra rb)
    (hw : Overwritten m (.inr .BattlegroundPlayerStats) w) :
    Lockstep m w a b (setPlayerStats row ra) (setPlayerStats row rb) := by
  unfold setPlayerStats
  dsimp only
  repeat' first
    | assumption
    | apply setIfValid_lockstep
    | apply Lockstep_SetV

theorem setTemplate_lockstep {m : MetricName} {w : Bool} {a b ra rb : Registry}
    (row : TemplateRow) (h : Lockstep m w a b ra rb)
    (hw1 : Overwritten m (.inr .BattlegroundTemplates) w)
    (hw2 : Overwritten m (.inr .BattlegroundTemplateDetails) w) :
    Lockstep m w a b (setTemplate row ra) (setTemplate row rb) := by
  unfold setTemplate
  dsimp only
  exact Lockstep_SetV _ _ _ (Lockstep_SetV _ _ _ h hw1) hw2

theorem setRecent_lockstep {m : MetricName} {w : Bool} {a b ra rb : Registry}
    (row : Null Int × Null Int × Null Int) (h : Lockstep m w a b ra rb)
    (hw : Overwritten m (.inr .RecentBattlegrounds) w) :
    Lockstep m w a b (setRecent row ra) (setRecent row rb) := by
  unfold setRecent
  dsimp only
  repeat' first
    | assumption
    | apply setIfValid_lockstep

theorem setOnlineChar_lockstep {m : MetricName} {w : Bool} {a b : Registry}
    (username : Int → RowResult String) (row : String × Int × Int)
    (sa sb : OnlineCharsState) (hw : Overwritten m (.inr .OnlinePlayersByLevel) w)
    (h : Lockstep m w a b sa.reg sb.reg ∧ sa.accountMap = sb.accountMap) :
    Lockstep m w a b (setOnlineChar username row sa).reg
        (setOnlineChar username row sb).reg
      ∧ (setOnlineChar username row sa).accountMap
          = (setOnlineChar username row sb).accountMap := by
  unfold setOnlineChar
  dsimp only
  rw [h.2]
  cases sb.accountMap.find row.2.2 with
  | some name => exact ⟨Lockstep_SetV _ _ _ h.1 hw, rfl⟩
  | none => exact ⟨Lockstep_SetV _ _ _ h.1 hw, rfl⟩

theorem collectOnlineChars_lockstep {m : MetricName} {w : Bool}
    {a b ra rb : Registry} (q : PlayerQueries) (h : Lockstep m w a b ra rb)
    (hw : Overwritten m (.inr .OnlinePlayersByLevel) w) :
    SameOrKept m a b (collectOnlineChars q ra).1 (collectOnlineChars q rb).1 := by
  unfold collectOnlineChars
  cases q.onlineChars with
  | error e => exact SameOrKept_of_Lockstep h
  | ok rows =>
    exact SameOrKept_of_Lockstep
      (scanRows_lockstep
        (fun sa sb : OnlineCharsState =>
          Lockstep m w a b sa.reg sb.reg ∧ sa.accountMap = sb.accountMap)
        (setOnlineChar q.username)
        (fun row sa sb hs => setOnlineChar_lockstep q.username row sa sb hw hs)
        rows { reg := ra, accountMap := [], lookups := [] }
        { reg := rb, accountMap := [], lookups := [] } ⟨h, rfl⟩).1.1

/-! ## Two runs in lockstep: the groups -/

theorem collectServerMetrics_lockstep (q : ServerQueries) (m : MetricName)
    (a b : Registry) :
    SameOrKept m a b (collectServerMetrics q a).1 (collectServerMetrics q b).1 := by
  unfold collectServerMetrics
  dsimp only
  split <;>
    repeat' first
      | apply Lockstep_start
      | apply SameOrKept_of_Lockstep
      | apply Lockstep_Add
      | apply Lockstep_Set
      | (refine Overwritten.mk fun hm => ?_; subst hm; rfl)

theorem collectLastServerRestartMetrics_lockstep (q : RestartQueries)
    (m : MetricName) (a b : Registry) :
    SameOrKept m a b (collectLastServerRestartMetrics q a).1
      (collectLastServerRestartMetrics q b).1 := by
  unfold collectLastServerRestartMetrics
  dsimp only
  split <;>
    repeat' first
      | apply Lockstep_start
      | apply SameOrKept_of_Lockstep
      | apply Lockstep_Set

theorem collectNetworkMetrics_lockstep (q : NetworkQueries) (m : MetricName)
    (a b : Registry) :
    SameOrKept m a b (collectNetworkMetrics q a).1 (collectNetworkMetrics q b).1 := by
  obtain ⟨avg, high, minMax, banned, ipActions, lag, activity⟩ := q
  unfold collectNetworkMetrics
  have havg : avg = .error .ErrNoRows ∨ (∃ msg, avg = .error (.other msg))
      ∨ avg = .ok none ∨ ∃ x, avg = .ok (some x) := by
    rcases avg with (_ | msg) | (_ | x) <;> simp
  have hmm : minMax = .error .ErrNoRows ∨ (∃ msg, minMax = .error (.other msg))
      ∨ minMax = .ok (none, none) ∨ (∃ x, minMax = .ok (some x, none))
      ∨ (∃ x, minMax = .ok (none, some x)) ∨ ∃ x y, minMax = .ok (some x, some y) := by
    rcases minMax with (_ | msg) | ⟨_ | x, _ | y⟩ <;> simp
  rcases havg with h | ⟨_, h⟩ | h | ⟨_, h⟩ <;>
    rcases hmm with h2 | ⟨_, h2⟩ | h2 | ⟨_, h2⟩ | ⟨_, h2⟩ | ⟨_, _, h2⟩ <;>
    subst h <;> subst h2 <;>
    simp only [fatalUnlessNoRows, publishAvgLatency, publishMinMaxLatency] <;>
    repeat' first
      | assumption
      | apply Lockstep_start
      | apply SameOrKept_queryRow
      | apply SameOrKept_queryLoop
      | apply SameOrKept_of_Lockstep
      | apply Lockstep_Set
      | apply Lockstep_Reset
      | apply Lockstep_SetV
      | apply setIPActionLogsByType_lockstep
      | apply setLagReportsByType_lockstep
      | apply setNetworkActivityByIP_lockstep
      | (refine Overwritten.mk fun hm => ?_; subst hm; rfl)
      | intro _

/-- Two runs of a group on the same query outcomes either agree on a metric or
both leave it as it was. -/
theorem Group.run_lockstep (G : Group) (q : CycleQueries) (m : MetricName)
    (a b : Registry) : SameOrKept m a b (G.run q a).1 (G.run q b).1 := by
  cases G
  case server => exact collectServerMetrics_lockstep _ m a b
  case lastServerRestart => exact collectLastServerRestartMetrics_lockstep _ m a b
  case network => exact collectNetworkMetrics_lockstep _ m a b
  all_goals
    simp only [Group.run, collectPlayerMetrics, collectMailMetrics,
      collectAccountMetrics, collectAuctionMetrics, collectGuildMetrics,
      collectMaxLevelCharMetrics, collectUnreadMailMetrics, collectGMAccountMetrics,
      collectBannedCharMetrics, collectChatMetrics, collectInstanceMetrics,
      collectBattlegroundMetrics]
    repeat' first
      | assumption
      | apply Lockstep_start
      | apply SameOrKept_queryRow
      | apply SameOrKept_queryRowErrorf
      | apply SameOrKept_queryLoop
      | apply SameOrKept_queryLoopContinue
      | apply SameOrKept_queryFirstRow
      | apply collectOnlineChars_lockstep
      | apply SameOrKept_of_Lockstep
      | apply Lockstep_Add
      | apply Lockstep_Set
      | apply Lockstep_Reset
      | apply Lockstep_SetV
      | apply Lockstep_AddV
      | apply addByFaction_lockstep
      | apply addByLevel_lockstep
      | apply addByClass_lockstep
      | apply setMaxLevel_lockstep
      | apply setAuctionHouse_lockstep
      | apply setLogCount_lockstep
      | apply setInstancesByDifficulty_lockstep
      | apply setCompletedEncounters_lockstep
      | apply setInstanceResets_lockstep
      | apply setLFGData_lockstep
      | apply setIPActionLogsByType_lockstep
      | apply setLagReportsByType_lockstep
      | apply setNetworkActivityByIP_lockstep
      | apply setDesertersByType_lockstep
      | apply setBattlegroundsByType_lockstep
      | apply setBattlegroundsByBracket_lockstep
      | apply setWinsByFaction_lockstep
      | apply setPlayerStats_lockstep
      | apply setTemplate_lockstep
      | apply setRecent_lockstep
      | (refine Overwritten.mk fun hm => ?_; subst hm; rfl)
      | intro _

theorem runGroups_lockstep (q : CycleQueries) (m : MetricName) (gs : List Group)
    (a b : Registry) : SameOrKept m a b (runGroups q gs a) (runGroups q gs b) := by
  induction gs generalizing a b with
  | nil => exact ⟨Or.inr ⟨rfl, rfl⟩⟩
  | cons G rest ih =>
    have hG := (Group.run_lockstep G q m a b).out
    have hrest := (ih (G.run q a).1 (G.run q b).1).out
    refine ⟨?_⟩
    simp only [runGroups]
    rcases hrest with h | ⟨ha, hb⟩
    · exact Or.inl h
    · rcases hG with h | ⟨ha', hb'⟩
      · exact Or.inl (by rw [ha, hb, h])
      · exact Or.inr ⟨by rw [ha, ha'], by rw [hb, hb']⟩

/-! ## C15 -/

/-- C15: for every registry state and every assignment of outcomes to the queries
of a cycle, running `Collect` a second time with the same outcomes leaves the
registry that the first run left: every scalar gauge has the same value and
every gauge vector has the same series. -/
theorem collect_twice_leaves_same_registry (q : CycleQueries) (r : Registry) :
    (Collect q (Collect q r).reg).reg = (Collect q r).reg := by
  apply Registry.ext_metric
  intro m
  rw [Collect_reg, Collect_reg]
  rcases (runGroups_lockstep q m allGroups r (runGroups q allGroups r)).out with
    h | ⟨_, h⟩
  · exact h.symm
  · exact h

/-! ## C23 -/

/-- C23: `Load` sets `Database.DSN` to the value of `WOW_DB_DSN` when that
variable is set and not empty; otherwise to
`<WOW_DB_USER>:<WOW_DB_PASS>@tcp(<WOW_DB_HOST>:<port>)/acore_characters?parseTime=true`,
where the port is the value of `WOW_DB_PORT` when it is set and not empty and
`3306` when it is unset or empty. -/
theorem load_dsn_from_environment (env : Env) :
    (Getenv env "WOW_DB_DSN" ≠ "" →
      (Load env).Database.DSN = Getenv env "WOW_DB_DSN")
    ∧ (Getenv env "WOW_DB_DSN" = "" →
        ∃ port,
          (Load env).Database.DSN
            = Getenv env "WOW_DB_USER" ++ ":" ++ Getenv env "WOW_DB_PASS" ++ "@tcp("
                ++ Getenv env "WOW_DB_HOST" ++ ":" ++ port
                ++ ")/acore_characters?parseTime=true"
          ∧ (Getenv env "WOW_DB_PORT" ≠ "" → port = Getenv env "WOW_DB_PORT")
          ∧ (env "WOW_DB_PORT" = none ∨ env "WOW_DB_PORT" = some "" → port = "3306")) := by
  constructor
  · intro h
    simp [Load, h]
  · intro h
    refine ⟨getEnvOrDefault env "WOW_DB_PORT" "3306", ?_, ?_, ?_⟩
    · simp [Load, h, DatabaseConfig.buildDSN]
    · intro hp
      simp [getEnvOrDefault, hp]
    · intro hp
      rcases hp with hp | hp <;> simp [getEnvOrDefault, Getenv, hp]

theorem load_dsn_from_environment_witness :
    (Load envWithCredentials).Database.DSN
      = "acore:secret@tcp(db:3307)/acore_characters?parseTime=true" := by
  obtain ⟨port, h1, h2, _⟩ := (load_dsn_from_environment envWithCredentials).2 (by decide)
  rw [h1, h2 (by decide)]
  decide

/-! ## C25 -/

/-- C25: when the characters database opens but does not answer the ping,
`NewConnections` returns the error with the characters handle still open: it has
closed nothing.  On every other failure path it closes exactly the handles that
were opened. -/
theorem characters_handle_left_open_on_ping_failure (o : ConnectOutcomes)
    (dsn : String) :
    (∀ e, o.openCharacters = none → o.pingCharacters = some e →
      (NewConnections o dsn).result = .error e
      ∧ o.opened = ["characters"] ∧ (NewConnections o dsn).closed = [])
    ∧ (o.allOk = false → (o.openCharacters = none → o.pingCharacters = none) →
        (NewConnections o dsn).closed = o.opened) := by
  obtain ⟨a, b, c, d, e, f⟩ := o
  cases a <;> cases b <;> cases c <;> cases d <;> cases e <;> cases f <;>
    simp [NewConnections, ConnectOutcomes.allOk, ConnectOutcomes.opened]

theorem characters_handle_left_open_on_ping_failure_witness :
    ((NewConnections connectCharactersPingFails "dsn").result
        = .error (.other "connection refused")
      ∧ connectCharactersPingFails.opened = ["characters"]
      ∧ (NewConnections connectCharactersPingFails "dsn").closed = [])
    ∧ (NewConnections connectWorldPingFails "dsn").closed
        = ["characters", "auth", "world"] :=
  ⟨(characters_handle_left_open_on_ping_failure connectCharactersPingFails "dsn").1
      (.other "connection refused") rfl rfl,
    (characters_handle_left_open_on_ping_failure connectWorldPingFails "dsn").2 rfl
      (fun _ => rfl)⟩

/-! ## C27 -/

/-- C27: `Exporter.Describe` and `Exporter.Collect` enumerate the same metrics in
the same order, so a metric is emitted by `Collect` exactly when `Describe`
sends its descriptor. -/
theorem describe_and_collect_enumerate_same_metrics :
    collectSends = describeSends
    ∧ (∀ m, m ∈ collectSends ↔ m ∈ describeSends)
    ∧ collectSends.length = 57 := by
  have h : collectSends = describeSends := rfl
  refine ⟨h, fun m => by rw [h], rfl⟩

/-! ## C30 -/

/-- C30: the lookup data of `pkg/constants` agrees with the legacy `main.go`:
`RaceToFaction` and `ClassNames` are the maps `raceToFaction` and `classNames`,
and each of the six name functions returns, for every code, what its legacy
counterpart returns. -/
theorem constants_agree_with_legacy :
    RaceToFaction = legacyRaceToFaction
    ∧ ClassNames = legacyClassNames
    ∧ (∀ code, GetDifficultyName code = legacyGetDifficultyName code)
    ∧ (∀ code, GetLFGStateName code = legacyGetLFGStateName code)
    ∧ (∀ code, GetIPActionTypeName code = legacyGetIPActionTypeName code)
    ∧ (∀ code, GetLagTypeName code = legacyGetLagTypeName code)
    ∧ (∀ code, GetBattlegroundTypeName code = legacyGetBattlegroundTypeName code)
    ∧ (∀ code, GetDesertionTypeName code = legacyGetDesertionTypeName code) :=
  ⟨rfl, rfl, fun _ => rfl, fun _ => rfl, fun _ => rfl, fun _ => rfl, fun _ => rfl,
    fun _ => rfl⟩

/-! ## C29 -/

theorem String.append_ne_empty_of_left (s t : String) (h : s ≠ "") : s ++ t ≠ "" := by
  intro hst
  apply h
  have hd : (s ++ t).data = [] := by rw [hst]
  rw [String.data_append] at hd
  exact String.ext (List.append_eq_nil.1 hd).1

/-- C29: for every battleground-template row the label published with the
template is `ScriptName` when that is not empty, otherwise `Comment` when that
is not empty, otherwise `BG_<id>`; it is never empty, and it is the second label
value of the series that the row sets, to the weight, in
`wow_battleground_templates` and in `wow_battleground_template_details`. -/
theorem template_label_fallback (row : TemplateRow) (r : Registry) :
    (row.scriptName ≠ "" → templateLabel row = row.scriptName)
    ∧ (row.scriptName = "" → row.comment ≠ "" → templateLabel row = row.comment)
    ∧ (row.scriptName = "" → row.comment = "" →
        templateLabel row = "BG_" ++ fmtD row.id)
    ∧ templateLabel row ≠ ""
    ∧ ((setTemplate row r).vec .BattlegroundTemplates).value
        [fmtD row.id, templateLabel row] = some row.weight
    ∧ ((setTemplate row r).vec .BattlegroundTemplateDetails).value
        [fmtD row.id, templateLabel row, fmtD row.minLvl, fmtD row.maxLvl,
          fmtD row.minPlayers, fmtD row.maxPlayers] = some row.weight := by
  refine ⟨?_, ?_, ?_, ?_, ?_, ?_⟩
  · intro h
    simp [templateLabel, h]
  · intro h1 h2
    simp [templateLabel, h1, h2]
  · intro h1 h2
    simp [templateLabel, h1, h2]
  · unfold templateLabel
    dsimp only
    by_cases h1 : row.scriptName = ""
    · by_cases h2 : row.comment = ""
      · simp only [h1, h2, if_true]
        exact String.append_ne_empty_of_left _ _ (by decide)
      · simp only [h1, if_true, h2, if_false]
        exact h2
    · simp only [h1, if_false]
      exact h1
  · unfold setTemplate
    dsimp only
    rw [Registry.vec_SetV, if_neg (by decide), Registry.vec_SetV, if_pos rfl]
    exact GaugeVec.value_Set_same _ _ _
  · unfold setTemplate
    dsimp only
    rw [Registry.vec_SetV, if_pos rfl]
    exact GaugeVec.value_Set_same _ _ _

theorem template_label_fallback_witness :
    templateLabel
        { id := 30, scriptName := "", comment := "", minPlayers := 5,
          maxPlayers := 40, minLvl := 71, maxLvl := 80, weight := 1 }
      = "BG_30" :=
  (template_label_fallback
    { id := 30, scriptName := "", comment := "", minPlayers := 5,
      maxPlayers := 40, minLvl := 71, maxLvl := 80, weight := 1 }
    Registry.initial).2.2.1 rfl rfl

/-! ## strings.Replace with n = 1 -/

theorem replaceFirstChars_of_not_infix (old new : List Char) (s : List Char)
    (h : ¬ old <:+: s) : replaceFirstChars old new s = s := by
  induction s with
  | nil =>
    have hne : old ≠ [] := by
      rintro rfl
      exact h List.nil_infix
    simp [replaceFirstChars, hne]
  | cons c cs ih =>
    have hp : ¬ old <+: c :: cs := fun hp => h hp.isInfix
    have hcs : ¬ old <:+: cs := fun hi => h (List.infix_cons hi)
    rw [replaceFirstChars, if_neg (by simpa using hp), ih hcs]

/-- Replacing the leftmost occurrence: when `old` does not start anywhere before
the end of `pre`, the occurrence after `pre` is the one that is replaced. -/
theorem replaceFirstChars_first (old new pre rest : List Char)
    (h : ∀ a b, a ++ old ++ b = pre ++ old ++ rest → pre.length ≤ a.length) :
    replaceFirstChars old new (pre ++ old ++ rest) = pre ++ new ++ rest := by
  induction pre with
  | nil =>
    cases hs : old ++ rest with
    | nil =>
      have ho : old = [] := (List.append_eq_nil.1 hs).1
      have hr : rest = [] := (List.append_eq_nil.1 hs).2
      simp [replaceFirstChars, ho, hr]
    | cons c cs =>
      have hp : old <+: c :: cs := ⟨rest, hs⟩
      simp only [List.nil_append, hs]
      rw [replaceFirstChars, if_pos (by simpa using hp), ← hs]
      simp
  | cons p ps ih =>
    have hp : ¬ old <+: p :: (ps ++ old ++ rest) := by
      rintro ⟨b, hb⟩
      have := h [] b (by simpa using hb)
      simp at this
    have ih' := ih (fun a b hab => by
      have := h (p :: a) b (by simp [← hab])
      simpa using this)
    simp only [List.cons_append]
    rw [replaceFirstChars, if_neg (by simpa using hp), ih']

/-- Replacing a text that occurs changes the length by the difference of the
lengths of the two texts. -/
theorem replaceFirstChars_length (old new : List Char) (s : List Char)
    (h : old <:+: s) :
    (replaceFirstChars old new s).length + old.length = s.length + new.length := by
  induction s with
  | nil =>
    have ho : old = [] := List.infix_nil.1 h
    simp [replaceFirstChars, ho]
  | cons c cs ih =>
    by_cases hp : old <+: c :: cs
    · rw [replaceFirstChars, if_pos (by simpa using hp)]
      have hl := hp.length_le
      simp only [List.length_append, List.length_drop]
      omega
    · rw [replaceFirstChars, if_neg (by simpa using hp)]
      rcases List.infix_cons_iff.1 h with h' | h'
      · exact absurd h' hp
      · have := ih h'
        simp only [List.length_cons]
        omega

/-- The text that `NewConnections` looks for can only start before the database
name of a built DSN when it occurs inside the part before the database name. -/
theorem marker_first_after_address (old pre rest X : List Char)
    (hpre : pre = X ++ [')']) (hold : ')' ∉ old) (h : ¬ old <:+: pre)
    (a b : List Char) (hab : a ++ old ++ b = pre ++ old ++ rest) :
    pre.length ≤ a.length := by
  by_contra hlt
  rw [List.append_assoc, List.append_assoc] at hab
  rcases List.append_eq_append_iff.1 hab with ⟨a', ha, hrest⟩ | ⟨c', ha, _⟩
  · have ha' : a' ≠ [] := by
      rintro rfl
      simp [ha] at hlt
    rcases List.append_eq_append_iff.1 hrest with ⟨y, hy, _⟩ | ⟨x, hx, _⟩
    · exact h ⟨a, y, by rw [ha, hy, List.append_assoc]⟩
    · have hmem : ')' ∈ a' := by
        have h1 : (a ++ a').getLast? = some ')' := by rw [← ha, hpre]; simp
        rw [List.getLast?_append_of_ne_nil _ ha'] at h1
        exact List.mem_of_getLast?_eq_some h1
      exact hold (by rw [hx]; exact List.mem_append_left _ hmem)
  · simp [ha] at hlt

theorem stringsReplaceFirst_after_address (pre new rest : String) (X : List Char)
    (hpre : pre.data = X ++ [')'])
    (h : ¬ "/acore_characters?".data <:+: pre.data) :
    stringsReplaceFirst (pre ++ "/acore_characters?" ++ rest) "/acore_characters?" new
      = pre ++ new ++ rest := by
  apply String.ext
  simp only [stringsReplaceFirst, String.data_append]
  exact replaceFirstChars_first _ _ _ _
    (marker_first_after_address _ _ _ X hpre (by decide) h)

theorem buildDSN_eq (c : DatabaseConfig) :
    c.buildDSN
      = c.credentialsAndAddress ++ "/acore_characters?" ++ "parseTime=true" := by
  apply String.ext
  simp [DatabaseConfig.buildDSN, DatabaseConfig.credentialsAndAddress,
    String.data_append]

/-! ## C21 -/

/-- C21: the auth and world DSNs that `NewConnections` derives from the DSN of
`buildDSN` are `<user>:<password>@tcp(<host>:<port>)/acore_auth?parseTime=true`
and `<user>:<password>@tcp(<host>:<port>)/acore_world?parseTime=true` as long
as the text `/acore_characters?` does not occur in
`<user>:<password>@tcp(<host>:<port>)`.  With the password
`/acore_characters?` the replacement hits the password instead: the derived DSNs
still name the database `acore_characters` and carry a changed password. -/
theorem derived_dsn_keeps_credentials_unless_marker_in_them :
    (∀ c : DatabaseConfig,
      ¬ "/acore_characters?".data <:+: c.credentialsAndAddress.data →
      openedDSNs c.buildDSN
        = (c.buildDSN, c.credentialsAndAddress ++ "/acore_auth?" ++ "parseTime=true",
            c.credentialsAndAddress ++ "/acore_world?" ++ "parseTime=true"))
    ∧ configWithSlashPassword.credentialsAndAddress
        = "acore:/acore_characters?@tcp(db:3306)"
    ∧ openedDSNs configWithSlashPassword.buildDSN
        = ("acore:/acore_characters?@tcp(db:3306)/acore_characters?parseTime=true",
            "acore:/acore_auth?@tcp(db:3306)/acore_characters?parseTime=true",
            "acore:/acore_world?@tcp(db:3306)/acore_characters?parseTime=true") := by
  refine ⟨fun c h => ?_, by decide, by decide⟩
  have hpre : c.credentialsAndAddress.data
      = (c.User ++ ":" ++ c.Password ++ "@tcp(" ++ c.Host ++ ":" ++ c.Port).data
          ++ [')'] := by
    simp [DatabaseConfig.credentialsAndAddress, String.data_append]
  unfold openedDSNs
  rw [buildDSN_eq,
    stringsReplaceFirst_after_address _ "/acore_auth?" _ _ hpre h,
    stringsReplaceFirst_after_address _ "/acore_world?" _ _ hpre h]

theorem derived_dsn_keeps_credentials_unless_marker_in_them_witness :
    openedDSNs configPlain.buildDSN
      = ("acore:secret@tcp(db:3306)/acore_characters?parseTime=true",
          "acore:secret@tcp(db:3306)/acore_auth?parseTime=true",
          "acore:secret@tcp(db:3306)/acore_world?parseTime=true") := by
  rw [derived_dsn_keeps_credentials_unless_marker_in_them.1 configPlain (by decide)]
  decide

/-! ## C22 -/

/-- C22: a DSN in which the text `/acore_characters?` does not occur is passed
unchanged to all three `sql.Open` calls, so the three connections are opened
with one and the same DSN; this is so for a DSN that ends in
`/acore_characters` without parameters.  When the text occurs, the three DSNs
are pairwise different. -/
theorem dsn_without_marker_opened_three_times (dsn : String) :
    (¬ "/acore_characters?".data <:+: dsn.data → openedDSNs dsn = (dsn, dsn, dsn))
    ∧ ("/acore_characters?".data <:+: dsn.data →
        (openedDSNs dsn).2.1 ≠ dsn ∧ (openedDSNs dsn).2.2 ≠ dsn
        ∧ (openedDSNs dsn).2.1 ≠ (openedDSNs dsn).2.2) := by
  constructor
  · intro h
    have h1 : ∀ new, stringsReplaceFirst dsn "/acore_characters?" new = dsn := by
      intro new
      apply String.ext
      exact replaceFirstChars_of_not_infix _ _ _ h
    simp [openedDSNs, h1]
  · intro h
    have hl : ∀ new : String,
        (stringsReplaceFirst dsn "/acore_characters?" new).data.length + 18
          = dsn.data.length + new.data.length := fun new =>
      replaceFirstChars_length _ _ _ h
    have ha := hl "/acore_auth?"
    have hw := hl "/acore_world?"
    have e1 : "/acore_auth?".data.length = 12 := rfl
    have e2 : "/acore_world?".data.length = 13 := rfl
    rw [e1] at ha
    rw [e2] at hw
    refine ⟨fun he => ?_, fun he => ?_, fun he => ?_⟩
    · simp only [openedDSNs] at he
      rw [he] at ha
      omega
    · simp only [openedDSNs] at he
      rw [he] at hw
      omega
    · simp only [openedDSNs] at he
      rw [he] at ha
      omega

theorem dsn_without_marker_opened_three_times_witness :
    openedDSNs "acore:secret@tcp(db:3306)/acore_characters"
      = ("acore:secret@tcp(db:3306)/acore_characters",
          "acore:secret@tcp(db:3306)/acore_characters",
          "acore:secret@tcp(db:3306)/acore_characters") :=
  (dsn_without_marker_opened_three_times
    "acore:secret@tcp(db:3306)/acore_characters").1 (by decide)

/-! ## The decimal rendering is injective -/

theorem digitValue_digitChar (k : Nat) (h : k < 10) : digitValue (Nat.digitChar k) = k := by
  interval_cases k <;> rfl

theorem readDigits_toDigitsCore (fuel n : Nat) (ds : List Char) (h : n < fuel) :
    readDigits 0 (Nat.toDigitsCore 10 fuel n ds) = readDigits n ds := by
  induction fuel generalizing n ds with
  | zero => omega
  | succ fuel ih =>
    unfold Nat.toDigitsCore
    dsimp only
    split
    · rename_i h0
      have hn : n % 10 = n := by omega
      simp only [readDigits, List.foldl_cons, Nat.mul_zero, Nat.zero_add]
      rw [digitValue_digitChar _ (Nat.mod_lt _ (by decide)), hn]
    · rename_i h0
      rw [ih (n / 10) _ (by omega)]
      simp only [readDigits, List.foldl_cons]
      rw [digitValue_digitChar _ (Nat.mod_lt _ (by decide))]
      congr 1
      omega

theorem readDigits_repr (n : Nat) : readDigits 0 (Nat.repr n).data = n := by
  simp only [Nat.repr, Nat.toDigits, List.asString]
  exact readDigits_toDigitsCore (n + 1) n [] (by omega)

theorem Nat.repr_injective (n m : Nat) (h : Nat.repr n = Nat.repr m) : n = m := by
  rw [← readDigits_repr n, ← readDigits_repr m, h]

theorem minus_not_mem_toDigitsCore (fuel n : Nat) (ds : List Char) (h : '-' ∉ ds) :
    '-' ∉ Nat.toDigitsCore 10 fuel n ds := by
  induction fuel generalizing n ds with
  | zero => simpa [Nat.toDigitsCore] using h
  | succ fuel ih =>
    have hd : ∀ k, k < 10 → Nat.digitChar k ≠ '-' := by
      intro k hk
      interval_cases k <;> decide
    have hcons : '-' ∉ Nat.digitChar (n % 10) :: ds := by
      simp only [List.mem_cons, not_or]
      exact ⟨fun e => hd _ (Nat.mod_lt _ (by decide)) e.symm, h⟩
    unfold Nat.toDigitsCore
    dsimp only
    split
    · exact hcons
    · exact ih _ _ hcons

theorem minus_not_mem_repr (n : Nat) : '-' ∉ (Nat.repr n).data := by
  simp only [Nat.repr, Nat.toDigits, List.asString]
  exact minus_not_mem_toDigitsCore _ _ [] (by simp)

theorem fmtD_injective (a b : Int) (h : fmtD a = fmtD b) : a = b := by
  cases a with
  | ofNat n =>
    cases b with
    | ofNat m =>
      simp only [fmtD] at h
      rw [Nat.repr_injective n m h]
    | negSucc m =>
      exfalso
      simp only [fmtD] at h
      apply minus_not_mem_repr n
      rw [h, String.data_append]
      simp
  | negSucc n =>
    cases b with
    | ofNat m =>
      exfalso
      simp only [fmtD] at h
      apply minus_not_mem_repr m
      rw [← h, String.data_append]
      simp
    | negSucc m =>
      simp only [fmtD] at h
      have hd := congrArg String.data h
      simp only [String.data_append, List.append_cancel_left_eq] at hd
      have := Nat.repr_injective _ _ (String.ext hd)
      have hnm : n = m := by omega
      rw [hnm]

/-- A lookup-or-`Unknown_<code>` function is injective when the keys of its table
are distinct, its names are distinct and none begins with `Unknown_`. -/
theorem lookup_or_unknown_injective (m : GoMap) (F : Int → String)
    (hF : ∀ code, F code = match m.find code with
      | some name => name
      | none => "Unknown_" ++ fmtD code)
    (hnames : ∀ p ∈ m, ∀ q ∈ m, p.2 = q.2 → p.1 = q.1)
    (hunknown : ∀ p ∈ m, ¬ "Unknown_".data <+: p.2.data)
    (a b : Int) (h : F a = F b) : a = b := by
  rw [hF a, hF b] at h
  cases ha : m.find a with
  | some x =>
    cases hb : m.find b with
    | some y =>
      simp only [ha, hb] at h
      exact hnames _ (GoMap.find_mem m a x ha) _ (GoMap.find_mem m b y hb) h
    | none =>
      exfalso
      simp only [ha, hb] at h
      apply hunknown _ (GoMap.find_mem m a x ha)
      simp only [h, String.data_append]
      exact List.prefix_append _ _
  | none =>
    cases hb : m.find b with
    | some y =>
      exfalso
      simp only [ha, hb] at h
      apply hunknown _ (GoMap.find_mem m b y hb)
      simp only [← h, String.data_append]
      exact List.prefix_append _ _
    | none =>
      simp only [ha, hb] at h
      have hd := congrArg String.data h
      simp only [String.data_append, List.append_cancel_left_eq] at hd
      exact fmtD_injective a b (String.ext hd)

theorem SetV_SetV_value (r : Registry) (m : VecName) (l1 l2 : String) (x y : Int)
    (h : l1 ≠ l2) :
    (((r.SetV m [l1] x).SetV m [l2] y).vec m).value [l1] = some x := by
  rw [Registry.vec_SetV, if_pos rfl, Registry.vec_SetV, if_pos rfl,
    GaugeVec.value_Set_ne _ _ _ _ (by simpa using h), GaugeVec.value_Set_same]

/-! ## C26 -/

/-- C26: each of the six name functions is injective over all integers: two
different codes never yield the same label.  So a row never overwrites the
series that a row with a different code has set: after the two rows, the series
of the first still has the value of the first. -/
theorem name_functions_injective (a b : Int) (h : a ≠ b) :
    (GetDifficultyName a ≠ GetDifficultyName b
      ∧ GetLFGStateName a ≠ GetLFGStateName b
      ∧ GetIPActionTypeName a ≠ GetIPActionTypeName b
      ∧ GetLagTypeName a ≠ GetLagTypeName b
      ∧ GetBattlegroundTypeName a ≠ GetBattlegroundTypeName b
      ∧ GetDesertionTypeName a ≠ GetDesertionTypeName b)
    ∧ ∀ (x y : Int) (r : Registry),
      ((setInstancesByDifficulty (b, y) (setInstancesByDifficulty (a, x) r)).vec
          .InstancesByDifficulty).value [GetDifficultyName a] = some x
      ∧ ((setLFGData (b, y) (setLFGData (a, x) r)).vec .LFGDataCount).value
          [GetLFGStateName a] = some x
      ∧ ((setIPActionLogsByType (b, y) (setIPActionLogsByType (a, x) r)).vec
          .IPActionLogsByType).value [GetIPActionTypeName a] = some x
      ∧ ((setLagReportsByType (b, y) (setLagReportsByType (a, x) r)).vec
          .LagReportsByType).value [GetLagTypeName a] = some x
      ∧ ((setBattlegroundsByType (b, y) (setBattlegroundsByType (a, x) r)).vec
          .BattlegroundsByType).value [GetBattlegroundTypeName a] = some x
      ∧ ((setDesertersByType (b, y) (setDesertersByType (a, x) r)).vec
          .BattlegroundDesertersByType).value [GetDesertionTypeName a] = some x := by
  have h1 : GetDifficultyName a ≠ GetDifficultyName b := fun e =>
    h (lookup_or_unknown_injective difficultyNames GetDifficultyName
      (fun _ => rfl) (by decide) (by decide) a b e)
  have h2 : GetLFGStateName a ≠ GetLFGStateName b := fun e =>
    h (lookup_or_unknown_injective stateNames GetLFGStateName
      (fun _ => rfl) (by decide) (by decide) a b e)
  have h3 : GetIPActionTypeName a ≠ GetIPActionTypeName b := fun e =>
    h (lookup_or_unknown_injective typeNames GetIPActionTypeName
      (fun _ => rfl) (by decide) (by decide) a b e)
  have h4 : GetLagTypeName a ≠ GetLagTypeName b := fun e =>
    h (lookup_or_unknown_injective lagTypeNames GetLagTypeName
      (fun _ => rfl) (by decide) (by decide) a b e)
  have h5 : GetBattlegroundTypeName a ≠ GetBattlegroundTypeName b := fun e =>
    h (lookup_or_unknown_injective bgTypeNames GetBattlegroundTypeName
      (fun _ => rfl) (by decide) (by decide) a b e)
  have h6 : GetDesertionTypeName a ≠ GetDesertionTypeName b := fun e =>
    h (lookup_or_unknown_injective desertionTypeNames GetDesertionTypeName
      (fun _ => rfl) (by decide) (by decide) a b e)
  refine ⟨⟨h1, h2, h3, h4, h5, h6⟩, fun x y r => ⟨?_, ?_, ?_, ?_, ?_, ?_⟩⟩
  · exact SetV_SetV_value r _ _ _ x y h1
  · exact SetV_SetV_value r _ _ _ x y h2
  · exact SetV_SetV_value r _ _ _ x y h3
  · exact SetV_SetV_value r _ _ _ x y h4
  · exact SetV_SetV_value r _ _ _ x y h5
  · exact SetV_SetV_value r _ _ _ x y h6

theorem name_functions_injective_witness :
    GetDifficultyName 2 ≠ GetDifficultyName 99
    ∧ GetBattlegroundTypeName 0 ≠ GetBattlegroundTypeName (-1) :=
  ⟨(name_functions_injective 2 99 (by decide)).1.1,
    (name_functions_injective 0 (-1) (by decide)).1.2.2.2.2.1⟩

/-! ## Accumulation does not depend on the order of the rows -/

theorem foldl_vec {α : Type} (m : VecName) (body : α → Registry → Registry)
    (step : α → GaugeVec → GaugeVec)
    (h : ∀ row r, (body row r).vec m = step row (r.vec m)) (rows : List α)
    (r : Registry) :
    (rows.foldl (fun s row => body row s) r).vec m
      = rows.foldl (fun v row => step row v) (r.vec m) := by
  induction rows generalizing r with
  | nil => rfl
  | cons row rest ih => simp only [List.foldl_cons, ih, h]

theorem foldl_vec_frame {α : Type} (m : VecName) (body : α → Registry → Registry)
    (h : ∀ row r, (body row r).vec m = r.vec m) (rows : List α) (r : Registry) :
    (rows.foldl (fun s row => body row s) r).vec m = r.vec m := by
  induction rows generalizing r with
  | nil => rfl
  | cons row rest ih => simp only [List.foldl_cons, ih, h]

theorem queryLoop_map_ok {α : Type} (rows : List α) (body : α → Registry → Registry)
    (r : Registry) (k : Registry → Registry × Option Err) :
    queryLoop (.ok (rows.map Except.ok)) body r k
      = k (rows.foldl (fun s row => body row s) r) := by
  rw [queryLoop_ok, scanRows_map_ok]

/-- Whether a series exists after an accumulation loop. -/
theorem addKeyed_fold_isSome {α : Type} (key : α → Option (List String))
    (cnt : α → Int) (rows : List α) (v : GaugeVec) (ls : List String) :
    ((rows.foldl (fun v row => GaugeVec.addKeyed key cnt row v) v).value ls).isSome
        = true
      ↔ (v.value ls).isSome = true ∨ ∃ row ∈ rows, key row = some ls := by
  induction rows generalizing v with
  | nil => simp
  | cons row rest ih =>
    simp only [List.foldl_cons, ih, List.mem_cons, exists_eq_or_imp]
    unfold GaugeVec.addKeyed
    cases hk : key row with
    | none => simp
    | some l =>
      dsimp only
      rw [GaugeVec.value_Add]
      by_cases hl : ls = l
      · subst hl
        simp
      · have hl' : ¬ l = ls := fun e => hl e.symm
        simp [hl, hl']

/-- The value of a series after an accumulation loop, as long as the sums stay
in the range in which float64 addition is exact. -/
theorem addKeyed_fold_value {α : Type} (key : α → Option (List String))
    (cnt : α → Int) (rows : List α) (v : GaugeVec) (ls : List String)
    (hb : ((v.value ls).getD 0).natAbs + (rows.map fun row => (cnt row).natAbs).sum
      ≤ 2 ^ 53) :
    ((rows.foldl (fun v row => GaugeVec.addKeyed key cnt row v) v).value ls).getD 0
      = (v.value ls).getD 0
        + ((rows.filter fun row => decide (key row = some ls)).map cnt).sum := by
  induction rows generalizing v with
  | nil => simp
  | cons row rest ih =>
    simp only [List.map_cons, List.sum_cons] at hb
    simp only [List.foldl_cons]
    cases hk : key row with
    | none =>
      have hstep : GaugeVec.addKeyed key cnt row v = v := by
        simp [GaugeVec.addKeyed, hk]
      rw [hstep, ih v (by omega)]
      simp [List.filter_cons, hk]
    | some l =>
      have hstep : GaugeVec.addKeyed key cnt row v = v.Add l (cnt row) := by
        simp [GaugeVec.addKeyed, hk]
      rw [hstep]
      by_cases hl : l = ls
      · subst hl
        have e : f64Add ((v.value l).getD 0) (cnt row) = (v.value l).getD 0 + cnt row :=
          f64Add_exact _ _ (by omega) (by omega)
        have hv' : ((v.Add l (cnt row)).value l).getD 0
            = (v.value l).getD 0 + cnt row := by
          simp [GaugeVec.value_Add, e]
        rw [ih _ (by rw [hv']; omega), hv']
        simp [List.filter_cons, hk]
        ring
      · have hl' : ¬ ls = l := fun e => hl e.symm
        have hv' : (v.Add l (cnt row)).value ls = v.value ls := by
          simp [GaugeVec.value_Add, hl']
        rw [ih _ (by rw [hv']; omega), hv']
        simp [List.filter_cons, hk, hl]

/-- An accumulation loop that starts from the empty vector publishes the same
series with the same values for every order of its rows, as long as the
magnitudes of the counts sum to at most `2 ^ 53`. -/
theorem addKeyed_fold_perm {α : Type} (key : α → Option (List String))
    (cnt : α → Int) (rows rows' : List α) (hp : rows.Perm rows')
    (hb : (rows.map fun row => (cnt row).natAbs).sum ≤ 2 ^ 53) (ls : List String) :
    (rows.foldl (fun v row => GaugeVec.addKeyed key cnt row v) []).value ls
      = (rows'.foldl (fun v row => GaugeVec.addKeyed key cnt row v) []).value ls := by
  have hb' : (rows'.map fun row => (cnt row).natAbs).sum ≤ 2 ^ 53 := by
    rw [← (hp.map _).sum_eq]
    exact hb
  have h1 := addKeyed_fold_isSome key cnt rows [] ls
  have h1' := addKeyed_fold_isSome key cnt rows' [] ls
  have h2 := addKeyed_fold_value key cnt rows [] ls (by simpa [GaugeVec.value] using hb)
  have h2' := addKeyed_fold_value key cnt rows' [] ls
    (by simpa [GaugeVec.value] using hb')
  have hs : ((rows.filter fun row => decide (key row = some ls)).map cnt).sum
      = ((rows'.filter fun row => decide (key row = some ls)).map cnt).sum :=
    ((hp.filter _).map cnt).sum_eq
  have hm : (∃ row ∈ rows, key row = some ls) ↔ ∃ row ∈ rows', key row = some ls :=
    ⟨fun ⟨row, h, e⟩ => ⟨row, hp.mem_iff.1 h, e⟩,
      fun ⟨row, h, e⟩ => ⟨row, hp.mem_iff.2 h, e⟩⟩
  rw [hs, ← h2'] at h2
  rw [hm, ← h1'] at h1
  generalize (rows.foldl (fun v row => GaugeVec.addKeyed key cnt row v) []).value ls
    = a at h1 h2 ⊢
  generalize (rows'.foldl (fun v row => GaugeVec.addKeyed key cnt row v) []).value ls
    = b at h1 h2 ⊢
  cases a <;> cases b <;> simp_all

theorem addByFaction_addKeyed (m : VecName) (row : Int × Int) (r : Registry) :
    (addByFaction m row r).vec m
      = GaugeVec.addKeyed factionKey Prod.snd row (r.vec m) := by
  rw [addByFaction_vec, if_pos rfl]
  unfold GaugeVec.addByFaction GaugeVec.addKeyed factionKey
  split <;> rfl

theorem addByLevel_addKeyed (row : Int × Int × Int) (r : Registry) :
    (addByLevel row r).vec .PlayersByLevel
      = GaugeVec.addKeyed levelKey (fun row => row.2.2) row
          (r.vec .PlayersByLevel) := by
  unfold addByLevel GaugeVec.addKeyed levelKey
  dsimp only
  split
  · rw [Registry.vec_AddV, if_pos rfl]
  · rfl

theorem addByClass_addKeyed (row : Int × Int × Int) (r : Registry) :
    (addByClass row r).vec .PlayersByClass
      = GaugeVec.addKeyed classKey (fun row => row.2.2) row
          (r.vec .PlayersByClass) := by
  unfold addByClass GaugeVec.addKeyed classKey
  dsimp only
  split
  · rw [Registry.vec_AddV, if_pos rfl]
  · rfl

/-- The four accumulated vectors after the four loops of `collectPlayerMetrics`
and its last query. -/
theorem collectPlayerMetrics_accumulated (online total : List (Int × Int))
    (byLevel byClass : List (Int × Int × Int))
    (onlineChars : QueryResult (String × Int × Int))
    (username : Int → RowResult String) (r : Registry) :
    (collectPlayerMetrics
        (playerQueriesOfRows online total byLevel byClass onlineChars username)
        r).1.vec .PlayersOnline
      = online.foldl (fun v row => GaugeVec.addKeyed factionKey Prod.snd row v) []
    ∧ (collectPlayerMetrics
        (playerQueriesOfRows online total byLevel byClass onlineChars username)
        r).1.vec .PlayersTotal
      = total.foldl (fun v row => GaugeVec.addKeyed factionKey Prod.snd row v) []
    ∧ (collectPlayerMetrics
        (playerQueriesOfRows online total byLevel byClass onlineChars username)
        r).1.vec .PlayersByLevel
      = byLevel.foldl
          (fun v row => GaugeVec.addKeyed levelKey (fun row => row.2.2) row v) []
    ∧ (collectPlayerMetrics
        (playerQueriesOfRows online total byLevel byClass onlineChars username)
        r).1.vec .PlayersByClass
      = byClass.foldl
          (fun v row => GaugeVec.addKeyed classKey (fun row => row.2.2) row v) [] := by
  have f1 : ∀ m, m ≠ VecName.PlayersOnline → ∀ (row : Int × Int) (r : Registry),
      (addByFaction .PlayersOnline row r).vec m = r.vec m := fun m hm row r => by
    rw [addByFaction_vec, if_neg hm]
  have f2 : ∀ m, m ≠ VecName.PlayersTotal → ∀ (row : Int × Int) (r : Registry),
      (addByFaction .PlayersTotal row r).vec m = r.vec m := fun m hm row r => by
    rw [addByFaction_vec, if_neg hm]
  simp only [collectPlayerMetrics, playerQueriesOfRows, queryLoop_map_ok]
  refine ⟨?_, ?_, ?_, ?_⟩
  · rw [collectOnlineChars_vec _ (by decide),
      foldl_vec_frame _ _ (addByClass_vec _ (by decide)),
      foldl_vec_frame _ _ (addByLevel_vec _ (by decide)),
      foldl_vec_frame _ _ (f2 _ (by decide)),
      foldl_vec _ _ _ (addByFaction_addKeyed .PlayersOnline)]
    simp [Registry.vec_Reset]
  · rw [collectOnlineChars_vec _ (by decide),
      foldl_vec_frame _ _ (addByClass_vec _ (by decide)),
      foldl_vec_frame _ _ (addByLevel_vec _ (by decide)),
      foldl_vec _ _ _ (addByFaction_addKeyed .PlayersTotal),
      foldl_vec_frame _ _ (f1 _ (by decide))]
    simp [Registry.vec_Reset]
  · rw [collectOnlineChars_vec _ (by decide),
      foldl_vec_frame _ _ (addByClass_vec _ (by decide)),
      foldl_vec _ _ _ addByLevel_addKeyed,
      foldl_vec_frame _ _ (f2 _ (by decide)),
      foldl_vec_frame _ _ (f1 _ (by decide))]
    simp [Registry.vec_Reset]
  · rw [collectOnlineChars_vec _ (by decide),
      foldl_vec _ _ _ addByClass_addKeyed,
      foldl_vec_frame _ _ (addByLevel_vec _ (by decide)),
      foldl_vec_frame _ _ (f2 _ (by decide)),
      foldl_vec_frame _ _ (f1 _ (by decide))]
    simp [Registry.vec_Reset]

/-! ## C28 -/

/-- C28 (counterexample): the online-players query returns 2^53 humans, one
dwarf and one night elf.  In this order `faction="Alliance"` is published with
2^53; with the row of the humans last it is published with 2^53 + 2. -/
theorem huge_counts_depend_on_row_order :
    List.Perm [((1 : Int), (9007199254740992 : Int)), (3, 1), (4, 1)]
      [(3, 1), (4, 1), (1, 9007199254740992)]
    ∧ ((collectPlayerMetrics
        (playerQueriesOfRows [(1, 9007199254740992), (3, 1), (4, 1)] [] [] []
          (.ok []) fun _ => .ok "")
        Registry.initial).1.vec .PlayersOnline).value ["Alliance"]
      = some 9007199254740992
    ∧ ((collectPlayerMetrics
        (playerQueriesOfRows [(3, 1), (4, 1), (1, 9007199254740992)] [] [] []
          (.ok []) fun _ => .ok "")
        Registry.initial).1.vec .PlayersOnline).value ["Alliance"]
      = some 9007199254740994 := by
  decide

/-- C28 (amended): when the rows of each of the four accumulation queries of
`collectPlayerMetrics` are returned in another order, and the magnitudes of the
counts of each query sum to at most 2^53, the range in which float64 addition is
exact, the group publishes the same series with the same values in
`wow_players_online`, `wow_players_total`, `wow_players_by_level` and
`wow_players_by_class`. -/
theorem player_accumulation_order_independent
    (online online' total total' : List (Int × Int))
    (byLevel byLevel' byClass byClass' : List (Int × Int × Int))
    (onlineChars : QueryResult (String × Int × Int))
    (username : Int → RowResult String) (r : Registry)
    (h1 : online.Perm online') (h2 : total.Perm total')
    (h3 : byLevel.Perm byLevel') (h4 : byClass.Perm byClass')
    (b1 : countAbsSum online ≤ 2 ^ 53) (b2 : countAbsSum total ≤ 2 ^ 53)
    (b3 : countAbsSum3 byLevel ≤ 2 ^ 53) (b4 : countAbsSum3 byClass ≤ 2 ^ 53) :
    ∀ m ∈ [VecName.PlayersOnline, .PlayersTotal, .PlayersByLevel, .PlayersByClass],
      ∀ ls,
        ((collectPlayerMetrics
            (playerQueriesOfRows online total byLevel byClass onlineChars username)
            r).1.vec m).value ls
          = ((collectPlayerMetrics
              (playerQueriesOfRows online' total' byLevel' byClass' onlineChars
                username) r).1.vec m).value ls := by
  intro m hm ls
  obtain ⟨e1, e2, e3, e4⟩ :=
    collectPlayerMetrics_accumulated online total byLevel byClass onlineChars
      username r
  obtain ⟨e1', e2', e3', e4'⟩ :=
    collectPlayerMetrics_accumulated online' total' byLevel' byClass' onlineChars
      username r
  simp only [List.mem_cons, List.mem_singleton, List.not_mem_nil, or_false] at hm
  rcases hm with rfl | rfl | rfl | rfl
  · rw [e1, e1']
    exact addKeyed_fold_perm factionKey Prod.snd _ _ h1 b1 ls
  · rw [e2, e2']
    exact addKeyed_fold_perm factionKey Prod.snd _ _ h2 b2 ls
  · rw [e3, e3']
    exact addKeyed_fold_perm levelKey _ _ _ h3 b3 ls
  · rw [e4, e4']
    exact addKeyed_fold_perm classKey _ _ _ h4 b4 ls

theorem player_accumulation_order_independent_witness :
    ((collectPlayerMetrics
        (playerQueriesOfRows [(1, 2), (2, 5), (3, 4)] [] [] [] (.ok []) fun _ => .ok "a")
        Registry.initial).1.vec .PlayersOnline).value ["Alliance"]
      = ((collectPlayerMetrics
          (playerQueriesOfRows [(3, 4), (1, 2), (2, 5)] [] [] [] (.ok [])
            fun _ => .ok "a")
          Registry.initial).1.vec .PlayersOnline).value ["Alliance"] :=
  player_accumulation_order_independent [(1, 2), (2, 5), (3, 4)]
    [(3, 4), (1, 2), (2, 5)] [] [] [] [] [] [] (.ok []) (fun _ => .ok "a")
    Registry.initial (by decide) (List.Perm.refl _) (List.Perm.refl _)
    (List.Perm.refl _) (by decide) (by decide) (by decide) (by decide)
    .PlayersOnline (by simp) ["Alliance"]

end AzerothExporter
